import Mathlib

/-!
# Airflow operator: desired-state layer (`pkg/apis/airflow/v1alpha1/airflow.go`)

A shallow embedding of the component-spec protocol of the Airflow operator:
the password generator, the environment composer, the per-kind update
decision `differs`, and the desired-state builders of the nine component
variants.  Go pointers are `Option`s, a Go panic (nil dereference, failed type
assertion, index out of range) is the `none` result of a function returning
`Option`, and the process-wide random generator is an explicit state.
-/

set_option linter.dupNamespace false

namespace Airflow

/-! ## Constants of `airflow.go` -/

def PasswordCharNumSpace : String := "abcdefghijklmnopqrstuvwxyz0123456789"
def PasswordCharSpace : String := "abcdefghijklmnopqrstuvwxyz"

def ValueAirflowCRBase : String := "airflow-base"
def ValueAirflowCRCluster : String := "airflow-cluster"
def ValueAirflowComponentMySQL : String := "mysql"
def ValueAirflowComponentPostgres : String := "postgres"
def ValueAirflowComponentSQLProxy : String := "sqlproxy"
def ValueAirflowComponentSQL : String := "sql"
def ValueAirflowComponentUI : String := "airflowui"
def ValueAirflowComponentNFS : String := "nfs"
def ValueAirflowComponentRedis : String := "redis"
def ValueAirflowComponentScheduler : String := "scheduler"
def ValueAirflowComponentWorker : String := "worker"
def ValueAirflowComponentFlower : String := "flower"

def KindAirflowBase : String := "AirflowBase"
def KindAirflowCluster : String := "AirflowCluster"

def PodManagementPolicyParallel : String := "Parallel"

def GitSyncDestDir : String := "gitdags"
def GCSSyncDestDir : String := "dags"
def afk : String := "AIRFLOW__KUBERNETES__"
def afc : String := "AIRFLOW__CORE__"
def AirflowHome : String := "/usr/local/airflow"
def AirflowDagsBase : String := AirflowHome ++ "/dags/"

/-- Declarations of the package that `airflow.go` uses but that are declared in
other files of the package; they are taken as parameters. -/
structure Decls where
  ExecutorK8s : String
  ExecutorCelery : String
  SchemeGroup : String
  SchemeVersion : String
  defaultMySQLImage : String
  defaultMySQLVersion : String
  defaultPostgresImage : String
  defaultPostgresVersion : String
  gcssyncImage : String
  gcssyncVersion : String
  gitsyncImage : String
  gitsyncVersion : String
  deriving DecidableEq, Repr

/-! ## The random source -/

/-- State of the generator `random`: the raw outputs it will produce and how
many of them have been consumed. -/
structure Rand where
  stream : Nat → Nat
  pos : Nat

/-- The call `random.Intn(n)` for `n > 0`: a number below `n` and the advanced state. -/
def Rand.Intn (r : Rand) (n : Nat) : Nat × Rand :=
  (r.stream r.pos % n, { r with pos := r.pos + 1 })

/-- Indexing a string constant, `s[i]`; out of range is a panic. -/
def byteAt (s : String) (i : Nat) : Option Char := s.data.get? i

/-- The loop `for i := range result { result[i] = PasswordCharNumSpace[random.Intn(...)] }`
over the `n` cells still to fill. -/
def fillRandom : Nat → Rand → Option (List Char × Rand)
  | 0, r => some ([], r)
  | n + 1, r =>
    let (k, r1) := r.Intn PasswordCharNumSpace.length
    match byteAt PasswordCharNumSpace k with
    | none => none
    | some c =>
      match fillRandom n r1 with
      | none => none
      | some (rest, r2) => some (c :: rest, r2)

/-- The assignment `result[0] = c`; panics on an empty slice. -/
def setFirst (result : List Char) (c : Char) : Option (List Char) :=
  match result with
  | [] => none
  | _ :: rest => some (c :: rest)

/-- RandomAlphanumericString generates a random password of some fixed length. -/
def RandomAlphanumericString (strlen : Int) (r : Rand) : Option (List Char × Rand) :=
  if strlen < 0 then none
  else
    match fillRandom strlen.toNat r with
    | none => none
    | some (result, r1) =>
      let (k, r2) := r1.Intn PasswordCharSpace.length
      match byteAt PasswordCharSpace k with
      | none => none
      | some c =>
        match setFirst result c with
        | none => none
        | some result1 => some (result1, r2)

/-! ## Kubernetes objects

Only the fields that `airflow.go` reads or writes are kept; a field the source
never touches stays at its Go zero value and is left out. -/

/-- A Go `map[string]string`, as its list of entries. -/
abbrev StrMap := List (String × String)

structure OwnerReference where
  APIVersion : String
  Kind : String
  Name : String
  UID : String
  Controller : Option Bool
  BlockOwnerDeletion : Option Bool
  deriving DecidableEq, Repr

structure ObjectMeta where
  Name : String := ""
  Namespace : String := ""
  UID : String := ""
  ResourceVersion : String := ""
  Labels : StrMap := []
  Annotations : StrMap := []
  OwnerReferences : List OwnerReference := []
  Finalizers : List String := []
  deriving DecidableEq, Repr

structure LocalObjectReference where
  Name : String
  deriving DecidableEq, Repr

structure SecretKeySelector where
  Name : String
  Key : String
  deriving DecidableEq, Repr

structure EnvVarSource where
  SecretKeyRef : Option SecretKeySelector
  deriving DecidableEq, Repr

structure EnvVar where
  Name : String
  Value : String := ""
  ValueFrom : Option EnvVarSource := none
  deriving DecidableEq, Repr

/-- The type `intstr.IntOrString`. -/
inductive IntOrString where
  | int (v : Int)
  | str (v : String)
  deriving DecidableEq, Repr

/-- The value of a run of decimal digits, `none` when a character is not a digit. -/
def digitsValue : List Char → Nat → Option Nat
  | [], acc => some acc
  | c :: cs, acc =>
    if 48 ≤ c.toNat ∧ c.toNat ≤ 57 then digitsValue cs (acc * 10 + (c.toNat - 48)) else none

/-- The call `strconv.Atoi`: an optional sign and at least one decimal digit, in
the range of a 64-bit `int`; `none` is the error result. -/
def Atoi (val : String) : Option Int :=
  let signed : Option Int :=
    match val.data with
    | [] => none
    | '-' :: cs => if cs = [] then none else (digitsValue cs 0).map (fun n => -(n : Int))
    | '+' :: cs => if cs = [] then none else (digitsValue cs 0).map (fun n => (n : Int))
    | cs => (digitsValue cs 0).map (fun n => (n : Int))
  match signed with
  | some i => if -(2 : Int) ^ 63 ≤ i ∧ i < (2 : Int) ^ 63 then some i else none
  | none => none

/-- The call `intstr.Parse`: an integer when `Atoi` accepts the text, the text otherwise. -/
def intstrParse (val : String) : IntOrString :=
  match Atoi val with
  | some i => IntOrString.int i
  | none => IntOrString.str val

/-- The type `corev1.ResourceRequirements`, which the builders only pass on. -/
structure ResourceRequirements where
  Limits : StrMap := []
  Requests : StrMap := []
  deriving DecidableEq, Repr

/-- The type `corev1.Affinity`, which the builders only pass on. -/
structure Affinity where
  rules : String
  deriving DecidableEq, Repr

structure ContainerPort where
  Name : String
  ContainerPort : Int
  deriving DecidableEq, Repr

structure VolumeMount where
  Name : String
  MountPath : String
  deriving DecidableEq, Repr

structure ExecAction where
  Command : List String
  deriving DecidableEq, Repr

structure HTTPGetAction where
  Path : String
  Port : IntOrString
  deriving DecidableEq, Repr

structure Handler where
  Exec : Option ExecAction := none
  HTTPGet : Option HTTPGetAction := none
  deriving DecidableEq, Repr

structure Probe where
  Handler : Handler
  InitialDelaySeconds : Int := 0
  PeriodSeconds : Int := 0
  TimeoutSeconds : Int := 0
  SuccessThreshold : Int := 0
  FailureThreshold : Int := 0
  deriving DecidableEq, Repr

structure SecurityContext where
  Privileged : Option Bool := none
  deriving DecidableEq, Repr

structure Container where
  Name : String := ""
  Image : String := ""
  Command : List String := []
  Args : List String := []
  Env : List EnvVar := []
  ImagePullPolicy : String := ""
  Resources : ResourceRequirements := {}
  Ports : List ContainerPort := []
  VolumeMounts : List VolumeMount := []
  LivenessProbe : Option Probe := none
  ReadinessProbe : Option Probe := none
  SecurityContext : Option SecurityContext := none
  deriving DecidableEq, Repr

structure EmptyDirVolumeSource where
  Medium : String := ""
  deriving DecidableEq, Repr

structure VolumeSource where
  EmptyDir : Option EmptyDirVolumeSource := none
  deriving DecidableEq, Repr

structure Volume where
  Name : String
  VolumeSource : VolumeSource
  deriving DecidableEq, Repr

/-- The type `corev1.PersistentVolumeClaim`: metadata and a claim spec that the
builders only pass on. -/
structure PersistentVolumeClaim where
  ObjectMeta : ObjectMeta
  Spec : String
  deriving DecidableEq, Repr

structure PodSpec where
  Affinity : Option Affinity := none
  NodeSelector : StrMap := []
  Subdomain : String := ""
  ServiceAccountName : String := ""
  Volumes : List Volume := []
  InitContainers : List Container := []
  Containers : List Container := []
  deriving DecidableEq, Repr

structure PodTemplateSpec where
  ObjectMeta : ObjectMeta := {}
  Spec : PodSpec := {}
  deriving DecidableEq, Repr

structure LabelSelector where
  MatchLabels : StrMap
  deriving DecidableEq, Repr

structure StatefulSetSpec where
  Replicas : Option Int := none
  ServiceName : String := ""
  Selector : Option LabelSelector := none
  Template : PodTemplateSpec := {}
  VolumeClaimTemplates : List PersistentVolumeClaim := []
  PodManagementPolicy : String := ""
  deriving DecidableEq, Repr

structure StatefulSet where
  ObjectMeta : ObjectMeta := {}
  Spec : StatefulSetSpec := {}
  deriving DecidableEq, Repr

structure ServicePort where
  Name : String
  Port : Int
  deriving DecidableEq, Repr

structure ServiceSpec where
  Ports : List ServicePort := []
  Selector : StrMap := []
  ClusterIP : String := ""
  deriving DecidableEq, Repr

structure Service where
  ObjectMeta : ObjectMeta := {}
  Spec : ServiceSpec := {}
  deriving DecidableEq, Repr

structure PodDisruptionBudgetSpec where
  MinAvailable : Option IntOrString := none
  Selector : Option LabelSelector := none
  deriving DecidableEq, Repr

structure PodDisruptionBudget where
  ObjectMeta : ObjectMeta := {}
  Spec : PodDisruptionBudgetSpec := {}
  deriving DecidableEq, Repr

/-- The type `corev1.Secret`; `Data` is a `map[string][]byte`, listed in the order
of the map literal that builds it. -/
structure Secret where
  ObjectMeta : ObjectMeta := {}
  Data : List (String × List Char) := []
  deriving DecidableEq, Repr

structure ServiceAccount where
  ObjectMeta : ObjectMeta := {}
  deriving DecidableEq, Repr

structure Subject where
  Kind : String
  Name : String
  Namespace : String
  deriving DecidableEq, Repr

structure RoleRef where
  APIGroup : String
  Kind : String
  Name : String
  deriving DecidableEq, Repr

structure RoleBinding where
  ObjectMeta : ObjectMeta := {}
  Subjects : List Subject := []
  RoleRef : RoleRef
  deriving DecidableEq, Repr

/-- A value of the interface `metav1.Object`: one of the kinds `airflow.go`
builds or inspects, or an object of any other kind. -/
inductive KObject where
  | serviceAccount (o : ServiceAccount)
  | secret (o : Secret)
  | service (o : Service)
  | podDisruptionBudget (o : PodDisruptionBudget)
  | statefulSet (o : StatefulSet)
  | roleBinding (o : RoleBinding)
  | other (kind : String) (m : ObjectMeta)
  deriving DecidableEq, Repr

/-- The metadata of an object (the accessors of `metav1.Object`). -/
def KObject.meta : KObject → ObjectMeta
  | .serviceAccount o => o.ObjectMeta
  | .secret o => o.ObjectMeta
  | .service o => o.ObjectMeta
  | .podDisruptionBudget o => o.ObjectMeta
  | .statefulSet o => o.ObjectMeta
  | .roleBinding o => o.ObjectMeta
  | .other _ m => m

def KObject.GetResourceVersion (o : KObject) : String := o.meta.ResourceVersion

/-- The kind of an object, as the name of its Go type. -/
def KObject.kind : KObject → String
  | .serviceAccount _ => "ServiceAccount"
  | .secret _ => "Secret"
  | .service _ => "Service"
  | .podDisruptionBudget _ => "PodDisruptionBudget"
  | .statefulSet _ => "StatefulSet"
  | .roleBinding _ => "RoleBinding"
  | .other k _ => k

/-- The lifecycle tag of `resource.Object`; `unset` is the Go zero value. -/
inductive Lifecycle where
  | unset
  | Managed
  | Referred
  deriving DecidableEq, Repr

/-- The list type stored in `resource.Object.ObjList`. -/
inductive ObjListKind where
  | ServiceList
  | SecretList
  | StatefulSetList
  | PodDisruptionBudgetList
  | ServiceAccountList
  | RoleBindingList
  deriving DecidableEq, Repr

/-- The type `resource.Object`. -/
structure Object where
  Obj : KObject
  Lifecycle : Lifecycle := Lifecycle.unset
  ObjList : Option ObjListKind := none
  deriving DecidableEq, Repr

/-- The type `resource.ObjectBag`: the objects in the order they were added. -/
abbrev ObjectBag := List Object

/-! ## Root resources and component specs

The type declarations live in other files of the package; the fields below are
the ones `airflow.go` reads. -/

structure GCSSpec where
  Bucket : String
  Once : Bool
  deriving DecidableEq, Repr

structure GitSpec where
  Repo : String
  Branch : String
  Rev : String
  User : String
  Once : Bool
  CredSecretRef : Option LocalObjectReference
  deriving DecidableEq, Repr

structure DagSpec where
  DagSubdir : String
  Git : Option GitSpec
  GCS : Option GCSSpec
  deriving DecidableEq, Repr

structure MySQLSpec where
  Image : String
  Version : String
  Replicas : Int
  VolumeClaimTemplate : Option PersistentVolumeClaim
  Operator : Bool
  Resources : ResourceRequirements
  deriving DecidableEq, Repr

structure PostgresSpec where
  Image : String
  Version : String
  Replicas : Int
  VolumeClaimTemplate : Option PersistentVolumeClaim
  Operator : Bool
  Resources : ResourceRequirements
  deriving DecidableEq, Repr

structure SQLProxySpec where
  Project : String
  Region : String
  Instance : String
  Image : String
  Version : String
  Resources : ResourceRequirements
  deriving DecidableEq, Repr

structure NFSStoreSpec where
  Image : String
  Version : String
  Resources : ResourceRequirements
  Volume : Option PersistentVolumeClaim
  deriving DecidableEq, Repr

structure AirflowUISpec where
  Image : String
  Version : String
  Replicas : Int
  Resources : ResourceRequirements
  deriving DecidableEq, Repr

structure RedisSpec where
  Image : String
  Version : String
  VolumeClaimTemplate : Option PersistentVolumeClaim
  AdditionalArgs : String
  Resources : ResourceRequirements
  deriving DecidableEq, Repr

structure SchedulerSpec where
  Image : String
  Version : String
  DBName : String
  DBUser : String
  Resources : ResourceRequirements
  deriving DecidableEq, Repr

structure WorkerSpec where
  Image : String
  Version : String
  Replicas : Int
  Resources : ResourceRequirements
  deriving DecidableEq, Repr

structure FlowerSpec where
  Image : String
  Version : String
  Replicas : Int
  Resources : ResourceRequirements
  deriving DecidableEq, Repr

structure AirflowBaseSpec where
  NodeSelector : StrMap
  Affinity : Option Affinity
  Annotations : StrMap
  Labels : StrMap
  deriving DecidableEq, Repr

/-- The root resource `AirflowBase`: its object metadata and its spec. -/
structure AirflowBase where
  ObjectMeta : ObjectMeta
  Spec : AirflowBaseSpec
  deriving DecidableEq, Repr

structure AirflowClusterSpec where
  NodeSelector : StrMap
  Affinity : Option Affinity
  Annotations : StrMap
  Labels : StrMap
  Executor : String
  Scheduler : Option SchedulerSpec
  Worker : Option WorkerSpec
  DAGs : Option DagSpec
  AirflowBaseRef : Option LocalObjectReference
  deriving DecidableEq, Repr

/-- The root resource `AirflowCluster`: its object metadata and its spec. -/
structure AirflowCluster where
  ObjectMeta : ObjectMeta
  Spec : AirflowClusterSpec
  deriving DecidableEq, Repr

/-- A value of the interface `AirflowResource`, also what is passed as the
`rsrc interface{}` argument of the protocol operations. -/
inductive Root where
  | base (r : AirflowBase)
  | cluster (r : AirflowCluster)
  deriving DecidableEq, Repr

/-! ## Naming and ownership -/

def envFromSecret (name : String) (key : String) : Option EnvVarSource :=
  some { SecretKeyRef := some { Name := name, Key := key } }

def rsrcName (name : String) (component : String) (suffix : String) : String :=
  name ++ "-" ++ component ++ suffix

/-- The text of a `schema.GroupVersion` (`GroupVersion.String`). -/
def groupVersionString (group version : String) : String :=
  if group = "" then version else group ++ "/" ++ version

/-- The call `metav1.NewControllerRef(owner, gvk)`. -/
def NewControllerRef (owner : ObjectMeta) (group version kind : String) : OwnerReference :=
  { APIVersion := groupVersionString group version
    Kind := kind
    Name := owner.Name
    UID := owner.UID
    BlockOwnerDeletion := some true
    Controller := some true }

def AirflowBase.getName (r : AirflowBase) : String := r.ObjectMeta.Name
def AirflowBase.getAffinity (r : AirflowBase) : Option Affinity := r.Spec.Affinity
def AirflowBase.getNodeSelector (r : AirflowBase) : StrMap := r.Spec.NodeSelector
def AirflowBase.getLabels (r : AirflowBase) : StrMap := r.Spec.Labels
def AirflowBase.getCRName (_r : AirflowBase) : String := ValueAirflowCRBase

def AirflowBase.getMeta (d : Decls) (r : AirflowBase) (name : String) (labels : StrMap) :
    Airflow.ObjectMeta :=
  { Namespace := r.ObjectMeta.Namespace
    Annotations := r.Spec.Annotations
    Labels := labels
    Name := name
    OwnerReferences :=
      [NewControllerRef r.ObjectMeta d.SchemeGroup d.SchemeVersion KindAirflowBase] }

def AirflowCluster.getName (r : AirflowCluster) : String := r.ObjectMeta.Name
def AirflowCluster.getAffinity (r : AirflowCluster) : Option Affinity := r.Spec.Affinity
def AirflowCluster.getNodeSelector (r : AirflowCluster) : StrMap := r.Spec.NodeSelector
def AirflowCluster.getLabels (r : AirflowCluster) : StrMap := r.Spec.Labels
def AirflowCluster.getCRName (_r : AirflowCluster) : String := ValueAirflowCRCluster

def AirflowCluster.getMeta (d : Decls) (r : AirflowCluster) (name : String) (labels : StrMap) :
    Airflow.ObjectMeta :=
  { Namespace := r.ObjectMeta.Namespace
    Annotations := r.Spec.Annotations
    Labels := labels
    Name := name
    OwnerReferences :=
      [NewControllerRef r.ObjectMeta d.SchemeGroup d.SchemeVersion KindAirflowCluster] }

def Root.getName : Root → String
  | .base r => r.getName
  | .cluster r => r.getName

def Root.getAffinity : Root → Option Affinity
  | .base r => r.getAffinity
  | .cluster r => r.getAffinity

def Root.getNodeSelector : Root → StrMap
  | .base r => r.getNodeSelector
  | .cluster r => r.getNodeSelector

def Root.getMeta (d : Decls) : Root → String → StrMap → ObjectMeta
  | .base r => r.getMeta d
  | .cluster r => r.getMeta d

/-! ## The environment composer -/

def AirflowCluster.getAirflowPrometheusEnv (r : AirflowCluster) : Option (List EnvVar) :=
  match r.Spec.AirflowBaseRef with
  | none => none
  | some baseRef =>
    let sqlSvcName := rsrcName baseRef.Name ValueAirflowComponentSQL ""
    let sqlSecret := rsrcName r.ObjectMeta.Name ValueAirflowComponentUI ""
    let ap := "AIRFLOW_PROMETHEUS_"
    let apd := ap ++ "DATABASE_"
    match r.Spec.Scheduler with
    | none => none
    | some sched =>
      some [
        { Name := ap ++ "LISTEN_ADDR", Value := ":9112" },
        { Name := apd ++ "BACKEND", Value := "mysql" },
        { Name := apd ++ "HOST", Value := sqlSvcName },
        { Name := apd ++ "PORT", Value := "3306" },
        { Name := apd ++ "USER", Value := sched.DBUser },
        { Name := apd ++ "PASSWORD", ValueFrom := envFromSecret sqlSecret "password" },
        { Name := apd ++ "NAME", Value := sched.DBName } ]

/-- The local `dagFolder` of `getAirflowEnv`. -/
def dagFolderOf (dags : Option DagSpec) : String :=
  match dags with
  | none => AirflowDagsBase
  | some ds =>
    if ds.Git.isSome then AirflowDagsBase ++ "/" ++ GitSyncDestDir ++ "/" ++ ds.DagSubdir
    else if ds.GCS.isSome then AirflowDagsBase ++ "/" ++ GCSSyncDestDir ++ "/" ++ ds.DagSubdir
    else AirflowDagsBase

/-- The entries `getAirflowEnv` appends under the Kubernetes executor when the
DAG source is Git. -/
def gitEnvOf (dags : Option DagSpec) (saName : String) : List EnvVar :=
  match dags with
  | none => []
  | some ds =>
    match ds.Git with
    | none => []
    | some git =>
      [ { Name := afk ++ "GIT_REPO", Value := git.Repo },
        { Name := afk ++ "GIT_BRANCH", Value := git.Branch },
        { Name := afk ++ "GIT_SUBPATH", Value := ds.DagSubdir },
        { Name := afk ++ "WORKER_SERVICE_ACCOUNT_NAME", Value := saName } ] ++
      (match git.CredSecretRef with
       | none => []
       | some ref =>
         [ { Name := "GIT_PASSWORD", ValueFrom := envFromSecret ref.Name "password" },
           { Name := "GIT_USER", Value := git.User } ])

def AirflowCluster.getAirflowEnv (d : Decls) (r : AirflowCluster) (saName : String) :
    Option (List EnvVar) :=
  let sp := r.Spec
  match sp.AirflowBaseRef with
  | none => none
  | some baseRef =>
    let sqlSvcName := rsrcName baseRef.Name ValueAirflowComponentSQL ""
    let sqlSecret := rsrcName r.ObjectMeta.Name ValueAirflowComponentUI ""
    let redisSecret := rsrcName r.ObjectMeta.Name ValueAirflowComponentRedis ""
    let redisSvcName := redisSecret
    let dagFolder := dagFolderOf sp.DAGs
    let dbType := "mysql"
    match sp.Scheduler with
    | none => none
    | some sched =>
      let env : List EnvVar := [
        { Name := "EXECUTOR", Value := sp.Executor },
        { Name := "SQL_PASSWORD", ValueFrom := envFromSecret sqlSecret "password" },
        { Name := afc ++ "DAGS_FOLDER", Value := dagFolder },
        { Name := "SQL_HOST", Value := sqlSvcName },
        { Name := "SQL_USER", Value := sched.DBUser },
        { Name := "SQL_DB", Value := sched.DBName },
        { Name := "DB_TYPE", Value := dbType } ]
      let envK : Option (List EnvVar) :=
        if sp.Executor = d.ExecutorK8s then
          match sp.Worker with
          | none => none
          | some worker =>
            some (env ++ [
              { Name := afk ++ "WORKER_CONTAINER_REPOSITORY", Value := worker.Image },
              { Name := afk ++ "WORKER_CONTAINER_TAG", Value := worker.Version },
              { Name := afk ++ "WORKER_CONTAINER_IMAGE_PULL_POLICY", Value := "IfNotPresent" },
              { Name := afk ++ "DELETE_WORKER_PODS", Value := "True" },
              { Name := afk ++ "NAMESPACE", Value := r.ObjectMeta.Namespace } ] ++
              gitEnvOf sp.DAGs saName)
        else some env
      match envK with
      | none => none
      | some env1 =>
        if sp.Executor = d.ExecutorCelery then
          some (env1 ++ [
            { Name := "REDIS_PASSWORD", ValueFrom := envFromSecret redisSecret "password" },
            { Name := "REDIS_HOST", Value := redisSvcName } ])
        else some env1

/-! ## Assignments to the fields of a StatefulSet -/

/-- The assignment `ss.Spec.Replicas = &n`. -/
def StatefulSet.withReplicas (ss : StatefulSet) (n : Int) : StatefulSet :=
  { ss with Spec := { ss.Spec with Replicas := some n } }

/-- The assignment `ss.Spec.PodManagementPolicy = p`. -/
def StatefulSet.withPodManagementPolicy (ss : StatefulSet) (p : String) : StatefulSet :=
  { ss with Spec := { ss.Spec with PodManagementPolicy := p } }

/-- The assignment `ss.Spec.VolumeClaimTemplates = ts`. -/
def StatefulSet.withVolumeClaimTemplates (ss : StatefulSet)
    (ts : List PersistentVolumeClaim) : StatefulSet :=
  { ss with Spec := { ss.Spec with VolumeClaimTemplates := ts } }

/-- An update of `ss.Spec.Template.Spec`. -/
def StatefulSet.withPodSpec (ss : StatefulSet) (f : PodSpec → PodSpec) : StatefulSet :=
  { ss with Spec := { ss.Spec with
      Template := { ss.Spec.Template with Spec := f ss.Spec.Template.Spec } } }

/-- The assignment `ss.Spec.Template.Spec.Volumes = vs`. -/
def StatefulSet.withVolumes (ss : StatefulSet) (vs : List Volume) : StatefulSet :=
  ss.withPodSpec (fun ps => { ps with Volumes := vs })

/-- The assignment `ss.Spec.Template.Spec.Containers = cs`. -/
def StatefulSet.withContainers (ss : StatefulSet) (cs : List Container) : StatefulSet :=
  ss.withPodSpec (fun ps => { ps with Containers := cs })

/-- The assignment `ss.Spec.Template.Spec.InitContainers = cs`. -/
def StatefulSet.withInitContainers (ss : StatefulSet) (cs : List Container) : StatefulSet :=
  ss.withPodSpec (fun ps => { ps with InitContainers := cs })

/-- The assignment `ss.Spec.Template.Spec.ServiceAccountName = n`. -/
def StatefulSet.withServiceAccountName (ss : StatefulSet) (n : String) : StatefulSet :=
  ss.withPodSpec (fun ps => { ps with ServiceAccountName := n })

/-- The volume `{Name: name, VolumeSource: {EmptyDir: &EmptyDirVolumeSource{}}}`. -/
def emptyDirVolume (name : String) : Volume :=
  { Name := name, VolumeSource := { EmptyDir := some {} } }

/-- A probe that runs a command. -/
def execProbe (command : List String) (initialDelay period timeout : Int) : Probe :=
  { Handler := { Exec := some { Command := command } }
    InitialDelaySeconds := initialDelay
    PeriodSeconds := period
    TimeoutSeconds := timeout }

/-! ## DAG-sync containers -/

def GCSSpec.container (d : Decls) (s : GCSSpec) (volName : String) : Bool × Container :=
  let env : List EnvVar := [ { Name := "GCS_BUCKET", Value := s.Bucket } ]
  let init := if s.Once then true else false
  let container : Container :=
    { Name := "gcs-syncd"
      Image := d.gcssyncImage ++ ":" ++ d.gcssyncVersion
      Env := env
      Args := ["/home/airflow/gcs"]
      VolumeMounts := [ { Name := volName, MountPath := "/home/airflow/gcs" } ] }
  (init, container)

/-- The call `strconv.FormatBool`. -/
def FormatBool (b : Bool) : String := if b then "true" else "false"

def GitSpec.container (d : Decls) (s : GitSpec) (volName : String) : Bool × Container :=
  let env : List EnvVar := [
    { Name := "GIT_SYNC_REPO", Value := s.Repo },
    { Name := "GIT_SYNC_DEST", Value := GitSyncDestDir },
    { Name := "GIT_SYNC_BRANCH", Value := s.Branch },
    { Name := "GIT_SYNC_ONE_TIME", Value := FormatBool s.Once },
    { Name := "GIT_SYNC_REV", Value := s.Rev } ]
  let env :=
    match s.CredSecretRef with
    | some ref =>
      env ++ [
        { Name := "GIT_PASSWORD", ValueFrom := envFromSecret ref.Name "password" },
        { Name := "GIT_USER", Value := s.User } ]
    | none => env
  let init := if s.Once then true else false
  let container : Container :=
    { Name := "git-sync"
      Image := d.gitsyncImage ++ ":" ++ d.gitsyncVersion
      Env := env
      Command := ["/git-sync"]
      Ports := [ { Name := "gitsync", ContainerPort := 2020 } ]
      VolumeMounts := [ { Name := volName, MountPath := "/git" } ] }
  (init, container)

def DagSpec.container (d : Decls) (s : DagSpec) (volName : String) : Bool × Container :=
  match s.Git with
  | some git => git.container d volName
  | none =>
    match s.GCS with
    | some gcs => gcs.container d volName
    | none => (false, {})

def AirflowCluster.addAirflowContainers (d : Decls) (r : AirflowCluster) (ss : StatefulSet)
    (containers : List Container) (volName : String) : StatefulSet :=
  let ss := ss.withInitContainers []
  match r.Spec.DAGs with
  | some dags =>
    let (init, dagContainer) := dags.container d volName
    if init then
      (ss.withInitContainers [dagContainer]).withContainers containers
    else
      ss.withContainers (containers ++ [dagContainer])
  | none => ss.withContainers containers

/-- The shell script of the `mysql-dbcreate` init container. -/
def mysqlDBCreateScript : String :=
  "\nmysql -uroot -h$(SQL_HOST) -p$(SQL_ROOT_PASSWORD) << EOSQL \n" ++
  "CREATE DATABASE IF NOT EXISTS $(SQL_DB);\n" ++
  "USE $(SQL_DB);\n" ++
  "CREATE USER IF NOT EXISTS \x27$(SQL_USER)\x27@\x27%\x27 IDENTIFIED BY \x27$(SQL_PASSWORD)\x27;\n" ++
  "GRANT ALL ON $(SQL_DB).* TO \x27$(SQL_USER)\x27@\x27%\x27 ;\n" ++
  "FLUSH PRIVILEGES;\n" ++
  "EOSQL\n"

def AirflowCluster.addMySQLUserDBContainer (d : Decls) (r : AirflowCluster) (ss : StatefulSet) :
    Option StatefulSet :=
  match r.Spec.AirflowBaseRef with
  | none => none
  | some baseRef =>
    let sqlRootSecret := rsrcName baseRef.Name ValueAirflowComponentSQL ""
    let sqlSvcName := rsrcName baseRef.Name ValueAirflowComponentSQL ""
    let sqlSecret := rsrcName r.ObjectMeta.Name ValueAirflowComponentUI ""
    match r.Spec.Scheduler with
    | none => none
    | some sched =>
      let env : List EnvVar := [
        { Name := "SQL_ROOT_PASSWORD", ValueFrom := envFromSecret sqlRootSecret "rootpassword" },
        { Name := "SQL_DB", Value := sched.DBName },
        { Name := "SQL_USER", Value := sched.DBUser },
        { Name := "SQL_PASSWORD", ValueFrom := envFromSecret sqlSecret "password" },
        { Name := "SQL_HOST", Value := sqlSvcName },
        { Name := "DB_TYPE", Value := "mysql" } ]
      let containers : List Container := [
        { Name := "mysql-dbcreate"
          Image := d.defaultMySQLImage ++ ":" ++ d.defaultMySQLVersion
          Env := env
          Command := ["/bin/bash"]
          Args := ["-c", mysqlDBCreateScript] } ]
      some (ss.withInitContainers (containers ++ ss.Spec.Template.Spec.InitContainers))

/-! ## Generic builders -/

def sts (d : Decls) (r : Root) (component : String) (suffix : String) (svc : Bool)
    (labels : StrMap) : StatefulSet :=
  let name := rsrcName r.getName component suffix
  let svcName := if svc then name else ""
  let m := r.getMeta d name labels
  { ObjectMeta := m
    Spec :=
      { ServiceName := svcName
        Selector := some { MatchLabels := labels }
        Template :=
          { ObjectMeta := { Annotations := m.Annotations, Labels := labels }
            Spec :=
              { Affinity := r.getAffinity
                NodeSelector := r.getNodeSelector
                Subdomain := name } } } }

def service (d : Decls) (r : Root) (component : String) (name : String) (labels : StrMap)
    (ports : List ServicePort) : Object :=
  let sname := rsrcName r.getName component ""
  let name := if name = "" then sname else name
  { Obj := KObject.service
      { ObjectMeta := r.getMeta d name labels
        Spec := { Ports := ports, Selector := labels } }
    Lifecycle := Lifecycle.Managed
    ObjList := some ObjListKind.ServiceList }

def podDisruption (d : Decls) (r : Root) (component : String) (suffix : String)
    (minavail : String) (labels : StrMap) : Object :=
  let name := rsrcName r.getName component suffix
  let minAvailable := intstrParse minavail
  { Obj := KObject.podDisruptionBudget
      { ObjectMeta := r.getMeta d name labels
        Spec :=
          { MinAvailable := some minAvailable
            Selector := some { MatchLabels := labels } } }
    Lifecycle := Lifecycle.Managed
    ObjList := some ObjListKind.PodDisruptionBudgetList }

/-- An object wrapping a StatefulSet, as every `sts` method returns it. -/
def stsObject (ss : StatefulSet) : Object :=
  { Obj := KObject.statefulSet ss
    Lifecycle := Lifecycle.Managed
    ObjList := some ObjListKind.StatefulSetList }

/-! ## MySQL -/

def MySQLSpec.service (d : Decls) (_s : MySQLSpec) (r : AirflowBase) (labels : StrMap) : Object :=
  Airflow.service d (Root.base r) ValueAirflowComponentMySQL
    (rsrcName r.ObjectMeta.Name ValueAirflowComponentSQL "") labels
    [ { Name := "mysql", Port := 3306 } ]

def MySQLSpec.podDisruption (d : Decls) (_s : MySQLSpec) (r : AirflowBase) (labels : StrMap) :
    Object :=
  Airflow.podDisruption d (Root.base r) ValueAirflowComponentMySQL "" "100%" labels

def MySQLSpec.secret (d : Decls) (_s : MySQLSpec) (r : AirflowBase) (labels : StrMap)
    (rnd : Rand) : Option (Object × Rand) :=
  let name := rsrcName r.getName ValueAirflowComponentSQL ""
  match RandomAlphanumericString 16 rnd with
  | none => none
  | some (password, rnd1) =>
    match RandomAlphanumericString 16 rnd1 with
    | none => none
    | some (rootpassword, rnd2) =>
      some ({ Obj := KObject.secret
                { ObjectMeta := r.getMeta d name labels
                  Data := [("password", password), ("rootpassword", rootpassword)] }
              Lifecycle := Lifecycle.Managed
              ObjList := some ObjListKind.SecretList }, rnd2)

def MySQLSpec.sts (d : Decls) (s : MySQLSpec) (r : AirflowBase) (labels : StrMap) : Object :=
  let sqlSecret := rsrcName r.getName ValueAirflowComponentSQL ""
  let ss := Airflow.sts d (Root.base r) ValueAirflowComponentMySQL "" true labels
  let ss := ss.withReplicas s.Replicas
  let volName := "mysql-data"
  let (ss, volName) :=
    match s.VolumeClaimTemplate with
    | some t => (ss.withVolumeClaimTemplates [t], t.ObjectMeta.Name)
    | none => (ss.withVolumes [emptyDirVolume volName], volName)
  let ss := ss.withContainers [
    { Name := "mysql"
      Image := s.Image ++ ":" ++ s.Version
      Env := [
        { Name := "MYSQL_DATABASE", Value := "testdb" },
        { Name := "MYSQL_USER", Value := "airflow" },
        { Name := "MYSQL_PASSWORD", ValueFrom := envFromSecret sqlSecret "password" },
        { Name := "MYSQL_ROOT_PASSWORD", ValueFrom := envFromSecret sqlSecret "rootpassword" } ]
      Args := ["--explicit-defaults-for-timestamp=ON"]
      Resources := s.Resources
      Ports := [ { Name := "mysql", ContainerPort := 3306 } ]
      VolumeMounts := [ { Name := volName, MountPath := "/var/lib/mysql" } ]
      LivenessProbe :=
        some (execProbe ["bash", "-c", "mysqladmin -p$MYSQL_ROOT_PASSWORD ping"] 30 20 5)
      ReadinessProbe :=
        some (execProbe
          ["bash", "-c", "mysql -u$MYSQL_USER -p$MYSQL_PASSWORD -e \"use testdb\""] 10 5 2) } ]
  stsObject ss

/-! ## Postgres -/

def PostgresSpec.service (d : Decls) (_s : PostgresSpec) (r : AirflowBase) (labels : StrMap) :
    Object :=
  Airflow.service d (Root.base r) ValueAirflowComponentPostgres
    (rsrcName r.ObjectMeta.Name ValueAirflowComponentSQL "") labels
    [ { Name := "postgres", Port := 5432 } ]

def PostgresSpec.podDisruption (d : Decls) (_s : PostgresSpec) (r : AirflowBase)
    (labels : StrMap) : Object :=
  Airflow.podDisruption d (Root.base r) ValueAirflowComponentPostgres "" "100%" labels

/-- The Postgres secret; the source sets neither `Lifecycle` nor `ObjList` here. -/
def PostgresSpec.secret (d : Decls) (_s : PostgresSpec) (r : AirflowBase) (labels : StrMap)
    (rnd : Rand) : Option (Object × Rand) :=
  let name := rsrcName r.ObjectMeta.Name ValueAirflowComponentSQL ""
  match RandomAlphanumericString 16 rnd with
  | none => none
  | some (password, rnd1) =>
    match RandomAlphanumericString 16 rnd1 with
    | none => none
    | some (rootpassword, rnd2) =>
      some ({ Obj := KObject.secret
                { ObjectMeta := r.getMeta d name labels
                  Data := [("password", password), ("rootpassword", rootpassword)] } }, rnd2)

def PostgresSpec.sts (d : Decls) (s : PostgresSpec) (r : AirflowBase) (labels : StrMap) :
    Object :=
  let sqlSecret := rsrcName r.ObjectMeta.Name ValueAirflowComponentSQL ""
  let ss := Airflow.sts d (Root.base r) ValueAirflowComponentPostgres "" true labels
  let ss := ss.withReplicas s.Replicas
  let volName := "postgres-data"
  let (ss, volName) :=
    match s.VolumeClaimTemplate with
    | some t => (ss.withVolumeClaimTemplates [t], t.ObjectMeta.Name)
    | none => (ss.withVolumes [emptyDirVolume volName], volName)
  let ss := ss.withContainers [
    { Name := "postgres"
      Image := s.Image ++ ":" ++ s.Version
      Env := [
        { Name := "POSTGRES_DB", Value := "testdb" },
        { Name := "POSTGRES_USER", Value := "airflow" },
        { Name := "POSTGRES_PASSWORD", ValueFrom := envFromSecret sqlSecret "rootpassword" } ]
      Resources := s.Resources
      Ports := [ { Name := "postgres", ContainerPort := 5432 } ]
      VolumeMounts := [ { Name := volName, MountPath := "/var/lib/postgres/data" } ]
      LivenessProbe :=
        some (execProbe
          ["bash", "-c", "psql -w -U $POSTGRES_USER -d $POSTGRES_DB -c SELECT 1"] 30 20 5)
      ReadinessProbe :=
        some (execProbe
          ["bash", "-c", "psql -w -U $POSTGRES_USER -d $POSTGRES_DB -c SELECT 1"] 10 5 2) } ]
  stsObject ss

/-! ## Airflow UI -/

def AirflowUISpec.secret (d : Decls) (_s : AirflowUISpec) (r : AirflowCluster) (labels : StrMap)
    (rnd : Rand) : Option (Object × Rand) :=
  let name := rsrcName r.ObjectMeta.Name ValueAirflowComponentUI ""
  match RandomAlphanumericString 16 rnd with
  | none => none
  | some (password, rnd1) =>
    some ({ Obj := KObject.secret
              { ObjectMeta := r.getMeta d name labels
                Data := [("password", password)] }
            Lifecycle := Lifecycle.Managed
            ObjList := some ObjListKind.SecretList }, rnd1)

def AirflowUISpec.sts (d : Decls) (s : AirflowUISpec) (r : AirflowCluster) (labels : StrMap) :
    Option Object :=
  let volName := "dags-data"
  let ss := Airflow.sts d (Root.cluster r) ValueAirflowComponentUI "" false labels
  let ss := ss.withReplicas s.Replicas
  let ss := ss.withPodManagementPolicy PodManagementPolicyParallel
  let ss := ss.withVolumes [emptyDirVolume volName]
  let args := ["webserver"]
  match r.getAirflowEnv d ss.ObjectMeta.Name with
  | none => none
  | some env =>
    let containers : List Container := [
      { Name := "airflow-ui"
        Image := s.Image ++ ":" ++ s.Version
        Env := env
        ImagePullPolicy := "Always"
        Args := args
        Resources := s.Resources
        Ports := [ { Name := "web", ContainerPort := 8080 } ]
        VolumeMounts := [ { Name := volName, MountPath := "/usr/local/airflow/dags/" } ]
        LivenessProbe := some
          { Handler := { HTTPGet := some { Path := "/health", Port := IntOrString.str "web" } }
            InitialDelaySeconds := 100
            PeriodSeconds := 60
            TimeoutSeconds := 2
            SuccessThreshold := 1
            FailureThreshold := 5 } } ]
    let ss := r.addAirflowContainers d ss containers volName
    match r.addMySQLUserDBContainer d ss with
    | none => none
    | some ss => some (stsObject ss)

/-! ## NFS store -/

def NFSStoreSpec.sts (d : Decls) (s : NFSStoreSpec) (r : AirflowBase) (labels : StrMap) :
    Object :=
  let ss := Airflow.sts d (Root.base r) ValueAirflowComponentNFS "" true labels
  let ss := ss.withPodManagementPolicy PodManagementPolicyParallel
  let volName := "nfs-data"
  let (ss, volName) :=
    match s.Volume with
    | some t => (ss.withVolumeClaimTemplates [t], t.ObjectMeta.Name)
    | none => (ss.withVolumes [emptyDirVolume volName], volName)
  let ss := ss.withContainers [
    { Name := "nfs-server"
      Image := s.Image ++ ":" ++ s.Version
      Resources := s.Resources
      Ports := [
        { Name := "nfs", ContainerPort := 2049 },
        { Name := "mountd", ContainerPort := 20048 },
        { Name := "rpcbind", ContainerPort := 111 } ]
      SecurityContext := some {}
      VolumeMounts := [ { Name := volName, MountPath := "/exports" } ] } ]
  stsObject ss

def NFSStoreSpec.podDisruption (d : Decls) (_s : NFSStoreSpec) (r : AirflowBase)
    (labels : StrMap) : Object :=
  Airflow.podDisruption d (Root.base r) ValueAirflowComponentNFS "" "100%" labels

def NFSStoreSpec.service (d : Decls) (_s : NFSStoreSpec) (r : AirflowBase) (labels : StrMap) :
    Object :=
  Airflow.service d (Root.base r) ValueAirflowComponentNFS "" labels
    [ { Name := "nfs", Port := 2049 },
      { Name := "mountd", Port := 20048 },
      { Name := "rpcbind", Port := 111 } ]

/-! ## SQL proxy -/

def SQLProxySpec.service (d : Decls) (_s : SQLProxySpec) (r : AirflowBase) (labels : StrMap) :
    Object :=
  Airflow.service d (Root.base r) ValueAirflowComponentSQLProxy
    (rsrcName r.ObjectMeta.Name ValueAirflowComponentSQL "") labels
    [ { Name := "sqlproxy", Port := 3306 } ]

def SQLProxySpec.sts (d : Decls) (s : SQLProxySpec) (r : AirflowBase) (labels : StrMap) :
    Object :=
  let ss := Airflow.sts d (Root.base r) ValueAirflowComponentSQLProxy "" true labels
  let inst := s.Project ++ ":" ++ s.Region ++ ":" ++ s.Instance ++ "=tcp:0.0.0.0:3306"
  let ss := ss.withContainers [
    { Name := "sqlproxy"
      Image := s.Image ++ ":" ++ s.Version
      Env := [ { Name := "SQL_INSTANCE", Value := inst } ]
      Command := ["/cloud_sql_proxy", "-instances", "$(SQL_INSTANCE)"]
      Resources := s.Resources
      Ports := [ { Name := "sqlproxy", ContainerPort := 3306 } ] } ]
  stsObject ss

/-! ## Redis -/

def RedisSpec.service (d : Decls) (_s : RedisSpec) (r : AirflowCluster) (labels : StrMap) :
    Object :=
  Airflow.service d (Root.cluster r) ValueAirflowComponentRedis "" labels
    [ { Name := "redis", Port := 6379 } ]

def RedisSpec.podDisruption (d : Decls) (_s : RedisSpec) (r : AirflowCluster)
    (labels : StrMap) : Object :=
  Airflow.podDisruption d (Root.cluster r) ValueAirflowComponentRedis "" "100%" labels

def RedisSpec.secret (d : Decls) (_s : RedisSpec) (r : AirflowCluster) (labels : StrMap)
    (rnd : Rand) : Option (Object × Rand) :=
  let name := rsrcName r.ObjectMeta.Name ValueAirflowComponentRedis ""
  match RandomAlphanumericString 16 rnd with
  | none => none
  | some (password, rnd1) =>
    some ({ ObjList := some ObjListKind.SecretList
            Lifecycle := Lifecycle.Managed
            Obj := KObject.secret
              { ObjectMeta := r.getMeta d name labels
                Data := [("password", password)] } }, rnd1)

def RedisSpec.sts (d : Decls) (s : RedisSpec) (r : AirflowCluster) (labels : StrMap) : Object :=
  let redisSecret := rsrcName r.ObjectMeta.Name ValueAirflowComponentRedis ""
  let ss := Airflow.sts d (Root.cluster r) ValueAirflowComponentRedis "" true labels
  let volName := "redis-data"
  let (ss, volName) :=
    match s.VolumeClaimTemplate with
    | some t => (ss.withVolumeClaimTemplates [t], t.ObjectMeta.Name)
    | none => (ss.withVolumes [emptyDirVolume volName], volName)
  let args := ["--requirepass", "$(REDIS_PASSWORD)"]
  let args := if s.AdditionalArgs ≠ "" then args ++ ["$(REDIS_EXTRA_FLAGS)"] else args
  let ss := ss.withContainers [
    { Name := "redis"
      Image := s.Image ++ ":" ++ s.Version
      Env := [
        { Name := "REDIS_EXTRA_FLAGS", Value := s.AdditionalArgs },
        { Name := "REDIS_PASSWORD", ValueFrom := envFromSecret redisSecret "password" } ]
      Args := args
      Resources := s.Resources
      Ports := [ { Name := "redis", ContainerPort := 6379 } ]
      VolumeMounts := [ { Name := volName, MountPath := "/data" } ]
      LivenessProbe := some (execProbe ["redis-cli", "ping"] 30 20 5)
      ReadinessProbe := some (execProbe ["redis-cli", "ping"] 10 5 2) } ]
  stsObject ss

/-! ## Scheduler -/

def SchedulerSpec.serviceaccount (d : Decls) (_s : SchedulerSpec) (r : AirflowCluster)
    (labels : StrMap) : Object :=
  let name := rsrcName r.ObjectMeta.Name ValueAirflowComponentScheduler ""
  { Lifecycle := Lifecycle.Managed
    ObjList := some ObjListKind.ServiceAccountList
    Obj := KObject.serviceAccount { ObjectMeta := r.getMeta d name labels } }

def SchedulerSpec.rb (d : Decls) (_s : SchedulerSpec) (r : AirflowCluster) (labels : StrMap) :
    Object :=
  let name := rsrcName r.ObjectMeta.Name ValueAirflowComponentScheduler ""
  { Lifecycle := Lifecycle.Managed
    ObjList := some ObjListKind.RoleBindingList
    Obj := KObject.roleBinding
      { ObjectMeta := r.getMeta d name labels
        Subjects :=
          [ { Kind := "ServiceAccount", Name := name, Namespace := r.ObjectMeta.Namespace } ]
        RoleRef :=
          { APIGroup := "rbac.authorization.k8s.io", Kind := "ClusterRole",
            Name := "cluster-admin" } } }

def SchedulerSpec.sts (d : Decls) (s : SchedulerSpec) (r : AirflowCluster) (labels : StrMap) :
    Option Object :=
  let volName := "dags-data"
  let ss := Airflow.sts d (Root.cluster r) ValueAirflowComponentScheduler "" true labels
  let ss := ss.withVolumes [emptyDirVolume volName]
  let args := ["scheduler"]
  let ss :=
    if r.Spec.Executor = d.ExecutorK8s then ss.withServiceAccountName ss.ObjectMeta.Name else ss
  match r.getAirflowEnv d ss.ObjectMeta.Name with
  | none => none
  | some env =>
    match r.getAirflowPrometheusEnv with
    | none => none
    | some promEnv =>
      let containers : List Container := [
        { Name := "scheduler"
          Image := s.Image ++ ":" ++ s.Version
          Env := env
          ImagePullPolicy := "Always"
          Args := args
          Resources := s.Resources
          VolumeMounts := [ { Name := volName, MountPath := "/usr/local/airflow/dags/" } ] },
        { Name := "metrics"
          Image := "pbweb/airflow-prometheus-exporter:latest"
          Env := promEnv
          Ports := [ { Name := "metrics", ContainerPort := 9112 } ] } ]
      let ss := r.addAirflowContainers d ss containers volName
      some (stsObject ss)

/-! ## Worker -/

def WorkerSpec.sts (d : Decls) (s : WorkerSpec) (r : AirflowCluster) (labels : StrMap) :
    Option Object :=
  let ss := Airflow.sts d (Root.cluster r) ValueAirflowComponentWorker "" true labels
  let volName := "dags-data"
  let ss := ss.withReplicas s.Replicas
  let ss := ss.withVolumes [emptyDirVolume volName]
  let args := ["worker"]
  match r.getAirflowEnv d ss.ObjectMeta.Name with
  | none => none
  | some env =>
    let containers : List Container := [
      { Name := "worker"
        Image := s.Image ++ ":" ++ s.Version
        Args := args
        Env := env
        ImagePullPolicy := "Always"
        Resources := s.Resources
        Ports := [ { Name := "wlog", ContainerPort := 8793 } ]
        VolumeMounts := [ { Name := volName, MountPath := "/usr/local/airflow/dags/" } ] } ]
    let ss := r.addAirflowContainers d ss containers volName
    some (stsObject ss)

/-! ## Flower -/

def FlowerSpec.sts (d : Decls) (s : FlowerSpec) (r : AirflowCluster) (labels : StrMap) :
    Option Object :=
  let ss := Airflow.sts d (Root.cluster r) ValueAirflowComponentFlower "" true labels
  let volName := "dags-data"
  let ss := ss.withReplicas s.Replicas
  let ss := ss.withVolumes [emptyDirVolume volName]
  let args := ["flower"]
  match r.getAirflowEnv d ss.ObjectMeta.Name with
  | none => none
  | some env =>
    let containers : List Container := [
      { Name := "flower"
        Image := s.Image ++ ":" ++ s.Version
        Args := args
        Env := env
        ImagePullPolicy := "Always"
        Resources := s.Resources
        Ports := [ { Name := "flower", ContainerPort := 5555 } ]
        VolumeMounts := [ { Name := volName, MountPath := "/usr/local/airflow/dags/" } ] } ]
    let ss := r.addAirflowContainers d ss containers volName
    some (stsObject ss)

/-! ## ExpectedResources

Each method returns `(*resource.ObjectBag, error)`; the result below is the bag,
the error (`none` for `nil`) and the state of the random source after the call.
A failed type assertion on `rsrc` and a nil dereference are panics. -/

/-- The pair `(*resource.ObjectBag, error)` returned by `ExpectedResources`. -/
structure Expected where
  resources : ObjectBag
  err : Option String
  deriving DecidableEq, Repr

/-- The type assertion `rsrc.(*AirflowBase)`. -/
def Root.asBase : Root → Option AirflowBase
  | .base r => some r
  | .cluster _ => none

/-- The type assertion `rsrc.(*AirflowCluster)`. -/
def Root.asCluster : Root → Option AirflowCluster
  | .cluster r => some r
  | .base _ => none

def MySQLSpec.ExpectedResources (d : Decls) (s : MySQLSpec) (rsrc : Root) (rsrclabels : StrMap)
    (rnd : Rand) : Option (Expected × Rand) :=
  let resources : ObjectBag := []
  match rsrc.asBase with
  | none => none
  | some r =>
    if !s.Operator then
      match s.secret d r rsrclabels rnd with
      | none => none
      | some (sec, rnd1) =>
        some ({ resources := resources ++
                  [sec, s.service d r rsrclabels, s.sts d r rsrclabels,
                   s.podDisruption d r rsrclabels]
                err := none }, rnd1)
    else some ({ resources := resources, err := none }, rnd)

def PostgresSpec.ExpectedResources (d : Decls) (s : PostgresSpec) (rsrc : Root)
    (rsrclabels : StrMap) (rnd : Rand) : Option (Expected × Rand) :=
  let resources : ObjectBag := []
  match rsrc.asBase with
  | none => none
  | some r =>
    if !s.Operator then
      match s.secret d r rsrclabels rnd with
      | none => none
      | some (sec, rnd1) =>
        some ({ resources := resources ++
                  [sec, s.service d r rsrclabels, s.sts d r rsrclabels,
                   s.podDisruption d r rsrclabels]
                err := none }, rnd1)
    else some ({ resources := resources, err := none }, rnd)

def AirflowUISpec.ExpectedResources (d : Decls) (s : AirflowUISpec) (rsrc : Root)
    (rsrclabels : StrMap) (rnd : Rand) : Option (Expected × Rand) :=
  let resources : ObjectBag := []
  match rsrc.asCluster with
  | none => none
  | some r =>
    match s.sts d r rsrclabels with
    | none => none
    | some ss =>
      match s.secret d r rsrclabels rnd with
      | none => none
      | some (sec, rnd1) => some ({ resources := resources ++ [ss, sec], err := none }, rnd1)

def NFSStoreSpec.ExpectedResources (d : Decls) (s : NFSStoreSpec) (rsrc : Root)
    (rsrclabels : StrMap) (rnd : Rand) : Option (Expected × Rand) :=
  let resources : ObjectBag := []
  match rsrc.asBase with
  | none => none
  | some r =>
    some ({ resources := resources ++
              [s.sts d r rsrclabels, s.service d r rsrclabels, s.podDisruption d r rsrclabels]
            err := none }, rnd)

def SQLProxySpec.ExpectedResources (d : Decls) (s : SQLProxySpec) (rsrc : Root)
    (rsrclabels : StrMap) (rnd : Rand) : Option (Expected × Rand) :=
  let resources : ObjectBag := []
  match rsrc.asBase with
  | none => none
  | some r =>
    let name := rsrcName r.ObjectMeta.Name ValueAirflowComponentSQLProxy ""
    some ({ resources := resources ++
              [s.service d r rsrclabels, s.sts d r rsrclabels,
               { Lifecycle := Lifecycle.Referred
                 Obj := KObject.secret
                   { ObjectMeta := { Namespace := r.ObjectMeta.Namespace, Name := name } } }]
            err := none }, rnd)

def RedisSpec.ExpectedResources (d : Decls) (s : RedisSpec) (rsrc : Root)
    (rsrclabels : StrMap) (rnd : Rand) : Option (Expected × Rand) :=
  let resources : ObjectBag := []
  match rsrc.asCluster with
  | none => none
  | some r =>
    match s.secret d r rsrclabels rnd with
    | none => none
    | some (sec, rnd1) =>
      some ({ resources := resources ++
                [sec, s.service d r rsrclabels, s.sts d r rsrclabels,
                 s.podDisruption d r rsrclabels]
              err := none }, rnd1)

def SchedulerSpec.ExpectedResources (d : Decls) (s : SchedulerSpec) (rsrc : Root)
    (rsrclabels : StrMap) (rnd : Rand) : Option (Expected × Rand) :=
  let resources : ObjectBag := []
  match rsrc.asCluster with
  | none => none
  | some r =>
    match s.sts d r rsrclabels with
    | none => none
    | some ss =>
      let resources := resources ++
        [s.serviceaccount d r rsrclabels, s.rb d r rsrclabels, ss]
      let resources :=
        match r.Spec.DAGs with
        | some dags =>
          match dags.Git with
          | some git =>
            match git.CredSecretRef with
            | some ref =>
              resources ++
                [{ Lifecycle := Lifecycle.Referred
                   Obj := KObject.secret
                     { ObjectMeta :=
                         { Namespace := r.ObjectMeta.Namespace, Name := ref.Name } } }]
            | none => resources
          | none => resources
        | none => resources
      some ({ resources := resources, err := none }, rnd)

def WorkerSpec.ExpectedResources (d : Decls) (s : WorkerSpec) (rsrc : Root)
    (rsrclabels : StrMap) (rnd : Rand) : Option (Expected × Rand) :=
  let resources : ObjectBag := []
  match rsrc.asCluster with
  | none => none
  | some r =>
    match s.sts d r rsrclabels with
    | none => none
    | some ss => some ({ resources := resources ++ [ss], err := none }, rnd)

def FlowerSpec.ExpectedResources (d : Decls) (s : FlowerSpec) (rsrc : Root)
    (rsrclabels : StrMap) (rnd : Rand) : Option (Expected × Rand) :=
  let resources : ObjectBag := []
  match rsrc.asCluster with
  | none => none
  | some r =>
    match s.sts d r rsrclabels with
    | none => none
    | some ss => some ({ resources := resources ++ [ss], err := none }, rnd)

/-! ## The update decision -/

/-- The method `SetResourceVersion` of `metav1.Object`. -/
def KObject.SetResourceVersion (o : KObject) (v : String) : KObject :=
  match o with
  | .serviceAccount x => .serviceAccount { x with ObjectMeta := { x.ObjectMeta with ResourceVersion := v } }
  | .secret x => .secret { x with ObjectMeta := { x.ObjectMeta with ResourceVersion := v } }
  | .service x => .service { x with ObjectMeta := { x.ObjectMeta with ResourceVersion := v } }
  | .podDisruptionBudget x =>
    .podDisruptionBudget { x with ObjectMeta := { x.ObjectMeta with ResourceVersion := v } }
  | .statefulSet x => .statefulSet { x with ObjectMeta := { x.ObjectMeta with ResourceVersion := v } }
  | .roleBinding x => .roleBinding { x with ObjectMeta := { x.ObjectMeta with ResourceVersion := v } }
  | .other k m => .other k { m with ResourceVersion := v }

/-- The function `differs`: whether the resource needs to be updated, together
with `expected` as the call leaves it (the call writes through the pointer).
The type assertion on `observed` in the Service case is a panic when it fails. -/
def differs (expected observed : KObject) : Option (Bool × KObject) :=
  match expected with
  | .serviceAccount _ => some (false, expected)
  | .secret _ => some (false, expected)
  | .service e =>
    match observed with
    | .service o =>
      some (true, .service
        { ObjectMeta := { e.ObjectMeta with ResourceVersion := observed.GetResourceVersion }
          Spec := { e.Spec with ClusterIP := o.Spec.ClusterIP } })
    | _ => none
  | .podDisruptionBudget _ =>
    some (true, expected.SetResourceVersion observed.GetResourceVersion)
  | _ => some (true, expected)

def MySQLSpec.Differs (_s : MySQLSpec) (expected observed : KObject) : Option (Bool × KObject) :=
  differs expected observed

def PostgresSpec.Differs (_s : PostgresSpec) (expected observed : KObject) :
    Option (Bool × KObject) :=
  differs expected observed

def AirflowUISpec.Differs (_s : AirflowUISpec) (expected observed : KObject) :
    Option (Bool × KObject) :=
  differs expected observed

def NFSStoreSpec.Differs (_s : NFSStoreSpec) (expected observed : KObject) :
    Option (Bool × KObject) :=
  differs expected observed

def SQLProxySpec.Differs (_s : SQLProxySpec) (expected observed : KObject) :
    Option (Bool × KObject) :=
  differs expected observed

def RedisSpec.Differs (_s : RedisSpec) (expected observed : KObject) : Option (Bool × KObject) :=
  differs expected observed

def SchedulerSpec.Differs (_s : SchedulerSpec) (expected observed : KObject) :
    Option (Bool × KObject) :=
  differs expected observed

/-- The Worker variant does not call `differs`; its body is `return true`. -/
def WorkerSpec.Differs (_s : WorkerSpec) (expected _observed : KObject) :
    Option (Bool × KObject) :=
  some (true, expected)

def FlowerSpec.Differs (_s : FlowerSpec) (expected observed : KObject) :
    Option (Bool × KObject) :=
  differs expected observed

/-! ## The nine component variants -/

/-- A value of the component-spec interface: one of the nine variants. -/
inductive ComponentSpec where
  | MySQL (s : MySQLSpec)
  | Postgres (s : PostgresSpec)
  | SQLProxy (s : SQLProxySpec)
  | NFSStore (s : NFSStoreSpec)
  | UI (s : AirflowUISpec)
  | Redis (s : RedisSpec)
  | Scheduler (s : SchedulerSpec)
  | Worker (s : WorkerSpec)
  | Flower (s : FlowerSpec)
  deriving DecidableEq, Repr

/-- Dynamic dispatch of `Differs`. -/
def ComponentSpec.Differs (c : ComponentSpec) (expected observed : KObject) :
    Option (Bool × KObject) :=
  match c with
  | .MySQL s => s.Differs expected observed
  | .Postgres s => s.Differs expected observed
  | .SQLProxy s => s.Differs expected observed
  | .NFSStore s => s.Differs expected observed
  | .UI s => s.Differs expected observed
  | .Redis s => s.Differs expected observed
  | .Scheduler s => s.Differs expected observed
  | .Worker s => s.Differs expected observed
  | .Flower s => s.Differs expected observed

/-- Dynamic dispatch of `ExpectedResources`. -/
def ComponentSpec.ExpectedResources (d : Decls) (c : ComponentSpec) (rsrc : Root)
    (rsrclabels : StrMap) (rnd : Rand) : Option (Expected × Rand) :=
  match c with
  | .MySQL s => s.ExpectedResources d rsrc rsrclabels rnd
  | .Postgres s => s.ExpectedResources d rsrc rsrclabels rnd
  | .SQLProxy s => s.ExpectedResources d rsrc rsrclabels rnd
  | .NFSStore s => s.ExpectedResources d rsrc rsrclabels rnd
  | .UI s => s.ExpectedResources d rsrc rsrclabels rnd
  | .Redis s => s.ExpectedResources d rsrc rsrclabels rnd
  | .Scheduler s => s.ExpectedResources d rsrc rsrclabels rnd
  | .Worker s => s.ExpectedResources d rsrc rsrclabels rnd
  | .Flower s => s.ExpectedResources d rsrc rsrclabels rnd

/-! ## Finalize

Every variant has the same body: the type assertion `rsrc.(*AirflowBase)`, the call
`finalizer.Remove(r, finalizer.Cleanup)` and `return nil`.  The result is the root as
the call leaves it and the error (`none` for `nil`); a failed type assertion is a
panic. -/

/-- The package `finalizer` of the kubesdk library, which `airflow.go` imports: the
constant `Cleanup` and what `Remove` makes of a finalizer list. -/
structure FinalizerLib where
  Cleanup : String
  Remove : List String → String → List String

/-- The call `finalizer.Remove(r, finalizer.Cleanup)` on a base resource. -/
def AirflowBase.removeCleanup (fin : FinalizerLib) (r : AirflowBase) : AirflowBase :=
  { r with ObjectMeta :=
      { r.ObjectMeta with Finalizers := fin.Remove r.ObjectMeta.Finalizers fin.Cleanup } }

def MySQLSpec.Finalize (fin : FinalizerLib) (_s : MySQLSpec) (rsrc : Root) :
    Option (Root × Option String) :=
  match rsrc.asBase with
  | none => none
  | some r => some (Root.base (r.removeCleanup fin), none)

def PostgresSpec.Finalize (fin : FinalizerLib) (_s : PostgresSpec) (rsrc : Root) :
    Option (Root × Option String) :=
  match rsrc.asBase with
  | none => none
  | some r => some (Root.base (r.removeCleanup fin), none)

def AirflowUISpec.Finalize (fin : FinalizerLib) (_s : AirflowUISpec) (rsrc : Root) :
    Option (Root × Option String) :=
  match rsrc.asBase with
  | none => none
  | some r => some (Root.base (r.removeCleanup fin), none)

def NFSStoreSpec.Finalize (fin : FinalizerLib) (_s : NFSStoreSpec) (rsrc : Root) :
    Option (Root × Option String) :=
  match rsrc.asBase with
  | none => none
  | some r => some (Root.base (r.removeCleanup fin), none)

def SQLProxySpec.Finalize (fin : FinalizerLib) (_s : SQLProxySpec) (rsrc : Root) :
    Option (Root × Option String) :=
  match rsrc.asBase with
  | none => none
  | some r => some (Root.base (r.removeCleanup fin), none)

def RedisSpec.Finalize (fin : FinalizerLib) (_s : RedisSpec) (rsrc : Root) :
    Option (Root × Option String) :=
  match rsrc.asBase with
  | none => none
  | some r => some (Root.base (r.removeCleanup fin), none)

def SchedulerSpec.Finalize (fin : FinalizerLib) (_s : SchedulerSpec) (rsrc : Root) :
    Option (Root × Option String) :=
  match rsrc.asBase with
  | none => none
  | some r => some (Root.base (r.removeCleanup fin), none)

def WorkerSpec.Finalize (fin : FinalizerLib) (_s : WorkerSpec) (rsrc : Root) :
    Option (Root × Option String) :=
  match rsrc.asBase with
  | none => none
  | some r => some (Root.base (r.removeCleanup fin), none)

def FlowerSpec.Finalize (fin : FinalizerLib) (_s : FlowerSpec) (rsrc : Root) :
    Option (Root × Option String) :=
  match rsrc.asBase with
  | none => none
  | some r => some (Root.base (r.removeCleanup fin), none)

/-- Dynamic dispatch of `Finalize`. -/
def ComponentSpec.Finalize (fin : FinalizerLib) (c : ComponentSpec) (rsrc : Root) :
    Option (Root × Option String) :=
  match c with
  | .MySQL s => s.Finalize fin rsrc
  | .Postgres s => s.Finalize fin rsrc
  | .SQLProxy s => s.Finalize fin rsrc
  | .NFSStore s => s.Finalize fin rsrc
  | .UI s => s.Finalize fin rsrc
  | .Redis s => s.Finalize fin rsrc
  | .Scheduler s => s.Finalize fin rsrc
  | .Worker s => s.Finalize fin rsrc
  | .Flower s => s.Finalize fin rsrc

/-! ## UpdateComponentStatus

The receiver is a spec pointer that may be nil (`Option`); the body is
`if s != nil { stts := statusi.(*...Status); stts.UpdateStatus(reconciled, err) }`.
The result is the status argument as the call leaves it; a failed type assertion is
a panic. -/

/-- The status types of the two root kinds and their `UpdateStatus` methods, which
are declared in other files of the package. -/
structure StatusDecls where
  BaseStatus : Type
  ClusterStatus : Type
  baseUpdateStatus : BaseStatus → List KObject → Option String → BaseStatus
  clusterUpdateStatus : ClusterStatus → List KObject → Option String → ClusterStatus

/-- The argument `statusi interface{}`: a status of one of the two root kinds. -/
inductive StatusArg (sd : StatusDecls) where
  | base (st : sd.BaseStatus)
  | cluster (st : sd.ClusterStatus)

/-- The statements `stts := statusi.(*AirflowBaseStatus); stts.UpdateStatus(reconciled, err)`. -/
def updateBaseStatus (sd : StatusDecls) (statusi : StatusArg sd) (reconciled : List KObject)
    (err : Option String) : Option (StatusArg sd) :=
  match statusi with
  | .base st => some (.base (sd.baseUpdateStatus st reconciled err))
  | .cluster _ => none

/-- The statements `stts := statusi.(*AirflowClusterStatus); stts.UpdateStatus(reconciled, err)`. -/
def updateClusterStatus (sd : StatusDecls) (statusi : StatusArg sd) (reconciled : List KObject)
    (err : Option String) : Option (StatusArg sd) :=
  match statusi with
  | .cluster st => some (.cluster (sd.clusterUpdateStatus st reconciled err))
  | .base _ => none

def MySQLSpec.UpdateComponentStatus (sd : StatusDecls) (s : Option MySQLSpec)
    (statusi : StatusArg sd) (reconciled : List KObject) (err : Option String) :
    Option (StatusArg sd) :=
  match s with
  | some _ => updateBaseStatus sd statusi reconciled err
  | none => some statusi

def PostgresSpec.UpdateComponentStatus (sd : StatusDecls) (s : Option PostgresSpec)
    (statusi : StatusArg sd) (reconciled : List KObject) (err : Option String) :
    Option (StatusArg sd) :=
  match s with
  | some _ => updateBaseStatus sd statusi reconciled err
  | none => some statusi

def AirflowUISpec.UpdateComponentStatus (sd : StatusDecls) (s : Option AirflowUISpec)
    (statusi : StatusArg sd) (reconciled : List KObject) (err : Option String) :
    Option (StatusArg sd) :=
  match s with
  | some _ => updateClusterStatus sd statusi reconciled err
  | none => some statusi

def NFSStoreSpec.UpdateComponentStatus (sd : StatusDecls) (s : Option NFSStoreSpec)
    (statusi : StatusArg sd) (reconciled : List KObject) (err : Option String) :
    Option (StatusArg sd) :=
  match s with
  | some _ => updateBaseStatus sd statusi reconciled err
  | none => some statusi

def SQLProxySpec.UpdateComponentStatus (sd : StatusDecls) (s : Option SQLProxySpec)
    (statusi : StatusArg sd) (reconciled : List KObject) (err : Option String) :
    Option (StatusArg sd) :=
  match s with
  | some _ => updateBaseStatus sd statusi reconciled err
  | none => some statusi

def RedisSpec.UpdateComponentStatus (sd : StatusDecls) (s : Option RedisSpec)
    (statusi : StatusArg sd) (reconciled : List KObject) (err : Option String) :
    Option (StatusArg sd) :=
  match s with
  | some _ => updateClusterStatus sd statusi reconciled err
  | none => some statusi

def SchedulerSpec.UpdateComponentStatus (sd : StatusDecls) (s : Option SchedulerSpec)
    (statusi : StatusArg sd) (reconciled : List KObject) (err : Option String) :
    Option (StatusArg sd) :=
  match s with
  | some _ => updateClusterStatus sd statusi reconciled err
  | none => some statusi

def WorkerSpec.UpdateComponentStatus (sd : StatusDecls) (s : Option WorkerSpec)
    (statusi : StatusArg sd) (reconciled : List KObject) (err : Option String) :
    Option (StatusArg sd) :=
  match s with
  | some _ => updateClusterStatus sd statusi reconciled err
  | none => some statusi

def FlowerSpec.UpdateComponentStatus (sd : StatusDecls) (s : Option FlowerSpec)
    (statusi : StatusArg sd) (reconciled : List KObject) (err : Option String) :
    Option (StatusArg sd) :=
  match s with
  | some _ => updateClusterStatus sd statusi reconciled err
  | none => some statusi

/-- A value of the component-spec interface whose pointer may be nil: the variant is
known from the type, the spec may be absent. -/
inductive ComponentPtr where
  | MySQL (s : Option MySQLSpec)
  | Postgres (s : Option PostgresSpec)
  | SQLProxy (s : Option SQLProxySpec)
  | NFSStore (s : Option NFSStoreSpec)
  | UI (s : Option AirflowUISpec)
  | Redis (s : Option RedisSpec)
  | Scheduler (s : Option SchedulerSpec)
  | Worker (s : Option WorkerSpec)
  | Flower (s : Option FlowerSpec)

/-- Dynamic dispatch of `UpdateComponentStatus`. -/
def ComponentPtr.UpdateComponentStatus (sd : StatusDecls) (c : ComponentPtr)
    (statusi : StatusArg sd) (reconciled : List KObject) (err : Option String) :
    Option (StatusArg sd) :=
  match c with
  | .MySQL s => MySQLSpec.UpdateComponentStatus sd s statusi reconciled err
  | .Postgres s => PostgresSpec.UpdateComponentStatus sd s statusi reconciled err
  | .SQLProxy s => SQLProxySpec.UpdateComponentStatus sd s statusi reconciled err
  | .NFSStore s => NFSStoreSpec.UpdateComponentStatus sd s statusi reconciled err
  | .UI s => AirflowUISpec.UpdateComponentStatus sd s statusi reconciled err
  | .Redis s => RedisSpec.UpdateComponentStatus sd s statusi reconciled err
  | .Scheduler s => SchedulerSpec.UpdateComponentStatus sd s statusi reconciled err
  | .Worker s => WorkerSpec.UpdateComponentStatus sd s statusi reconciled err
  | .Flower s => FlowerSpec.UpdateComponentStatus sd s statusi reconciled err

/-! ## Vocabulary of the statements -/

/-- Whether the object is a Secret or a ServiceAccount. -/
def KObject.isSecretOrServiceAccount : KObject → Bool
  | .secret _ => true
  | .serviceAccount _ => true
  | _ => false

/-- Whether the variant is the Worker. -/
def ComponentSpec.isWorker : ComponentSpec → Bool
  | .Worker _ => true
  | _ => false

/-- Whether the name `s` starts with `p`. -/
def startsWith (s p : String) : Bool := p.data.isPrefixOf s.data

/-- The entries of an environment that carry the given variable name. -/
def envLookup (env : List EnvVar) (name : String) : List EnvVar :=
  env.filter (fun e => e.Name = name)

/-- The names of the variables of an environment. -/
def envNames (env : List EnvVar) : List String := env.map (fun e => e.Name)

/-- The object with every byte of a Secret's `Data` values replaced by `x`; the keys,
the number of bytes and every other field are kept. -/
def KObject.blankSecretData : KObject → KObject
  | .secret s =>
    .secret { s with Data := s.Data.map (fun kv => (kv.1, kv.2.map (fun _ => 'x'))) }
  | o => o

/-- A `resource.Object` with the secret bytes blanked. -/
def Object.blankSecretData (o : Object) : Object :=
  { o with Obj := o.Obj.blankSecretData }

/-- A result of `ExpectedResources` with the secret bytes blanked. -/
def Expected.blankSecretData (e : Expected) : Expected :=
  { e with resources := e.resources.map Object.blankSecretData }

/-- Declarations with which the examples are evaluated. -/
def sampleDecls : Decls :=
  { ExecutorK8s := "Kubernetes"
    ExecutorCelery := "Celery"
    SchemeGroup := "airflow.k8s.io"
    SchemeVersion := "v1alpha1"
    defaultMySQLImage := "mysql"
    defaultMySQLVersion := "5.7"
    defaultPostgresImage := "postgres"
    defaultPostgresVersion := "9.5"
    gcssyncImage := "gcr.io/cloud-airflow-releaser/gcs-syncd"
    gcssyncVersion := "cloud_composer_service_2018-05-23-RC0"
    gitsyncImage := "gcr.io/google_containers/git-sync"
    gitsyncVersion := "v3.0.1" }

/-- A random source whose raw outputs are 30, 37, 44, ... -/
def sampleRand : Rand := { stream := fun i => 7 * i + 30, pos := 0 }

/-- A cluster spec with scheduler, worker and base reference set and no DAG source. -/
def sampleClusterSpec (executor : String) : AirflowClusterSpec :=
  { NodeSelector := []
    Affinity := none
    Annotations := []
    Labels := []
    Executor := executor
    Scheduler := some
      { Image := "airflow", Version := "1.10", DBName := "airflowdb", DBUser := "airflow",
        Resources := {} }
    Worker := some { Image := "airflow", Version := "1.10", Replicas := 2, Resources := {} }
    DAGs := none
    AirflowBaseRef := some { Name := "base" } }

/-- A cluster named `cl` in namespace `ns` with the given executor. -/
def sampleCluster (executor : String) : AirflowCluster :=
  { ObjectMeta := { Name := "cl", Namespace := "ns", UID := "uid-1" }
    Spec := sampleClusterSpec executor }

/-- A Git DAG source with a credential secret. -/
def sampleGitDags : DagSpec :=
  { DagSubdir := "airflow/example_dags/"
    Git := some
      { Repo := "https://github.com/apache/incubator-airflow/", Branch := "master", Rev := "HEAD",
        User := "gituser", Once := true, CredSecretRef := some { Name := "gitcred" } }
    GCS := none }

/-- The sample cluster under the Kubernetes executor with the Git DAG source. -/
def sampleGitCluster : AirflowCluster :=
  { sampleCluster "Kubernetes" with
    Spec := { sampleClusterSpec "Kubernetes" with DAGs := some sampleGitDags } }

/-- The sample cluster under the Kubernetes executor with no worker spec. -/
def sampleClusterNoWorker : AirflowCluster :=
  { sampleCluster "Kubernetes" with
    Spec := { sampleClusterSpec "Kubernetes" with Worker := none } }

/-- A secret as it is observed in the cluster. -/
def sampleSecret (password : String) : Secret :=
  { ObjectMeta := { Name := "base-sql", Namespace := "ns", ResourceVersion := "41" }
    Data := [("password", password.data)] }

/-- The namespace of a root resource. -/
def Root.getNamespace : Root → String
  | .base r => r.ObjectMeta.Namespace
  | .cluster r => r.ObjectMeta.Namespace

/-- The UID of a root resource. -/
def Root.getUID : Root → String
  | .base r => r.ObjectMeta.UID
  | .cluster r => r.ObjectMeta.UID

/-- The key of an object in an object set: its kind and its name. -/
def Object.key (o : Object) : String × String := (o.Obj.kind, o.Obj.meta.Name)

/-- The name of the variant of a component spec. -/
def ComponentSpec.variantName : ComponentSpec → String
  | .MySQL _ => "MySQL"
  | .Postgres _ => "Postgres"
  | .SQLProxy _ => "SQLProxy"
  | .NFSStore _ => "NFSStore"
  | .UI _ => "UI"
  | .Redis _ => "Redis"
  | .Scheduler _ => "Scheduler"
  | .Worker _ => "Worker"
  | .Flower _ => "Flower"

/-- The objects of the base components, as rows (variant, kind, component): the
object has that kind and the name `rsrcName root component ""`. -/
def baseObjectTable : List (String × String × String) :=
  [ ("MySQL", "Secret", "sql"), ("MySQL", "Service", "sql"),
    ("MySQL", "StatefulSet", "mysql"), ("MySQL", "PodDisruptionBudget", "mysql"),
    ("Postgres", "Secret", "sql"), ("Postgres", "Service", "sql"),
    ("Postgres", "StatefulSet", "postgres"), ("Postgres", "PodDisruptionBudget", "postgres"),
    ("SQLProxy", "Service", "sql"), ("SQLProxy", "StatefulSet", "sqlproxy"),
    ("SQLProxy", "Secret", "sqlproxy"),
    ("NFSStore", "StatefulSet", "nfs"), ("NFSStore", "Service", "nfs"),
    ("NFSStore", "PodDisruptionBudget", "nfs") ]

/-- A base resource named `base` in namespace `ns`. -/
def sampleBase : AirflowBase :=
  { ObjectMeta := { Name := "base", Namespace := "ns", UID := "uid-0" }
    Spec := { NodeSelector := [], Affinity := none, Annotations := [], Labels := [] } }

/-- A MySQL spec with the given `Operator` flag and no volume claim template. -/
def sampleMySQL (operator : Bool) : MySQLSpec :=
  { Image := "mysql", Version := "5.7", Replicas := 1, VolumeClaimTemplate := none,
    Operator := operator, Resources := {} }

/-- A Postgres spec with the given `Operator` flag and no volume claim template. -/
def samplePostgres (operator : Bool) : PostgresSpec :=
  { Image := "postgres", Version := "9.5", Replicas := 1, VolumeClaimTemplate := none,
    Operator := operator, Resources := {} }

/-- A SQL proxy spec. -/
def sampleSQLProxy : SQLProxySpec :=
  { Project := "proj", Region := "us-central1", Instance := "inst",
    Image := "gcr.io/cloud-airflow-public/airflow-sqlproxy", Version := "1.8.0", Resources := {} }

/-- An NFS store spec with no volume. -/
def sampleNFS : NFSStoreSpec :=
  { Image := "k8s.gcr.io/volume-nfs", Version := "0.8", Resources := {}, Volume := none }

/-- A scheduler spec. -/
def sampleScheduler : SchedulerSpec :=
  { Image := "airflow", Version := "1.10", DBName := "airflowdb", DBUser := "airflow",
    Resources := {} }

/-- The label map used in the examples. -/
def sampleLabels : StrMap := [("airflow-cr", "airflow-base"), ("airflow-cr-name", "base")]

/-- The `Once` flag of the DAG source that `DagSpec.container` uses: that of Git when
Git is set, else that of GCS when GCS is set. -/
def DagSpec.once (s : DagSpec) : Bool :=
  match s.Git with
  | some git => git.Once
  | none =>
    match s.GCS with
    | some gcs => gcs.Once
    | none => false

/-- Whether the variant is one of the components of an AirflowCluster. -/
def ComponentSpec.isClusterComponent : ComponentSpec → Bool
  | .UI _ => true
  | .Redis _ => true
  | .Scheduler _ => true
  | .Worker _ => true
  | .Flower _ => true
  | _ => false

/-- Whether the spec pointer is nil. -/
def ComponentPtr.isNil : ComponentPtr → Bool
  | .MySQL s => s.isNone
  | .Postgres s => s.isNone
  | .SQLProxy s => s.isNone
  | .NFSStore s => s.isNone
  | .UI s => s.isNone
  | .Redis s => s.isNone
  | .Scheduler s => s.isNone
  | .Worker s => s.isNone
  | .Flower s => s.isNone

/-- Whether the object is a Service. -/
def KObject.isService : KObject → Bool
  | .service _ => true
  | _ => false

/-- Whether the object is a PodDisruptionBudget. -/
def KObject.isPodDisruptionBudget : KObject → Bool
  | .podDisruptionBudget _ => true
  | _ => false

/-- The object with the cluster IP of a Service cleared; every other field is kept. -/
def KObject.withoutClusterIP : KObject → KObject
  | .service s => .service { s with Spec := { s.Spec with ClusterIP := "" } }
  | o => o

/-- A finalizer library whose `Remove` drops every occurrence of the finalizer. -/
def sampleFinalizerLib : FinalizerLib :=
  { Cleanup := "sigapps.k8s.io/cleanup"
    Remove := fun l f => l.filter (fun x => x ≠ f) }

/-- Status declarations in which a status is the list of the messages recorded. -/
def sampleStatusDecls : StatusDecls :=
  { BaseStatus := List String
    ClusterStatus := List String
    baseUpdateStatus := fun st _ err => st ++ [err.getD "Ready"]
    clusterUpdateStatus := fun st _ err => st ++ [err.getD "Ready"] }

/-- A Service as the builder expects it. -/
def sampleServiceExpected : Service :=
  { ObjectMeta := { Name := "base-sql", Namespace := "ns" }
    Spec := { Ports := [{ Name := "mysql", Port := 3306 }] } }

/-- The same Service as it is observed in the cluster. -/
def sampleServiceObserved : Service :=
  { ObjectMeta := { Name := "base-sql", Namespace := "ns", ResourceVersion := "41" }
    Spec := { Ports := [{ Name := "mysql", Port := 3306 }], ClusterIP := "10.0.0.7" } }

/-- A DAG spec that is present but names neither Git nor GCS. -/
def sampleEmptyDags : DagSpec := { DagSubdir := "", Git := none, GCS := none }

/-- The sample cluster under the Celery executor with the empty DAG spec. -/
def sampleEmptyDagsCluster : AirflowCluster :=
  { sampleCluster "Celery" with
    Spec := { sampleClusterSpec "Celery" with DAGs := some sampleEmptyDags } }

/-- A container with a name and an image. -/
def sampleContainer : Container := { Name := "worker", Image := "airflow:1.10" }

/-- The sample cluster with the given executor and no Scheduler spec. -/
def sampleClusterNoScheduler (executor : String) : AirflowCluster :=
  { sampleCluster executor with
    Spec := { sampleClusterSpec executor with Scheduler := none } }

/-- The sample cluster under the Kubernetes executor with the Git DAG source and no
Worker spec. -/
def sampleGitClusterNoWorker : AirflowCluster :=
  { sampleCluster "Kubernetes" with
    Spec := { sampleClusterSpec "Kubernetes" with DAGs := some sampleGitDags, Worker := none } }

/-- A UI spec. -/
def sampleUI : AirflowUISpec :=
  { Image := "airflow", Version := "1.10", Replicas := 1, Resources := {} }

/-- The secret-key references in the environment of a list of containers. -/
def containerSecretRefs (cs : List Container) : List SecretKeySelector :=
  cs.flatMap (fun c => c.Env.filterMap (fun e => e.ValueFrom.bind (fun v => v.SecretKeyRef)))

/-- The secret-key references of an object: those of the containers of a
StatefulSet, none for any other kind. -/
def KObject.secretRefs : KObject → List SecretKeySelector
  | KObject.statefulSet ss => containerSecretRefs ss.Spec.Template.Spec.Containers
  | _ => []

/-- Whether a secret-key reference resolves in a bag: the bag holds a Secret of the
referenced name that has the referenced key among its Data keys. -/
def resolvesIn (bag : List Object) (sel : SecretKeySelector) : Bool :=
  bag.any (fun o =>
    match o.Obj with
    | KObject.secret sec =>
      decide (sec.ObjectMeta.Name = sel.Name) && decide (sel.Key ∈ sec.Data.map Prod.fst)
    | _ => false)

/-! # Theorems -/

/-! ## Properties of the password generator -/

theorem byteAt_of_lt (s : String) (i : Nat) (h : i < s.data.length) :
    ∃ c, byteAt s i = some c ∧ c ∈ s.data := by
  refine ⟨s.data[i], ?_, List.getElem_mem h⟩
  simp [byteAt, List.get?_eq_getElem?, List.getElem?_eq_getElem h]

theorem numSpace_length : PasswordCharNumSpace.length = 36 := by decide

theorem charSpace_length : PasswordCharSpace.length = 26 := by decide

theorem charSpace_subset_numSpace :
    ∀ c ∈ PasswordCharSpace.data, c ∈ PasswordCharNumSpace.data := by decide

/-- The fill loop never panics: it returns `n` bytes, all of the 36-symbol alphabet. -/
theorem fillRandom_spec (n : Nat) (r : Rand) :
    ∃ res r1, fillRandom n r = some (res, r1) ∧ res.length = n ∧
      ∀ c ∈ res, c ∈ PasswordCharNumSpace.data := by
  induction n generalizing r with
  | zero => exact ⟨[], r, rfl, rfl, by simp⟩
  | succ n ih =>
    have hlt : (r.Intn PasswordCharNumSpace.length).1 < PasswordCharNumSpace.data.length := by
      show r.stream r.pos % PasswordCharNumSpace.length < PasswordCharNumSpace.length
      exact Nat.mod_lt _ (by rw [numSpace_length]; decide)
    obtain ⟨c, hc, hmem⟩ := byteAt_of_lt _ _ hlt
    obtain ⟨rest, r2, hrest, hlen, hall⟩ := ih (r.Intn PasswordCharNumSpace.length).2
    refine ⟨c :: rest, r2, ?_, by simp [hlen], ?_⟩
    · simp only [fillRandom, hc, hrest]
    · intro x hx
      rcases List.mem_cons.mp hx with rfl | hx
      · exact hmem
      · exact hall x hx

/-- For a positive length the generator returns that many bytes, the first a
lowercase letter and all of them lowercase letters or digits. -/
theorem RandomAlphanumericString_spec (strlen : Int) (r : Rand) (h : 1 ≤ strlen) :
    ∃ c rest r1, RandomAlphanumericString strlen r = some (c :: rest, r1) ∧
      (c :: rest).length = strlen.toNat ∧
      c ∈ PasswordCharSpace.data ∧ ∀ x ∈ c :: rest, x ∈ PasswordCharNumSpace.data := by
  obtain ⟨n, hn⟩ : ∃ n, strlen.toNat = n + 1 := ⟨strlen.toNat - 1, by omega⟩
  obtain ⟨res, r1, hfill, hlen, hall⟩ := fillRandom_spec (n + 1) r
  have hlt : (r1.Intn PasswordCharSpace.length).1 < PasswordCharSpace.data.length := by
    show r1.stream r1.pos % PasswordCharSpace.length < PasswordCharSpace.length
    exact Nat.mod_lt _ (by rw [charSpace_length]; decide)
  obtain ⟨c, hc, hmem⟩ := byteAt_of_lt _ _ hlt
  cases res with
  | nil => simp at hlen
  | cons c0 rest =>
    refine ⟨c, rest, (r1.Intn PasswordCharSpace.length).2, ?_, ?_, hmem, ?_⟩
    · have hneg : ¬ strlen < 0 := by omega
      simp only [RandomAlphanumericString, hneg, if_false, hn, hfill, hc, setFirst]
    · simpa [hn] using hlen
    · intro x hx
      rcases List.mem_cons.mp hx with rfl | hx
      · exact charSpace_subset_numSpace _ hmem
      · exact hall x (List.mem_cons_of_mem _ hx)

/-- A 16-byte secret value is always produced, whatever the state of the random source. -/
theorem RandomAlphanumericString_16 (r : Rand) :
    ∃ res r1, RandomAlphanumericString 16 r = some (res, r1) ∧ res.length = 16 := by
  obtain ⟨c, rest, r1, h, hlen, _⟩ := RandomAlphanumericString_spec 16 r (by decide)
  exact ⟨c :: rest, r1, h, by simpa using hlen⟩

/-! ## The update decision -/

/-- C1: on an expected Secret or ServiceAccount, `Differs` returns false for eight
of the nine variants, whatever the two objects hold, and leaves `expected` as it
was; the Worker variant, whose body is `return true`, returns true there. -/
theorem Differs_secret_or_serviceAccount (c : ComponentSpec) (expected observed : KObject)
    (h : expected.isSecretOrServiceAccount = true) :
    c.Differs expected observed = some (c.isWorker, expected) := by
  cases expected <;> simp [KObject.isSecretOrServiceAccount] at h <;>
    cases c <;> rfl

/-- Evaluation of the MySQL variant on two Secrets that differ in content. -/
theorem Differs_secret_or_serviceAccount_witness :
    (KObject.secret (sampleSecret "abc")).isSecretOrServiceAccount = true ∧
    (ComponentSpec.MySQL (sampleMySQL false)).Differs
        (KObject.secret (sampleSecret "abc")) (KObject.secret (sampleSecret "xyz")) =
      some (false, KObject.secret (sampleSecret "abc")) :=
  ⟨rfl, Differs_secret_or_serviceAccount _ _ _ rfl⟩

/-- C1, as stated, fails for the Worker variant: on two Secrets that differ in
content its `Differs` returns true, not false. -/
theorem worker_Differs_secret :
    (KObject.secret (sampleSecret "abc")).isSecretOrServiceAccount = true ∧
    (ComponentSpec.Worker
        { Image := "airflow", Version := "1.10", Replicas := 1, Resources := {} }).Differs
        (KObject.secret (sampleSecret "abc")) (KObject.secret (sampleSecret "xyz")) =
      some (true, KObject.secret (sampleSecret "abc")) :=
  ⟨rfl, rfl⟩

/-- C2: on every pair of Services `differs` returns true, and `expected` then carries
the cluster IP of `observed`. -/
theorem differs_service_clusterIP (expected observed : Service) :
    ∃ e1 : Service,
      differs (KObject.service expected) (KObject.service observed) =
        some (true, KObject.service e1) ∧
      e1.Spec.ClusterIP = observed.Spec.ClusterIP :=
  ⟨_, rfl, rfl⟩

/-! ## The password generator -/

/-- C3: for every length of at least one and every state of the random source, the
generator returns a byte string whose first byte is one of the 26 letters of
`PasswordCharSpace` and whose bytes all are among the 36 symbols of
`PasswordCharNumSpace`. -/
theorem RandomAlphanumericString_alphabet (strlen : Int) (r : Rand) (h : 1 ≤ strlen) :
    ∃ c rest r1, RandomAlphanumericString strlen r = some (c :: rest, r1) ∧
      c ∈ PasswordCharSpace.data ∧ ∀ x ∈ c :: rest, x ∈ PasswordCharNumSpace.data := by
  obtain ⟨c, rest, r1, hres, _, hc, hall⟩ := RandomAlphanumericString_spec strlen r h
  exact ⟨c, rest, r1, hres, hc, hall⟩

/-- The generator at length 16 on the sample random source. -/
theorem RandomAlphanumericString_alphabet_witness :
    (1 : Int) ≤ 16 ∧
    ∃ c rest r1, RandomAlphanumericString 16 sampleRand = some (c :: rest, r1) ∧
      c ∈ PasswordCharSpace.data ∧ ∀ x ∈ c :: rest, x ∈ PasswordCharNumSpace.data :=
  ⟨by decide, RandomAlphanumericString_alphabet 16 sampleRand (by decide)⟩

/-- C4: at length zero the generator does not return: the assignment `result[0]`
indexes an empty slice, whatever the state of the random source. -/
theorem RandomAlphanumericString_zero (r : Rand) : RandomAlphanumericString 0 r = none := by
  simp only [RandomAlphanumericString, fillRandom, Int.toNat_zero, lt_self_iff_false, if_false]
  cases byteAt PasswordCharSpace (Rand.Intn r PasswordCharSpace.length).1 <;> rfl

/-! ## The environment composer -/

/-- The environment in closed form: the seven base entries, then the entries of the
Kubernetes executor, then the entries of the Celery executor. -/
theorem getAirflowEnv_eq (d : Decls) (r : AirflowCluster) (saName : String)
    (ref : LocalObjectReference) (sched : SchedulerSpec) (w : WorkerSpec)
    (hB : r.Spec.AirflowBaseRef = some ref) (hS : r.Spec.Scheduler = some sched)
    (hW : r.Spec.Executor = d.ExecutorK8s → r.Spec.Worker = some w) :
    r.getAirflowEnv d saName = some
      ([ { Name := "EXECUTOR", Value := r.Spec.Executor },
         { Name := "SQL_PASSWORD",
           ValueFrom := envFromSecret (rsrcName r.ObjectMeta.Name "airflowui" "") "password" },
         { Name := "AIRFLOW__CORE__DAGS_FOLDER", Value := dagFolderOf r.Spec.DAGs },
         { Name := "SQL_HOST", Value := rsrcName ref.Name "sql" "" },
         { Name := "SQL_USER", Value := sched.DBUser },
         { Name := "SQL_DB", Value := sched.DBName },
         { Name := "DB_TYPE", Value := "mysql" } ] ++
       (if r.Spec.Executor = d.ExecutorK8s then
          [ { Name := "AIRFLOW__KUBERNETES__WORKER_CONTAINER_REPOSITORY", Value := w.Image },
            { Name := "AIRFLOW__KUBERNETES__WORKER_CONTAINER_TAG", Value := w.Version },
            { Name := "AIRFLOW__KUBERNETES__WORKER_CONTAINER_IMAGE_PULL_POLICY",
              Value := "IfNotPresent" },
            { Name := "AIRFLOW__KUBERNETES__DELETE_WORKER_PODS", Value := "True" },
            { Name := "AIRFLOW__KUBERNETES__NAMESPACE", Value := r.ObjectMeta.Namespace } ] ++
          gitEnvOf r.Spec.DAGs saName
        else []) ++
       (if r.Spec.Executor = d.ExecutorCelery then
          [ { Name := "REDIS_PASSWORD",
              ValueFrom := envFromSecret (rsrcName r.ObjectMeta.Name "redis" "") "password" },
            { Name := "REDIS_HOST", Value := rsrcName r.ObjectMeta.Name "redis" "" } ]
        else [])) := by
  have hafc : afc ++ "DAGS_FOLDER" = "AIRFLOW__CORE__DAGS_FOLDER" := by decide
  simp only [AirflowCluster.getAirflowEnv, hB, hS, hafc, ValueAirflowComponentUI,
    ValueAirflowComponentSQL, ValueAirflowComponentRedis]
  by_cases hK : r.Spec.Executor = d.ExecutorK8s
  · simp only [if_pos hK, hW hK]
    by_cases hC : r.Spec.Executor = d.ExecutorCelery
    · simp only [if_pos hC]; rfl
    · simp only [if_neg hC, List.append_nil]; rfl
  · simp only [if_neg hK]
    by_cases hC : r.Spec.Executor = d.ExecutorCelery
    · simp only [if_pos hC, List.append_nil]
    · simp only [if_neg hC, List.append_nil]

/-- The names that the Git entries of the Kubernetes executor can carry. -/
theorem gitEnvOf_names (dags : Option DagSpec) (saName : String) :
    ∀ e ∈ gitEnvOf dags saName,
      e.Name = "AIRFLOW__KUBERNETES__GIT_REPO" ∨ e.Name = "AIRFLOW__KUBERNETES__GIT_BRANCH" ∨
      e.Name = "AIRFLOW__KUBERNETES__GIT_SUBPATH" ∨
      e.Name = "AIRFLOW__KUBERNETES__WORKER_SERVICE_ACCOUNT_NAME" ∨
      e.Name = "GIT_PASSWORD" ∨ e.Name = "GIT_USER" := by
  intro e he
  have h1 : afk ++ "GIT_REPO" = "AIRFLOW__KUBERNETES__GIT_REPO" := by decide
  have h2 : afk ++ "GIT_BRANCH" = "AIRFLOW__KUBERNETES__GIT_BRANCH" := by decide
  have h3 : afk ++ "GIT_SUBPATH" = "AIRFLOW__KUBERNETES__GIT_SUBPATH" := by decide
  have h4 : afk ++ "WORKER_SERVICE_ACCOUNT_NAME" =
      "AIRFLOW__KUBERNETES__WORKER_SERVICE_ACCOUNT_NAME" := by decide
  rcases dags with _ | ds
  · simp [gitEnvOf] at he
  · rcases hg : ds.Git with _ | git
    · simp [gitEnvOf, hg] at he
    · rcases hc : git.CredSecretRef with _ | cr
      · simp only [gitEnvOf, hg, hc, h1, h2, h3, h4, List.append_nil] at he
        simp only [List.mem_cons, List.mem_singleton, List.not_mem_nil, or_false] at he
        rcases he with rfl | rfl | rfl | rfl <;> simp
      · simp only [gitEnvOf, hg, hc, h1, h2, h3, h4] at he
        simp only [List.mem_append, List.mem_cons, List.mem_singleton, List.not_mem_nil,
          or_false] at he
        rcases he with (rfl | rfl | rfl | rfl) | rfl | rfl <;> simp

/-- The Git entries of the Kubernetes executor, for a Git DAG source. -/
theorem gitEnvOf_git (ds : DagSpec) (git : GitSpec) (saName : String) (hG : ds.Git = some git) :
    gitEnvOf (some ds) saName =
      [ { Name := "AIRFLOW__KUBERNETES__GIT_REPO", Value := git.Repo },
        { Name := "AIRFLOW__KUBERNETES__GIT_BRANCH", Value := git.Branch },
        { Name := "AIRFLOW__KUBERNETES__GIT_SUBPATH", Value := ds.DagSubdir },
        { Name := "AIRFLOW__KUBERNETES__WORKER_SERVICE_ACCOUNT_NAME", Value := saName } ] ++
      (match git.CredSecretRef with
       | none => []
       | some ref =>
         [ { Name := "GIT_PASSWORD", ValueFrom := envFromSecret ref.Name "password" },
           { Name := "GIT_USER", Value := git.User } ]) := by
  simp only [gitEnvOf, hG]
  rfl

/-- C5, as amended: for every cluster with Scheduler and AirflowBaseRef set, and with
Worker set when the executor is the Kubernetes one, `getAirflowEnv` returns an
environment that contains EXECUTOR, SQL_PASSWORD (from key `password` of the secret
`<cluster>-airflowui`), AIRFLOW__CORE__DAGS_FOLDER, SQL_HOST (`<base>-sql`), SQL_USER,
SQL_DB and DB_TYPE = mysql. -/
theorem getAirflowEnv_base_entries (d : Decls) (r : AirflowCluster) (saName : String)
    (ref : LocalObjectReference) (sched : SchedulerSpec) (w : WorkerSpec)
    (hB : r.Spec.AirflowBaseRef = some ref) (hS : r.Spec.Scheduler = some sched)
    (hW : r.Spec.Executor = d.ExecutorK8s → r.Spec.Worker = some w) :
    ∃ env, r.getAirflowEnv d saName = some env ∧
      { Name := "EXECUTOR", Value := r.Spec.Executor } ∈ env ∧
      { Name := "SQL_PASSWORD",
        ValueFrom := envFromSecret (rsrcName r.ObjectMeta.Name "airflowui" "") "password" } ∈ env ∧
      (∃ v, { Name := "AIRFLOW__CORE__DAGS_FOLDER", Value := v } ∈ env) ∧
      { Name := "SQL_HOST", Value := rsrcName ref.Name "sql" "" } ∈ env ∧
      { Name := "SQL_USER", Value := sched.DBUser } ∈ env ∧
      { Name := "SQL_DB", Value := sched.DBName } ∈ env ∧
      { Name := "DB_TYPE", Value := "mysql" } ∈ env := by
  refine ⟨_, getAirflowEnv_eq d r saName ref sched w hB hS hW, ?_, ?_, ⟨dagFolderOf r.Spec.DAGs, ?_⟩,
    ?_, ?_, ?_, ?_⟩ <;> simp

/-- The base entries on the sample cluster under the Celery executor. -/
theorem getAirflowEnv_base_entries_witness :
    ∃ env, (sampleCluster "Celery").getAirflowEnv sampleDecls "cl-scheduler" = some env ∧
      { Name := "EXECUTOR", Value := "Celery" } ∈ env ∧
      { Name := "SQL_PASSWORD",
        ValueFrom := envFromSecret (rsrcName "cl" "airflowui" "") "password" } ∈ env ∧
      (∃ v, { Name := "AIRFLOW__CORE__DAGS_FOLDER", Value := v } ∈ env) ∧
      { Name := "SQL_HOST", Value := rsrcName "base" "sql" "" } ∈ env ∧
      { Name := "SQL_USER", Value := "airflow" } ∈ env ∧
      { Name := "SQL_DB", Value := "airflowdb" } ∈ env ∧
      { Name := "DB_TYPE", Value := "mysql" } ∈ env :=
  getAirflowEnv_base_entries sampleDecls (sampleCluster "Celery") "cl-scheduler" { Name := "base" }
    { Image := "airflow", Version := "1.10", DBName := "airflowdb", DBUser := "airflow",
      Resources := {} }
    { Image := "airflow", Version := "1.10", Replicas := 2, Resources := {} } rfl rfl
    (fun h => absurd h (by decide))

/-- C5, as stated, fails: with Scheduler and AirflowBaseRef set, the Kubernetes
executor and no Worker spec, `getAirflowEnv` dereferences the nil Worker and returns
no environment at all. -/
theorem getAirflowEnv_noWorker :
    sampleClusterNoWorker.Spec.Scheduler ≠ none ∧
    sampleClusterNoWorker.Spec.AirflowBaseRef ≠ none ∧
    sampleClusterNoWorker.Spec.Executor = sampleDecls.ExecutorK8s ∧
    sampleClusterNoWorker.getAirflowEnv sampleDecls "cl-scheduler" = none := by
  decide

/-- C6: the environment holds exactly one AIRFLOW__CORE__DAGS_FOLDER entry; its value
is the base path `/usr/local/airflow/dags/` when the DAG spec is absent or has
neither Git nor GCS, base ++ "/gitdags/" ++ DagSubdir when Git is set, and
base ++ "/dags/" ++ DagSubdir when GCS is set and Git is not. -/
theorem getAirflowEnv_dagsFolder (d : Decls) (r : AirflowCluster) (saName : String)
    (ref : LocalObjectReference) (sched : SchedulerSpec) (w : WorkerSpec)
    (hB : r.Spec.AirflowBaseRef = some ref) (hS : r.Spec.Scheduler = some sched)
    (hW : r.Spec.Executor = d.ExecutorK8s → r.Spec.Worker = some w) :
    ∃ env v, r.getAirflowEnv d saName = some env ∧
      envLookup env "AIRFLOW__CORE__DAGS_FOLDER" =
        [ { Name := "AIRFLOW__CORE__DAGS_FOLDER", Value := v } ] ∧
      AirflowDagsBase = "/usr/local/airflow/dags/" ∧
      (r.Spec.DAGs = none → v = AirflowDagsBase) ∧
      (∀ ds, r.Spec.DAGs = some ds → ds.Git = none → ds.GCS = none → v = AirflowDagsBase) ∧
      (∀ ds, r.Spec.DAGs = some ds → ds.Git ≠ none →
        v = AirflowDagsBase ++ "/" ++ "gitdags" ++ "/" ++ ds.DagSubdir) ∧
      (∀ ds, r.Spec.DAGs = some ds → ds.Git = none → ds.GCS ≠ none →
        v = AirflowDagsBase ++ "/" ++ "dags" ++ "/" ++ ds.DagSubdir) := by
  have hgit : (gitEnvOf r.Spec.DAGs saName).filter
      (fun e => decide (e.Name = "AIRFLOW__CORE__DAGS_FOLDER")) = [] := by
    rw [List.filter_eq_nil_iff]
    intro e he
    rcases gitEnvOf_names _ _ e he with h | h | h | h | h | h <;> simp [h]
  refine ⟨_, dagFolderOf r.Spec.DAGs, getAirflowEnv_eq d r saName ref sched w hB hS hW, ?_,
    by decide, ?_, ?_, ?_, ?_⟩
  · simp only [envLookup]
    split_ifs <;> simp only [List.filter_append, hgit, List.append_nil] <;> rfl
  · intro h; simp [h, dagFolderOf]
  · intro ds h hg hc; simp [h, dagFolderOf, hg, hc]
  · intro ds h hg
    obtain ⟨g, hg⟩ := Option.ne_none_iff_exists'.mp hg
    simp [h, dagFolderOf, hg, GitSyncDestDir]
  · intro ds h hg hc
    obtain ⟨g, hc⟩ := Option.ne_none_iff_exists'.mp hc
    simp [h, dagFolderOf, hg, hc, GCSSyncDestDir]

/-- The dags folder of the sample cluster with the Git DAG source. -/
theorem getAirflowEnv_dagsFolder_witness :
    ∃ env v, sampleGitCluster.getAirflowEnv sampleDecls "cl-scheduler" = some env ∧
      envLookup env "AIRFLOW__CORE__DAGS_FOLDER" =
        [ { Name := "AIRFLOW__CORE__DAGS_FOLDER", Value := v } ] ∧
      AirflowDagsBase = "/usr/local/airflow/dags/" ∧
      (sampleGitCluster.Spec.DAGs = none → v = AirflowDagsBase) ∧
      (∀ ds, sampleGitCluster.Spec.DAGs = some ds → ds.Git = none → ds.GCS = none →
        v = AirflowDagsBase) ∧
      (∀ ds, sampleGitCluster.Spec.DAGs = some ds → ds.Git ≠ none →
        v = AirflowDagsBase ++ "/" ++ "gitdags" ++ "/" ++ ds.DagSubdir) ∧
      (∀ ds, sampleGitCluster.Spec.DAGs = some ds → ds.Git = none → ds.GCS ≠ none →
        v = AirflowDagsBase ++ "/" ++ "dags" ++ "/" ++ ds.DagSubdir) :=
  getAirflowEnv_dagsFolder sampleDecls sampleGitCluster "cl-scheduler" { Name := "base" }
    { Image := "airflow", Version := "1.10", DBName := "airflowdb", DBUser := "airflow",
      Resources := {} }
    { Image := "airflow", Version := "1.10", Replicas := 2, Resources := {} } rfl rfl
    (fun _ => rfl)

/-- C7: on a cluster with AirflowBaseRef and Scheduler set, and Worker set when the
executor is the Kubernetes one, the environment holds a variable whose name starts
with AIRFLOW__KUBERNETES__ exactly when the executor is the Kubernetes one, and then
it holds the worker image, the worker tag, the pull policy IfNotPresent, the
delete-pods flag True and the namespace of the cluster under that name start. -/
theorem getAirflowEnv_kubernetes_entries (d : Decls) (r : AirflowCluster) (saName : String)
    (ref : LocalObjectReference) (sched : SchedulerSpec) (w : WorkerSpec)
    (hB : r.Spec.AirflowBaseRef = some ref) (hS : r.Spec.Scheduler = some sched)
    (hW : r.Spec.Executor = d.ExecutorK8s → r.Spec.Worker = some w) :
    ∃ env, r.getAirflowEnv d saName = some env ∧
      ((∃ e ∈ env, startsWith e.Name "AIRFLOW__KUBERNETES__" = true) ↔
        r.Spec.Executor = d.ExecutorK8s) ∧
      (r.Spec.Executor = d.ExecutorK8s →
        { Name := "AIRFLOW__KUBERNETES__WORKER_CONTAINER_REPOSITORY", Value := w.Image } ∈ env ∧
        { Name := "AIRFLOW__KUBERNETES__WORKER_CONTAINER_TAG", Value := w.Version } ∈ env ∧
        { Name := "AIRFLOW__KUBERNETES__WORKER_CONTAINER_IMAGE_PULL_POLICY",
          Value := "IfNotPresent" } ∈ env ∧
        { Name := "AIRFLOW__KUBERNETES__DELETE_WORKER_PODS", Value := "True" } ∈ env ∧
        { Name := "AIRFLOW__KUBERNETES__NAMESPACE", Value := r.ObjectMeta.Namespace } ∈ env) := by
  refine ⟨_, getAirflowEnv_eq d r saName ref sched w hB hS hW, ⟨?_, ?_⟩, ?_⟩
  · rintro ⟨e, he, hp⟩
    by_contra hK
    have hno : startsWith e.Name "AIRFLOW__KUBERNETES__" = false := by
      simp only [if_neg hK, List.append_nil, List.mem_append, List.mem_cons, List.not_mem_nil,
        or_false] at he
      rcases he with (rfl | rfl | rfl | rfl | rfl | rfl | rfl) | he
      iterate 7 rfl
      by_cases hC : r.Spec.Executor = d.ExecutorCelery
      · simp only [if_pos hC, List.mem_cons, List.not_mem_nil, or_false] at he
        rcases he with rfl | rfl <;> rfl
      · simp only [if_neg hC, List.not_mem_nil] at he
    rw [hno] at hp
    exact Bool.false_ne_true hp
  · intro hK
    refine ⟨{ Name := "AIRFLOW__KUBERNETES__WORKER_CONTAINER_REPOSITORY", Value := w.Image },
      ?_, rfl⟩
    simp [hK]
  · intro hK
    simp [hK]

/-- The Kubernetes entries of the sample cluster under the Kubernetes executor. -/
theorem getAirflowEnv_kubernetes_entries_witness :
    ∃ env, (sampleCluster "Kubernetes").getAirflowEnv sampleDecls "cl-scheduler" = some env ∧
      ((∃ e ∈ env, startsWith e.Name "AIRFLOW__KUBERNETES__" = true) ↔
        (sampleCluster "Kubernetes").Spec.Executor = sampleDecls.ExecutorK8s) ∧
      ((sampleCluster "Kubernetes").Spec.Executor = sampleDecls.ExecutorK8s →
        { Name := "AIRFLOW__KUBERNETES__WORKER_CONTAINER_REPOSITORY", Value := "airflow" } ∈ env ∧
        { Name := "AIRFLOW__KUBERNETES__WORKER_CONTAINER_TAG", Value := "1.10" } ∈ env ∧
        { Name := "AIRFLOW__KUBERNETES__WORKER_CONTAINER_IMAGE_PULL_POLICY",
          Value := "IfNotPresent" } ∈ env ∧
        { Name := "AIRFLOW__KUBERNETES__DELETE_WORKER_PODS", Value := "True" } ∈ env ∧
        { Name := "AIRFLOW__KUBERNETES__NAMESPACE", Value := "ns" } ∈ env) :=
  getAirflowEnv_kubernetes_entries sampleDecls (sampleCluster "Kubernetes") "cl-scheduler"
    { Name := "base" }
    { Image := "airflow", Version := "1.10", DBName := "airflowdb", DBUser := "airflow",
      Resources := {} }
    { Image := "airflow", Version := "1.10", Replicas := 2, Resources := {} } rfl rfl
    (fun _ => rfl)

/-- C7, as stated, fails: with the Kubernetes executor and no Scheduler spec,
`getAirflowEnv` dereferences the nil Scheduler and returns no environment, so no
variable of the Kubernetes executor is emitted. -/
theorem getAirflowEnv_kubernetes_noScheduler :
    (sampleClusterNoScheduler "Kubernetes").Spec.Executor = sampleDecls.ExecutorK8s ∧
    (sampleClusterNoScheduler "Kubernetes").getAirflowEnv sampleDecls "cl-scheduler" = none := by
  decide

/-- C8: under the Kubernetes executor with a Git DAG source, and with AirflowBaseRef,
Scheduler and Worker set, the environment holds the git repo, branch and subpath and
the worker service-account name; it holds GIT_USER and GIT_PASSWORD (from key
`password` of the secret named by `CredSecretRef`) exactly when `CredSecretRef` is
set. -/
theorem getAirflowEnv_git_entries (d : Decls) (r : AirflowCluster) (saName : String)
    (ref : LocalObjectReference) (sched : SchedulerSpec) (w : WorkerSpec) (ds : DagSpec)
    (git : GitSpec)
    (hB : r.Spec.AirflowBaseRef = some ref) (hS : r.Spec.Scheduler = some sched)
    (hW : r.Spec.Worker = some w) (hK : r.Spec.Executor = d.ExecutorK8s)
    (hD : r.Spec.DAGs = some ds) (hG : ds.Git = some git) :
    ∃ env, r.getAirflowEnv d saName = some env ∧
      { Name := "AIRFLOW__KUBERNETES__GIT_REPO", Value := git.Repo } ∈ env ∧
      { Name := "AIRFLOW__KUBERNETES__GIT_BRANCH", Value := git.Branch } ∈ env ∧
      { Name := "AIRFLOW__KUBERNETES__GIT_SUBPATH", Value := ds.DagSubdir } ∈ env ∧
      { Name := "AIRFLOW__KUBERNETES__WORKER_SERVICE_ACCOUNT_NAME", Value := saName } ∈ env ∧
      ((∃ e ∈ env, e.Name = "GIT_USER") ↔ git.CredSecretRef ≠ none) ∧
      ((∃ e ∈ env, e.Name = "GIT_PASSWORD") ↔ git.CredSecretRef ≠ none) ∧
      (∀ cr, git.CredSecretRef = some cr →
        { Name := "GIT_USER", Value := git.User } ∈ env ∧
        { Name := "GIT_PASSWORD", ValueFrom := envFromSecret cr.Name "password" } ∈ env) := by
  refine ⟨_, getAirflowEnv_eq d r saName ref sched w hB hS (fun _ => hW), ?_⟩
  simp only [if_pos hK, hD, gitEnvOf_git ds git saName hG]
  rcases hc : git.CredSecretRef with _ | cr
  · by_cases hC : r.Spec.Executor = d.ExecutorCelery
    · simp only [if_pos hC]; simp
    · simp only [if_neg hC]; simp
  · by_cases hC : r.Spec.Executor = d.ExecutorCelery
    · simp only [if_pos hC]; simp
    · simp only [if_neg hC]; simp

/-- The Git entries of the sample cluster with a credential secret. -/
theorem getAirflowEnv_git_entries_witness :
    ∃ env, sampleGitCluster.getAirflowEnv sampleDecls "cl-scheduler" = some env ∧
      { Name := "AIRFLOW__KUBERNETES__GIT_REPO",
        Value := "https://github.com/apache/incubator-airflow/" } ∈ env ∧
      { Name := "AIRFLOW__KUBERNETES__GIT_BRANCH", Value := "master" } ∈ env ∧
      { Name := "AIRFLOW__KUBERNETES__GIT_SUBPATH", Value := "airflow/example_dags/" } ∈ env ∧
      { Name := "AIRFLOW__KUBERNETES__WORKER_SERVICE_ACCOUNT_NAME",
        Value := "cl-scheduler" } ∈ env ∧
      ((∃ e ∈ env, e.Name = "GIT_USER") ↔
        (some { Name := "gitcred" } : Option LocalObjectReference) ≠ none) ∧
      ((∃ e ∈ env, e.Name = "GIT_PASSWORD") ↔
        (some { Name := "gitcred" } : Option LocalObjectReference) ≠ none) ∧
      (∀ cr, (some { Name := "gitcred" } : Option LocalObjectReference) = some cr →
        { Name := "GIT_USER", Value := "gituser" } ∈ env ∧
        { Name := "GIT_PASSWORD", ValueFrom := envFromSecret cr.Name "password" } ∈ env) :=
  getAirflowEnv_git_entries sampleDecls sampleGitCluster "cl-scheduler" { Name := "base" }
    { Image := "airflow", Version := "1.10", DBName := "airflowdb", DBUser := "airflow",
      Resources := {} }
    { Image := "airflow", Version := "1.10", Replicas := 2, Resources := {} }
    sampleGitDags
    { Repo := "https://github.com/apache/incubator-airflow/", Branch := "master", Rev := "HEAD",
      User := "gituser", Once := true, CredSecretRef := some { Name := "gitcred" } }
    rfl rfl rfl rfl rfl rfl

/-- C8, as stated, fails: with the Kubernetes executor, a Git DAG source and no
Worker spec, `getAirflowEnv` dereferences the nil Worker and returns no environment,
so none of the git entries is emitted. -/
theorem getAirflowEnv_git_noWorker :
    sampleGitClusterNoWorker.Spec.Executor = sampleDecls.ExecutorK8s ∧
    sampleGitClusterNoWorker.Spec.DAGs = some sampleGitDags ∧
    sampleGitDags.Git ≠ none ∧
    sampleGitClusterNoWorker.getAirflowEnv sampleDecls "cl-scheduler" = none := by
  decide

/-- C9: under the Celery executor, with AirflowBaseRef and Scheduler set, the
environment holds REDIS_PASSWORD (from key `password` of the secret
`<cluster>-redis`) and REDIS_HOST = `<cluster>-redis`, and no variable of the
Kubernetes executor: no name starting with AIRFLOW__KUBERNETES__, no GIT_USER and no
GIT_PASSWORD. The two executor constants are taken to be distinct. -/
theorem getAirflowEnv_celery_entries (d : Decls) (r : AirflowCluster) (saName : String)
    (ref : LocalObjectReference) (sched : SchedulerSpec)
    (hB : r.Spec.AirflowBaseRef = some ref) (hS : r.Spec.Scheduler = some sched)
    (hC : r.Spec.Executor = d.ExecutorCelery) (hne : d.ExecutorK8s ≠ d.ExecutorCelery) :
    ∃ env, r.getAirflowEnv d saName = some env ∧
      { Name := "REDIS_PASSWORD",
        ValueFrom := envFromSecret (r.ObjectMeta.Name ++ "-redis") "password" } ∈ env ∧
      { Name := "REDIS_HOST", Value := r.ObjectMeta.Name ++ "-redis" } ∈ env ∧
      ∀ e ∈ env, startsWith e.Name "AIRFLOW__KUBERNETES__" = false ∧
        e.Name ≠ "GIT_USER" ∧ e.Name ≠ "GIT_PASSWORD" := by
  have hK : ¬ r.Spec.Executor = d.ExecutorK8s := fun h => hne (h.symm.trans hC)
  have hname : rsrcName r.ObjectMeta.Name "redis" "" = r.ObjectMeta.Name ++ "-redis" := by
    simp [rsrcName, String.append_assoc]
  refine ⟨_, getAirflowEnv_eq d r saName ref sched
    { Image := "", Version := "", Replicas := 0, Resources := {} } hB hS
    (fun h => absurd h hK), ?_⟩
  simp only [if_neg hK, if_pos hC, List.append_nil, hname]
  refine ⟨by simp, by simp, ?_⟩
  intro e he
  simp only [List.mem_append, List.mem_cons, List.not_mem_nil, or_false] at he
  rcases he with (rfl | rfl | rfl | rfl | rfl | rfl | rfl) | rfl | rfl <;>
    exact ⟨rfl, by simp, by simp⟩

/-- The Celery entries of the sample cluster. -/
theorem getAirflowEnv_celery_entries_witness :
    ∃ env, (sampleCluster "Celery").getAirflowEnv sampleDecls "cl-scheduler" = some env ∧
      { Name := "REDIS_PASSWORD",
        ValueFrom := envFromSecret ("cl" ++ "-redis") "password" } ∈ env ∧
      { Name := "REDIS_HOST", Value := "cl" ++ "-redis" } ∈ env ∧
      ∀ e ∈ env, startsWith e.Name "AIRFLOW__KUBERNETES__" = false ∧
        e.Name ≠ "GIT_USER" ∧ e.Name ≠ "GIT_PASSWORD" :=
  getAirflowEnv_celery_entries sampleDecls (sampleCluster "Celery") "cl-scheduler"
    { Name := "base" }
    { Image := "airflow", Version := "1.10", DBName := "airflowdb", DBUser := "airflow",
      Resources := {} }
    rfl rfl rfl (by decide)

/-- C9, as stated, fails: with the Celery executor and no Scheduler spec,
`getAirflowEnv` dereferences the nil Scheduler and returns no environment, so neither
REDIS_PASSWORD nor REDIS_HOST is emitted. -/
theorem getAirflowEnv_celery_noScheduler :
    (sampleClusterNoScheduler "Celery").Spec.Executor = sampleDecls.ExecutorCelery ∧
    (sampleClusterNoScheduler "Celery").getAirflowEnv sampleDecls "cl-scheduler" = none := by
  decide

/-! ## Determinism of ExpectedResources up to secret material -/

/-- A generated 16-byte value, blanked, is sixteen times `x`. -/
theorem RandomAlphanumericString_16_blank (r : Rand) :
    ∃ res r1, RandomAlphanumericString 16 r = some (res, r1) ∧
      res.map (fun _ => 'x') = List.replicate 16 'x' := by
  obtain ⟨res, r1, h, hlen⟩ := RandomAlphanumericString_16 r
  refine ⟨res, r1, h, ?_⟩
  rw [List.map_const', hlen]

theorem mysql_secret_blank (d : Decls) (s : MySQLSpec) (r : AirflowBase) (labels : StrMap)
    (rnd : Rand) :
    ∃ o rnd1, s.secret d r labels rnd = some (o, rnd1) ∧
      o.blankSecretData =
        { Obj := KObject.secret
            { ObjectMeta := r.getMeta d (rsrcName r.getName ValueAirflowComponentSQL "") labels
              Data := [("password", List.replicate 16 'x'),
                       ("rootpassword", List.replicate 16 'x')] }
          Lifecycle := Lifecycle.Managed
          ObjList := some ObjListKind.SecretList } := by
  obtain ⟨p1, r1, h1, hb1⟩ := RandomAlphanumericString_16_blank rnd
  obtain ⟨p2, r2, h2, hb2⟩ := RandomAlphanumericString_16_blank r1
  refine ⟨_, r2, by simp only [MySQLSpec.secret, h1, h2]; rfl, ?_⟩
  simp only [Object.blankSecretData, KObject.blankSecretData, List.map, hb1, hb2]

theorem postgres_secret_blank (d : Decls) (s : PostgresSpec) (r : AirflowBase)
    (labels : StrMap) (rnd : Rand) :
    ∃ o rnd1, s.secret d r labels rnd = some (o, rnd1) ∧
      o.blankSecretData =
        { Obj := KObject.secret
            { ObjectMeta :=
                r.getMeta d (rsrcName r.ObjectMeta.Name ValueAirflowComponentSQL "") labels
              Data := [("password", List.replicate 16 'x'),
                       ("rootpassword", List.replicate 16 'x')] } } := by
  obtain ⟨p1, r1, h1, hb1⟩ := RandomAlphanumericString_16_blank rnd
  obtain ⟨p2, r2, h2, hb2⟩ := RandomAlphanumericString_16_blank r1
  refine ⟨_, r2, by simp only [PostgresSpec.secret, h1, h2]; rfl, ?_⟩
  simp only [Object.blankSecretData, KObject.blankSecretData, List.map, hb1, hb2]

theorem ui_secret_blank (d : Decls) (s : AirflowUISpec) (r : AirflowCluster)
    (labels : StrMap) (rnd : Rand) :
    ∃ o rnd1, s.secret d r labels rnd = some (o, rnd1) ∧
      o.blankSecretData =
        { Obj := KObject.secret
            { ObjectMeta :=
                r.getMeta d (rsrcName r.ObjectMeta.Name ValueAirflowComponentUI "") labels
              Data := [("password", List.replicate 16 'x')] }
          Lifecycle := Lifecycle.Managed
          ObjList := some ObjListKind.SecretList } := by
  obtain ⟨p1, r1, h1, hb1⟩ := RandomAlphanumericString_16_blank rnd
  refine ⟨_, r1, by simp only [AirflowUISpec.secret, h1]; rfl, ?_⟩
  simp only [Object.blankSecretData, KObject.blankSecretData, List.map, hb1]

theorem redis_secret_blank (d : Decls) (s : RedisSpec) (r : AirflowCluster)
    (labels : StrMap) (rnd : Rand) :
    ∃ o rnd1, s.secret d r labels rnd = some (o, rnd1) ∧
      o.blankSecretData =
        { Obj := KObject.secret
            { ObjectMeta :=
                r.getMeta d (rsrcName r.ObjectMeta.Name ValueAirflowComponentRedis "") labels
              Data := [("password", List.replicate 16 'x')] }
          Lifecycle := Lifecycle.Managed
          ObjList := some ObjListKind.SecretList } := by
  obtain ⟨p1, r1, h1, hb1⟩ := RandomAlphanumericString_16_blank rnd
  refine ⟨_, r1, by simp only [RedisSpec.secret, h1]; rfl, ?_⟩
  simp only [Object.blankSecretData, KObject.blankSecretData, List.map, hb1]

/-- C10: for every variant, root and label map, two calls of `ExpectedResources` that
start from arbitrary states of the random source agree on whether they return and,
once the bytes of the generated Secret values are blanked, on everything they
return: the same objects in the same order, with the same kinds, names, lifecycle
tags, metadata, Data keys and value lengths, and the same error. -/
theorem ExpectedResources_deterministic_up_to_secret_bytes (d : Decls) (c : ComponentSpec)
    (rsrc : Root) (rsrclabels : StrMap) (rnd1 rnd2 : Rand) :
    (c.ExpectedResources d rsrc rsrclabels rnd1).map (fun p => p.1.blankSecretData) =
      (c.ExpectedResources d rsrc rsrclabels rnd2).map (fun p => p.1.blankSecretData) := by
  cases c with
  | MySQL s =>
    cases rsrc with
    | cluster r => rfl
    | base r =>
      obtain ⟨o1, q1, h1, hb1⟩ := mysql_secret_blank d s r rsrclabels rnd1
      obtain ⟨o2, q2, h2, hb2⟩ := mysql_secret_blank d s r rsrclabels rnd2
      cases hop : s.Operator <;>
        simp [ComponentSpec.ExpectedResources, MySQLSpec.ExpectedResources, Root.asBase, hop,
          h1, h2, Expected.blankSecretData, hb1, hb2]
  | Postgres s =>
    cases rsrc with
    | cluster r => rfl
    | base r =>
      obtain ⟨o1, q1, h1, hb1⟩ := postgres_secret_blank d s r rsrclabels rnd1
      obtain ⟨o2, q2, h2, hb2⟩ := postgres_secret_blank d s r rsrclabels rnd2
      cases hop : s.Operator <;>
        simp [ComponentSpec.ExpectedResources, PostgresSpec.ExpectedResources, Root.asBase, hop,
          h1, h2, Expected.blankSecretData, hb1, hb2]
  | SQLProxy s => cases rsrc <;> rfl
  | NFSStore s => cases rsrc <;> rfl
  | UI s =>
    cases rsrc with
    | base r => rfl
    | cluster r =>
      obtain ⟨o1, q1, h1, hb1⟩ := ui_secret_blank d s r rsrclabels rnd1
      obtain ⟨o2, q2, h2, hb2⟩ := ui_secret_blank d s r rsrclabels rnd2
      cases hs : s.sts d r rsrclabels <;>
        simp [ComponentSpec.ExpectedResources, AirflowUISpec.ExpectedResources, Root.asCluster,
          hs, h1, h2, Expected.blankSecretData, hb1, hb2]
  | Redis s =>
    cases rsrc with
    | base r => rfl
    | cluster r =>
      obtain ⟨o1, q1, h1, hb1⟩ := redis_secret_blank d s r rsrclabels rnd1
      obtain ⟨o2, q2, h2, hb2⟩ := redis_secret_blank d s r rsrclabels rnd2
      simp [ComponentSpec.ExpectedResources, RedisSpec.ExpectedResources, Root.asCluster,
        h1, h2, Expected.blankSecretData, hb1, hb2]
  | Scheduler s =>
    cases rsrc with
    | base r => rfl
    | cluster r =>
      cases hs : s.sts d r rsrclabels <;>
        simp [ComponentSpec.ExpectedResources, SchedulerSpec.ExpectedResources, Root.asCluster, hs]
  | Worker s =>
    cases rsrc with
    | base r => rfl
    | cluster r =>
      cases hs : s.sts d r rsrclabels <;>
        simp [ComponentSpec.ExpectedResources, WorkerSpec.ExpectedResources, Root.asCluster, hs]
  | Flower s =>
    cases rsrc with
    | base r => rfl
    | cluster r =>
      cases hs : s.sts d r rsrclabels <;>
        simp [ComponentSpec.ExpectedResources, FlowerSpec.ExpectedResources, Root.asCluster, hs]

/-! ## Resource names -/

theorem rsrcName_data (name component suffix : String) :
    (rsrcName name component suffix).data =
      name.data ++ '-' :: (component.data ++ suffix.data) := by
  simp [rsrcName, String.data_append]

/-- Two names over the same root agree exactly when component ++ suffix agree. -/
theorem rsrcName_eq_iff (name c1 s1 c2 s2 : String) :
    rsrcName name c1 s1 = rsrcName name c2 s2 ↔ c1 ++ s1 = c2 ++ s2 := by
  rw [String.ext_iff, String.ext_iff, rsrcName_data, rsrcName_data, String.data_append,
    String.data_append]
  constructor
  · intro h
    exact List.cons_injective (List.append_cancel_left h)
  · intro h
    rw [h]

/-- For an empty suffix two names over the same root agree exactly when the components do. -/
theorem rsrcName_component_inj (name c1 c2 : String) :
    rsrcName name c1 "" = rsrcName name c2 "" ↔ c1 = c2 := by
  rw [rsrcName_eq_iff]
  simp

/-- C13, as amended: over a fixed root name, two (component, suffix) pairs whose
concatenations component ++ suffix differ give different names. -/
theorem rsrcName_ne_of_concat_ne (name c1 s1 c2 s2 : String) (h : c1 ++ s1 ≠ c2 ++ s2) :
    rsrcName name c1 s1 ≠ rsrcName name c2 s2 :=
  fun heq => h ((rsrcName_eq_iff name c1 s1 c2 s2).mp heq)

/-- Two pairs with different concatenations over the root `base`. -/
theorem rsrcName_ne_of_concat_ne_witness :
    "mysql" ++ "" ≠ "sql" ++ "-0" ∧ rsrcName "base" "mysql" "" ≠ rsrcName "base" "sql" "-0" :=
  ⟨by decide, rsrcName_ne_of_concat_ne "base" "mysql" "" "sql" "-0" (by decide)⟩

/-- C13, as stated, fails: the pairs ("a", "b") and ("ab", "") differ and give the
same name, since component and suffix are concatenated with nothing between them. -/
theorem rsrcName_collision :
    (("a", "b") : String × String) ≠ ("ab", "") ∧
    rsrcName "base" "a" "b" = rsrcName "base" "ab" "" := by
  decide

/-- C14: for every root name and suffix, different component tags give different
names, the name being name ++ "-" ++ component ++ suffix; in particular the names of
the components mysql and postgres differ over every root. -/
theorem rsrcName_injective_component (name suffix c1 c2 : String) (h : c1 ≠ c2) :
    rsrcName name c1 suffix ≠ rsrcName name c2 suffix ∧
    rsrcName name c1 suffix = name ++ "-" ++ c1 ++ suffix ∧
    rsrcName name "mysql" "" ≠ rsrcName name "postgres" "" := by
  refine ⟨?_, rfl, ?_⟩
  · intro heq
    apply h
    have h1 := (rsrcName_eq_iff name c1 suffix c2 suffix).mp heq
    rw [String.ext_iff, String.data_append, String.data_append] at h1
    exact String.ext (List.append_cancel_right h1)
  · intro heq
    exact absurd ((rsrcName_component_inj name "mysql" "postgres").mp heq) (by decide)

/-- The components mysql and postgres over the root `base`. -/
theorem rsrcName_injective_component_witness :
    rsrcName "base" "mysql" "" ≠ rsrcName "base" "postgres" "" ∧
    rsrcName "base" "mysql" "" = "base" ++ "-" ++ "mysql" ++ "" ∧
    rsrcName "base" "mysql" "" ≠ rsrcName "base" "postgres" "" :=
  rsrcName_injective_component "base" "" "mysql" "postgres" (by decide)

/-! ## What the builders return -/

theorem mysql_sts_spec (d : Decls) (s : MySQLSpec) (r : AirflowBase) (labels : StrMap) :
    ∃ ss, s.sts d r labels = stsObject ss ∧
      ss.ObjectMeta = r.getMeta d (rsrcName r.getName "mysql" "") labels ∧
      ss.Spec.ServiceName = rsrcName r.getName "mysql" "" ∧
      ss.Spec.VolumeClaimTemplates = s.VolumeClaimTemplate.toList ∧
      ss.Spec.Template.Spec.Volumes =
        (match s.VolumeClaimTemplate with
         | some _ => []
         | none => [{ Name := "mysql-data", VolumeSource := { EmptyDir := some {} } }]) := by
  cases h : s.VolumeClaimTemplate <;>
    exact ⟨_, by simp only [MySQLSpec.sts, h]; rfl, by rfl, by rfl, by rfl, by rfl⟩

theorem postgres_sts_spec (d : Decls) (s : PostgresSpec) (r : AirflowBase) (labels : StrMap) :
    ∃ ss, s.sts d r labels = stsObject ss ∧
      ss.ObjectMeta = r.getMeta d (rsrcName r.getName "postgres" "") labels ∧
      ss.Spec.ServiceName = rsrcName r.getName "postgres" "" ∧
      ss.Spec.VolumeClaimTemplates = s.VolumeClaimTemplate.toList ∧
      ss.Spec.Template.Spec.Volumes =
        (match s.VolumeClaimTemplate with
         | some _ => []
         | none => [{ Name := "postgres-data", VolumeSource := { EmptyDir := some {} } }]) := by
  cases h : s.VolumeClaimTemplate <;>
    exact ⟨_, by simp only [PostgresSpec.sts, h]; rfl, by rfl, by rfl, by rfl, by rfl⟩

theorem nfs_sts_spec (d : Decls) (s : NFSStoreSpec) (r : AirflowBase) (labels : StrMap) :
    ∃ ss, s.sts d r labels = stsObject ss ∧
      ss.ObjectMeta = r.getMeta d (rsrcName r.getName "nfs" "") labels ∧
      ss.Spec.ServiceName = rsrcName r.getName "nfs" "" ∧
      ss.Spec.VolumeClaimTemplates = s.Volume.toList ∧
      ss.Spec.Template.Spec.Volumes =
        (match s.Volume with
         | some _ => []
         | none => [{ Name := "nfs-data", VolumeSource := { EmptyDir := some {} } }]) := by
  cases h : s.Volume <;>
    exact ⟨_, by simp only [NFSStoreSpec.sts, h]; rfl, by rfl, by rfl, by rfl, by rfl⟩

theorem redis_sts_spec (d : Decls) (s : RedisSpec) (r : AirflowCluster) (labels : StrMap) :
    ∃ ss, s.sts d r labels = stsObject ss ∧
      ss.ObjectMeta = r.getMeta d (rsrcName r.getName "redis" "") labels ∧
      ss.Spec.ServiceName = rsrcName r.getName "redis" "" ∧
      ss.Spec.VolumeClaimTemplates = s.VolumeClaimTemplate.toList ∧
      ss.Spec.Template.Spec.Volumes =
        (match s.VolumeClaimTemplate with
         | some _ => []
         | none => [{ Name := "redis-data", VolumeSource := { EmptyDir := some {} } }]) := by
  cases h : s.VolumeClaimTemplate <;>
    exact ⟨_, by simp only [RedisSpec.sts, h]; rfl, by rfl, by rfl, by rfl, by rfl⟩

theorem sqlproxy_sts_spec (d : Decls) (s : SQLProxySpec) (r : AirflowBase) (labels : StrMap) :
    ∃ ss, s.sts d r labels = stsObject ss ∧
      ss.ObjectMeta = r.getMeta d (rsrcName r.getName "sqlproxy" "") labels ∧
      ss.Spec.ServiceName = rsrcName r.getName "sqlproxy" "" :=
  ⟨_, rfl, rfl, rfl⟩

theorem addAirflowContainers_meta (d : Decls) (r : AirflowCluster) (ss : StatefulSet)
    (cs : List Container) (v : String) :
    (r.addAirflowContainers d ss cs v).ObjectMeta = ss.ObjectMeta := by
  unfold AirflowCluster.addAirflowContainers
  cases r.Spec.DAGs with
  | none => rfl
  | some dags =>
    simp only
    split <;> rfl

theorem addMySQLUserDBContainer_meta (d : Decls) (r : AirflowCluster) (ss ss1 : StatefulSet)
    (h : r.addMySQLUserDBContainer d ss = some ss1) : ss1.ObjectMeta = ss.ObjectMeta := by
  unfold AirflowCluster.addMySQLUserDBContainer at h
  cases hb : r.Spec.AirflowBaseRef with
  | none => simp [hb] at h
  | some b =>
    cases hs : r.Spec.Scheduler with
    | none => simp [hb, hs] at h
    | some sc =>
      simp only [hb, hs, Option.some.injEq] at h
      rw [← h]; rfl

theorem ui_sts_spec (d : Decls) (s : AirflowUISpec) (r : AirflowCluster) (labels : StrMap)
    (o : Object) (h : s.sts d r labels = some o) :
    ∃ ss, o = stsObject ss ∧
      ss.ObjectMeta = r.getMeta d (rsrcName r.getName "airflowui" "") labels := by
  unfold AirflowUISpec.sts at h
  simp only at h
  split at h
  · exact absurd h (by simp)
  · split at h
    · exact absurd h (by simp)
    · rename_i ss1 hss
      simp only [Option.some.injEq] at h
      refine ⟨ss1, h.symm, ?_⟩
      rw [addMySQLUserDBContainer_meta _ _ _ _ hss, addAirflowContainers_meta]
      rfl

theorem scheduler_sts_spec (d : Decls) (s : SchedulerSpec) (r : AirflowCluster)
    (labels : StrMap) (o : Object) (h : s.sts d r labels = some o) :
    ∃ ss, o = stsObject ss ∧
      ss.ObjectMeta = r.getMeta d (rsrcName r.getName "scheduler" "") labels := by
  unfold SchedulerSpec.sts at h
  simp only at h
  split at h
  · exact absurd h (by simp)
  · split at h
    · exact absurd h (by simp)
    · simp only [Option.some.injEq] at h
      refine ⟨_, h.symm, ?_⟩
      rw [addAirflowContainers_meta]
      split <;> rfl

theorem worker_sts_spec (d : Decls) (s : WorkerSpec) (r : AirflowCluster) (labels : StrMap)
    (o : Object) (h : s.sts d r labels = some o) :
    ∃ ss, o = stsObject ss ∧
      ss.ObjectMeta = r.getMeta d (rsrcName r.getName "worker" "") labels := by
  unfold WorkerSpec.sts at h
  simp only at h
  split at h
  · exact absurd h (by simp)
  · simp only [Option.some.injEq] at h
    refine ⟨_, h.symm, ?_⟩
    rw [addAirflowContainers_meta]
    rfl

theorem flower_sts_spec (d : Decls) (s : FlowerSpec) (r : AirflowCluster) (labels : StrMap)
    (o : Object) (h : s.sts d r labels = some o) :
    ∃ ss, o = stsObject ss ∧
      ss.ObjectMeta = r.getMeta d (rsrcName r.getName "flower" "") labels := by
  unfold FlowerSpec.sts at h
  simp only at h
  split at h
  · exact absurd h (by simp)
  · simp only [Option.some.injEq] at h
    refine ⟨_, h.symm, ?_⟩
    rw [addAirflowContainers_meta]
    rfl

theorem mysql_secret_spec (d : Decls) (s : MySQLSpec) (r : AirflowBase) (labels : StrMap)
    (rnd : Rand) :
    ∃ pw rpw rnd1, pw.length = 16 ∧ rpw.length = 16 ∧
      s.secret d r labels rnd = some
        ({ Obj := KObject.secret
             { ObjectMeta := r.getMeta d (rsrcName r.getName "sql" "") labels
               Data := [("password", pw), ("rootpassword", rpw)] }
           Lifecycle := Lifecycle.Managed
           ObjList := some ObjListKind.SecretList }, rnd1) := by
  obtain ⟨p1, r1, h1, hl1⟩ := RandomAlphanumericString_16 rnd
  obtain ⟨p2, r2, h2, hl2⟩ := RandomAlphanumericString_16 r1
  exact ⟨p1, p2, r2, hl1, hl2, by simp only [MySQLSpec.secret, h1, h2]; rfl⟩

theorem postgres_secret_spec (d : Decls) (s : PostgresSpec) (r : AirflowBase) (labels : StrMap)
    (rnd : Rand) :
    ∃ pw rpw rnd1, pw.length = 16 ∧ rpw.length = 16 ∧
      s.secret d r labels rnd = some
        ({ Obj := KObject.secret
             { ObjectMeta := r.getMeta d (rsrcName r.getName "sql" "") labels
               Data := [("password", pw), ("rootpassword", rpw)] }
           Lifecycle := Lifecycle.unset
           ObjList := none }, rnd1) := by
  obtain ⟨p1, r1, h1, hl1⟩ := RandomAlphanumericString_16 rnd
  obtain ⟨p2, r2, h2, hl2⟩ := RandomAlphanumericString_16 r1
  exact ⟨p1, p2, r2, hl1, hl2, by simp only [PostgresSpec.secret, h1, h2]; rfl⟩

theorem ui_secret_spec (d : Decls) (s : AirflowUISpec) (r : AirflowCluster) (labels : StrMap)
    (rnd : Rand) :
    ∃ pw rnd1, pw.length = 16 ∧
      s.secret d r labels rnd = some
        ({ Obj := KObject.secret
             { ObjectMeta := r.getMeta d (rsrcName r.getName "airflowui" "") labels
               Data := [("password", pw)] }
           Lifecycle := Lifecycle.Managed
           ObjList := some ObjListKind.SecretList }, rnd1) := by
  obtain ⟨p1, r1, h1, hl1⟩ := RandomAlphanumericString_16 rnd
  exact ⟨p1, r1, hl1, by simp only [AirflowUISpec.secret, h1]; rfl⟩

theorem redis_secret_spec (d : Decls) (s : RedisSpec) (r : AirflowCluster) (labels : StrMap)
    (rnd : Rand) :
    ∃ pw rnd1, pw.length = 16 ∧
      s.secret d r labels rnd = some
        ({ Obj := KObject.secret
             { ObjectMeta := r.getMeta d (rsrcName r.getName "redis" "") labels
               Data := [("password", pw)] }
           Lifecycle := Lifecycle.Managed
           ObjList := some ObjListKind.SecretList }, rnd1) := by
  obtain ⟨p1, r1, h1, hl1⟩ := RandomAlphanumericString_16 rnd
  exact ⟨p1, r1, hl1, by simp only [RedisSpec.secret, h1]; rfl⟩

/-! ## What ExpectedResources returns, variant by variant -/

theorem mysql_expected_eq (d : Decls) (s : MySQLSpec) (r : AirflowBase) (labels : StrMap)
    (rnd : Rand) :
    ∃ pw rpw rnd1, pw.length = 16 ∧ rpw.length = 16 ∧
      s.ExpectedResources d (Root.base r) labels rnd = some
        ({ resources :=
             if s.Operator then []
             else
               [ { Obj := KObject.secret
                     { ObjectMeta := r.getMeta d (rsrcName r.getName "sql" "") labels
                       Data := [("password", pw), ("rootpassword", rpw)] }
                   Lifecycle := Lifecycle.Managed
                   ObjList := some ObjListKind.SecretList },
                 s.service d r labels, s.sts d r labels, s.podDisruption d r labels ]
           err := none }, rnd1) := by
  obtain ⟨pw, rpw, rnd1, h1, h2, hsec⟩ := mysql_secret_spec d s r labels rnd
  cases hop : s.Operator
  · exact ⟨pw, rpw, rnd1, h1, h2, by
      simp [MySQLSpec.ExpectedResources, Root.asBase, hop, hsec]⟩
  · exact ⟨pw, rpw, rnd, h1, h2, by
      simp [MySQLSpec.ExpectedResources, Root.asBase, hop]⟩

theorem postgres_expected_eq (d : Decls) (s : PostgresSpec) (r : AirflowBase) (labels : StrMap)
    (rnd : Rand) :
    ∃ pw rpw rnd1, pw.length = 16 ∧ rpw.length = 16 ∧
      s.ExpectedResources d (Root.base r) labels rnd = some
        ({ resources :=
             if s.Operator then []
             else
               [ { Obj := KObject.secret
                     { ObjectMeta := r.getMeta d (rsrcName r.getName "sql" "") labels
                       Data := [("password", pw), ("rootpassword", rpw)] }
                   Lifecycle := Lifecycle.unset
                   ObjList := none },
                 s.service d r labels, s.sts d r labels, s.podDisruption d r labels ]
           err := none }, rnd1) := by
  obtain ⟨pw, rpw, rnd1, h1, h2, hsec⟩ := postgres_secret_spec d s r labels rnd
  cases hop : s.Operator
  · exact ⟨pw, rpw, rnd1, h1, h2, by
      simp [PostgresSpec.ExpectedResources, Root.asBase, hop, hsec]⟩
  · exact ⟨pw, rpw, rnd, h1, h2, by
      simp [PostgresSpec.ExpectedResources, Root.asBase, hop]⟩

theorem redis_expected_eq (d : Decls) (s : RedisSpec) (r : AirflowCluster) (labels : StrMap)
    (rnd : Rand) :
    ∃ pw rnd1, pw.length = 16 ∧
      s.ExpectedResources d (Root.cluster r) labels rnd = some
        ({ resources :=
             [ { Obj := KObject.secret
                   { ObjectMeta := r.getMeta d (rsrcName r.getName "redis" "") labels
                     Data := [("password", pw)] }
                 Lifecycle := Lifecycle.Managed
                 ObjList := some ObjListKind.SecretList },
               s.service d r labels, s.sts d r labels, s.podDisruption d r labels ]
           err := none }, rnd1) := by
  obtain ⟨pw, rnd1, h1, hsec⟩ := redis_secret_spec d s r labels rnd
  exact ⟨pw, rnd1, h1, by simp [RedisSpec.ExpectedResources, Root.asCluster, hsec]⟩

theorem ui_expected_eq (d : Decls) (s : AirflowUISpec) (r : AirflowCluster) (labels : StrMap)
    (rnd rnd1 : Rand) (e : Expected)
    (h : s.ExpectedResources d (Root.cluster r) labels rnd = some (e, rnd1)) :
    ∃ sso pw, s.sts d r labels = some sso ∧ pw.length = 16 ∧
      e = { resources :=
              [ sso,
                { Obj := KObject.secret
                    { ObjectMeta := r.getMeta d (rsrcName r.getName "airflowui" "") labels
                      Data := [("password", pw)] }
                  Lifecycle := Lifecycle.Managed
                  ObjList := some ObjListKind.SecretList } ]
            err := none } := by
  obtain ⟨pw, q, h1, hsec⟩ := ui_secret_spec d s r labels rnd
  cases hs : s.sts d r labels with
  | none => simp [AirflowUISpec.ExpectedResources, Root.asCluster, hs] at h
  | some sso =>
    simp only [AirflowUISpec.ExpectedResources, Root.asCluster, hs, hsec, Option.some.injEq,
      Prod.mk.injEq, List.nil_append] at h
    exact ⟨sso, pw, rfl, h1, h.1.symm⟩

theorem scheduler_expected_eq (d : Decls) (s : SchedulerSpec) (r : AirflowCluster)
    (labels : StrMap) (rnd rnd1 : Rand) (e : Expected)
    (h : s.ExpectedResources d (Root.cluster r) labels rnd = some (e, rnd1)) :
    ∃ sso rest, s.sts d r labels = some sso ∧
      e = { resources := [s.serviceaccount d r labels, s.rb d r labels, sso] ++ rest
            err := none } ∧
      ∀ o ∈ rest, ∃ name,
        o = { Lifecycle := Lifecycle.Referred
              Obj := KObject.secret
                { ObjectMeta := { Namespace := r.ObjectMeta.Namespace, Name := name } } } := by
  cases hs : s.sts d r labels with
  | none => simp [SchedulerSpec.ExpectedResources, Root.asCluster, hs] at h
  | some sso =>
    simp only [SchedulerSpec.ExpectedResources, Root.asCluster, hs, Option.some.injEq,
      Prod.mk.injEq, List.nil_append] at h
    obtain ⟨he, -⟩ := h
    subst he
    cases hD : r.Spec.DAGs with
    | none => exact ⟨sso, [], rfl, by simp, by simp⟩
    | some dags =>
      cases hG : dags.Git with
      | none => exact ⟨sso, [], rfl, by simp [hG], by simp⟩
      | some git =>
        cases hC : git.CredSecretRef with
        | none => exact ⟨sso, [], rfl, by simp [hG, hC], by simp⟩
        | some cr =>
          exact ⟨sso,
            [{ Lifecycle := Lifecycle.Referred
               Obj := KObject.secret
                 { ObjectMeta := { Namespace := r.ObjectMeta.Namespace, Name := cr.Name } } }],
            rfl, by simp [hG, hC], by simp⟩

theorem worker_expected_eq (d : Decls) (s : WorkerSpec) (r : AirflowCluster) (labels : StrMap)
    (rnd rnd1 : Rand) (e : Expected)
    (h : s.ExpectedResources d (Root.cluster r) labels rnd = some (e, rnd1)) :
    ∃ sso, s.sts d r labels = some sso ∧ e = { resources := [sso], err := none } := by
  cases hs : s.sts d r labels with
  | none => simp [WorkerSpec.ExpectedResources, Root.asCluster, hs] at h
  | some sso =>
    simp only [WorkerSpec.ExpectedResources, Root.asCluster, hs, Option.some.injEq,
      Prod.mk.injEq, List.nil_append] at h
    exact ⟨sso, rfl, h.1.symm⟩

theorem flower_expected_eq (d : Decls) (s : FlowerSpec) (r : AirflowCluster) (labels : StrMap)
    (rnd rnd1 : Rand) (e : Expected)
    (h : s.ExpectedResources d (Root.cluster r) labels rnd = some (e, rnd1)) :
    ∃ sso, s.sts d r labels = some sso ∧ e = { resources := [sso], err := none } := by
  cases hs : s.sts d r labels with
  | none => simp [FlowerSpec.ExpectedResources, Root.asCluster, hs] at h
  | some sso =>
    simp only [FlowerSpec.ExpectedResources, Root.asCluster, hs, Option.some.injEq,
      Prod.mk.injEq, List.nil_append] at h
    exact ⟨sso, rfl, h.1.symm⟩

/-! ## Ownership and lifecycle of the expected objects -/

/-- An object built on `getMeta` with the name it carries. -/
theorem stsObject_meta (rsrc : Root) (d : Decls) (labels : StrMap) (ss : StatefulSet)
    (name : String) (h : ss.ObjectMeta = rsrc.getMeta d name labels) :
    (stsObject ss).Obj.meta = rsrc.getMeta d (stsObject ss).Obj.meta.Name labels := by
  show ss.ObjectMeta = rsrc.getMeta d ss.ObjectMeta.Name labels
  rw [h]
  cases rsrc <;> rfl

/-- Every object of every variant is either built on the metadata of the root, and
then Managed (the Postgres secret, which carries no lifecycle tag, apart), or a
Referred secret that carries only a namespace and a name; the error is nil. -/
theorem ExpectedResources_object_cases (d : Decls) (c : ComponentSpec) (rsrc : Root)
    (labels : StrMap) (rnd rnd1 : Rand) (e : Expected) (o : Object)
    (h : c.ExpectedResources d rsrc labels rnd = some (e, rnd1)) (ho : o ∈ e.resources) :
    e.err = none ∧
    ((o.Obj.meta = rsrc.getMeta d o.Obj.meta.Name labels ∧
        (o.Lifecycle = Lifecycle.Managed ∨
          (o.Lifecycle = Lifecycle.unset ∧ c.variantName = "Postgres" ∧
            o.Obj.kind = "Secret"))) ∨
      (o.Lifecycle = Lifecycle.Referred ∧
        o.Obj = KObject.secret
          { ObjectMeta := { Namespace := rsrc.getNamespace, Name := o.Obj.meta.Name } })) := by
  cases c with
  | MySQL s =>
    cases rsrc with
    | cluster r => exact absurd h (by simp [ComponentSpec.ExpectedResources,
        MySQLSpec.ExpectedResources, Root.asBase])
    | base r =>
      obtain ⟨pw, rpw, q, -, -, heq⟩ := mysql_expected_eq d s r labels rnd
      obtain ⟨ss, hss, hmeta, -⟩ := mysql_sts_spec d s r labels
      have he : e = _ := ((Prod.mk.injEq _ _ _ _).mp (Option.some.inj (heq.symm.trans h))).1.symm
      subst he
      cases hop : s.Operator
      · simp only [hop, Bool.false_eq_true, if_false, List.mem_cons, List.not_mem_nil,
          or_false] at ho
        rcases ho with rfl | rfl | rfl | rfl
        · exact ⟨rfl, Or.inl ⟨rfl, Or.inl rfl⟩⟩
        · exact ⟨rfl, Or.inl ⟨rfl, Or.inl rfl⟩⟩
        · rw [hss]
          exact ⟨rfl, Or.inl ⟨stsObject_meta (Root.base r) d labels ss _ hmeta, Or.inl rfl⟩⟩
        · exact ⟨rfl, Or.inl ⟨rfl, Or.inl rfl⟩⟩
      · simp [hop] at ho
  | Postgres s =>
    cases rsrc with
    | cluster r => exact absurd h (by simp [ComponentSpec.ExpectedResources,
        PostgresSpec.ExpectedResources, Root.asBase])
    | base r =>
      obtain ⟨pw, rpw, q, -, -, heq⟩ := postgres_expected_eq d s r labels rnd
      obtain ⟨ss, hss, hmeta, -⟩ := postgres_sts_spec d s r labels
      have he : e = _ := ((Prod.mk.injEq _ _ _ _).mp (Option.some.inj (heq.symm.trans h))).1.symm
      subst he
      cases hop : s.Operator
      · simp only [hop, Bool.false_eq_true, if_false, List.mem_cons, List.not_mem_nil,
          or_false] at ho
        rcases ho with rfl | rfl | rfl | rfl
        · exact ⟨rfl, Or.inl ⟨rfl, Or.inr ⟨rfl, rfl, rfl⟩⟩⟩
        · exact ⟨rfl, Or.inl ⟨rfl, Or.inl rfl⟩⟩
        · rw [hss]
          exact ⟨rfl, Or.inl ⟨stsObject_meta (Root.base r) d labels ss _ hmeta, Or.inl rfl⟩⟩
        · exact ⟨rfl, Or.inl ⟨rfl, Or.inl rfl⟩⟩
      · simp [hop] at ho
  | SQLProxy s =>
    cases rsrc with
    | cluster r => exact absurd h (by simp [ComponentSpec.ExpectedResources,
        SQLProxySpec.ExpectedResources, Root.asBase])
    | base r =>
      obtain ⟨ss, hss, hmeta, -⟩ := sqlproxy_sts_spec d s r labels
      have he : e = _ := ((Prod.mk.injEq _ _ _ _).mp (Option.some.inj
        ((rfl : ComponentSpec.ExpectedResources d (ComponentSpec.SQLProxy s) (Root.base r)
          labels rnd = some (_, rnd)).symm.trans h))).1.symm
      subst he
      simp only [List.nil_append, List.mem_cons, List.not_mem_nil, or_false] at ho
      rcases ho with rfl | rfl | rfl
      · exact ⟨rfl, Or.inl ⟨rfl, Or.inl rfl⟩⟩
      · rw [hss]
        exact ⟨rfl, Or.inl ⟨stsObject_meta (Root.base r) d labels ss _ hmeta, Or.inl rfl⟩⟩
      · exact ⟨rfl, Or.inr ⟨rfl, rfl⟩⟩
  | NFSStore s =>
    cases rsrc with
    | cluster r => exact absurd h (by simp [ComponentSpec.ExpectedResources,
        NFSStoreSpec.ExpectedResources, Root.asBase])
    | base r =>
      obtain ⟨ss, hss, hmeta, -⟩ := nfs_sts_spec d s r labels
      have he : e = _ := ((Prod.mk.injEq _ _ _ _).mp (Option.some.inj
        ((rfl : ComponentSpec.ExpectedResources d (ComponentSpec.NFSStore s) (Root.base r)
          labels rnd = some (_, rnd)).symm.trans h))).1.symm
      subst he
      simp only [List.nil_append, List.mem_cons, List.not_mem_nil, or_false] at ho
      rcases ho with rfl | rfl | rfl
      · rw [hss]
        exact ⟨rfl, Or.inl ⟨stsObject_meta (Root.base r) d labels ss _ hmeta, Or.inl rfl⟩⟩
      · exact ⟨rfl, Or.inl ⟨rfl, Or.inl rfl⟩⟩
      · exact ⟨rfl, Or.inl ⟨rfl, Or.inl rfl⟩⟩
  | UI s =>
    cases rsrc with
    | base r => exact absurd h (by simp [ComponentSpec.ExpectedResources,
        AirflowUISpec.ExpectedResources, Root.asCluster])
    | cluster r =>
      obtain ⟨sso, pw, hs, -, he⟩ := ui_expected_eq d s r labels rnd rnd1 e h
      obtain ⟨ss, hss, hmeta⟩ := ui_sts_spec d s r labels sso hs
      subst he
      simp only [List.mem_cons, List.not_mem_nil, or_false] at ho
      rcases ho with rfl | rfl
      · rw [hss]
        exact ⟨rfl, Or.inl ⟨stsObject_meta (Root.cluster r) d labels ss _ hmeta, Or.inl rfl⟩⟩
      · exact ⟨rfl, Or.inl ⟨rfl, Or.inl rfl⟩⟩
  | Redis s =>
    cases rsrc with
    | base r => exact absurd h (by simp [ComponentSpec.ExpectedResources,
        RedisSpec.ExpectedResources, Root.asCluster])
    | cluster r =>
      obtain ⟨pw, q, -, heq⟩ := redis_expected_eq d s r labels rnd
      obtain ⟨ss, hss, hmeta, -⟩ := redis_sts_spec d s r labels
      have he : e = _ := ((Prod.mk.injEq _ _ _ _).mp (Option.some.inj (heq.symm.trans h))).1.symm
      subst he
      simp only [List.mem_cons, List.not_mem_nil, or_false] at ho
      rcases ho with rfl | rfl | rfl | rfl
      · exact ⟨rfl, Or.inl ⟨rfl, Or.inl rfl⟩⟩
      · exact ⟨rfl, Or.inl ⟨rfl, Or.inl rfl⟩⟩
      · rw [hss]
        exact ⟨rfl, Or.inl ⟨stsObject_meta (Root.cluster r) d labels ss _ hmeta, Or.inl rfl⟩⟩
      · exact ⟨rfl, Or.inl ⟨rfl, Or.inl rfl⟩⟩
  | Scheduler s =>
    cases rsrc with
    | base r => exact absurd h (by simp [ComponentSpec.ExpectedResources,
        SchedulerSpec.ExpectedResources, Root.asCluster])
    | cluster r =>
      obtain ⟨sso, rest, hs, he, hrest⟩ := scheduler_expected_eq d s r labels rnd rnd1 e h
      obtain ⟨ss, hss, hmeta⟩ := scheduler_sts_spec d s r labels sso hs
      subst he
      simp only [List.cons_append, List.nil_append, List.mem_cons] at ho
      rcases ho with rfl | rfl | rfl | ho
      · exact ⟨rfl, Or.inl ⟨rfl, Or.inl rfl⟩⟩
      · exact ⟨rfl, Or.inl ⟨rfl, Or.inl rfl⟩⟩
      · rw [hss]
        exact ⟨rfl, Or.inl ⟨stsObject_meta (Root.cluster r) d labels ss _ hmeta, Or.inl rfl⟩⟩
      · obtain ⟨name, rfl⟩ := hrest o ho
        exact ⟨rfl, Or.inr ⟨rfl, rfl⟩⟩
  | Worker s =>
    cases rsrc with
    | base r => exact absurd h (by simp [ComponentSpec.ExpectedResources,
        WorkerSpec.ExpectedResources, Root.asCluster])
    | cluster r =>
      obtain ⟨sso, hs, he⟩ := worker_expected_eq d s r labels rnd rnd1 e h
      obtain ⟨ss, hss, hmeta⟩ := worker_sts_spec d s r labels sso hs
      subst he
      simp only [List.mem_cons, List.not_mem_nil, or_false] at ho
      subst ho
      rw [hss]
      exact ⟨rfl, Or.inl ⟨stsObject_meta (Root.cluster r) d labels ss _ hmeta, Or.inl rfl⟩⟩
  | Flower s =>
    cases rsrc with
    | base r => exact absurd h (by simp [ComponentSpec.ExpectedResources,
        FlowerSpec.ExpectedResources, Root.asCluster])
    | cluster r =>
      obtain ⟨sso, hs, he⟩ := flower_expected_eq d s r labels rnd rnd1 e h
      obtain ⟨ss, hss, hmeta⟩ := flower_sts_spec d s r labels sso hs
      subst he
      simp only [List.mem_cons, List.not_mem_nil, or_false] at ho
      subst ho
      rw [hss]
      exact ⟨rfl, Or.inl ⟨stsObject_meta (Root.cluster r) d labels ss _ hmeta, Or.inl rfl⟩⟩

/-- C11: every Managed object returned by the `ExpectedResources` of any variant
carries exactly one owner reference; it names the root passed in (name and UID), is
a controller reference of kind AirflowBase for a base root and AirflowCluster for a
cluster root, and the object lives in the namespace of the root. -/
theorem managed_objects_owned (d : Decls) (c : ComponentSpec) (rsrc : Root)
    (labels : StrMap) (rnd rnd1 : Rand) (e : Expected) (o : Object)
    (h : c.ExpectedResources d rsrc labels rnd = some (e, rnd1)) (ho : o ∈ e.resources)
    (hm : o.Lifecycle = Lifecycle.Managed) :
    ∃ ref, o.Obj.meta.OwnerReferences = [ref] ∧
      ref.Name = rsrc.getName ∧ ref.UID = rsrc.getUID ∧
      ref.Kind = (match rsrc with
        | Root.base _ => "AirflowBase"
        | Root.cluster _ => "AirflowCluster") ∧
      ref.Controller = some true ∧
      o.Obj.meta.Namespace = rsrc.getNamespace := by
  rcases (ExpectedResources_object_cases d c rsrc labels rnd rnd1 e o h ho).2 with
    ⟨hmeta, -⟩ | ⟨hr, -⟩
  · rw [hmeta]
    cases rsrc <;> exact ⟨_, rfl, rfl, rfl, rfl, rfl, rfl⟩
  · rw [hm] at hr
    exact absurd hr (by decide)

/-- The Service of the NFS store on the base resource `base`. -/
theorem managed_objects_owned_witness :
    ∃ ref, (sampleNFS.service sampleDecls sampleBase sampleLabels).Obj.meta.OwnerReferences =
        [ref] ∧
      ref.Name = "base" ∧ ref.UID = "uid-0" ∧ ref.Kind = "AirflowBase" ∧
      ref.Controller = some true ∧
      (sampleNFS.service sampleDecls sampleBase sampleLabels).Obj.meta.Namespace = "ns" :=
  managed_objects_owned sampleDecls (ComponentSpec.NFSStore sampleNFS) (Root.base sampleBase)
    sampleLabels sampleRand sampleRand
    { resources :=
        [ sampleNFS.sts sampleDecls sampleBase sampleLabels,
          sampleNFS.service sampleDecls sampleBase sampleLabels,
          sampleNFS.podDisruption sampleDecls sampleBase sampleLabels ]
      err := none }
    (sampleNFS.service sampleDecls sampleBase sampleLabels) rfl
    (List.mem_cons_of_mem _ (List.mem_cons_self _ _)) rfl

/-- C12: the Secret that the Postgres variant returns (when it is not suppressed)
carries no lifecycle tag: the builder leaves `Lifecycle` and `ObjList` at their zero
values, so the tag is neither Managed nor Referred. -/
theorem postgres_secret_lifecycle_unset (d : Decls) (s : PostgresSpec) (r : AirflowBase)
    (labels : StrMap) (rnd : Rand) (hop : s.Operator = false) :
    ∃ e rnd1 o, s.ExpectedResources d (Root.base r) labels rnd = some (e, rnd1) ∧
      o ∈ e.resources ∧ o.Obj.kind = "Secret" ∧
      o.Lifecycle = Lifecycle.unset ∧ o.ObjList = none ∧
      o.Lifecycle ≠ Lifecycle.Managed ∧ o.Lifecycle ≠ Lifecycle.Referred := by
  obtain ⟨pw, rpw, q, -, -, heq⟩ := postgres_expected_eq d s r labels rnd
  refine ⟨_, q,
    { Obj := KObject.secret
        { ObjectMeta := r.getMeta d (rsrcName r.getName "sql" "") labels
          Data := [("password", pw), ("rootpassword", rpw)] }
      Lifecycle := Lifecycle.unset
      ObjList := none },
    heq, ?_, rfl, rfl, rfl, ?_, ?_⟩
  · simp [hop]
  · exact fun h => Lifecycle.noConfusion h
  · exact fun h => Lifecycle.noConfusion h

/-- The Postgres variant on the base resource `base`. -/
theorem postgres_secret_lifecycle_unset_witness :
    ∃ e rnd1 o,
      (samplePostgres false).ExpectedResources sampleDecls (Root.base sampleBase) sampleLabels
        sampleRand = some (e, rnd1) ∧
      o ∈ e.resources ∧ o.Obj.kind = "Secret" ∧
      o.Lifecycle = Lifecycle.unset ∧ o.ObjList = none ∧
      o.Lifecycle ≠ Lifecycle.Managed ∧ o.Lifecycle ≠ Lifecycle.Referred :=
  postgres_secret_lifecycle_unset sampleDecls (samplePostgres false) sampleBase sampleLabels
    sampleRand rfl

/-! ## The object sets of the base components -/

/-- C16: on an AirflowBase root the MySQL and the Postgres variant return a nil
error; with the `Operator` flag set the object set is empty, and with the flag clear
it holds exactly four objects: a Secret, a Service, a StatefulSet and a
PodDisruptionBudget. -/
theorem sql_ExpectedResources_operator (d : Decls) (ms : MySQLSpec) (ps : PostgresSpec)
    (r : AirflowBase) (labels : StrMap) (rnd : Rand) :
    (∃ e rnd1, ms.ExpectedResources d (Root.base r) labels rnd = some (e, rnd1) ∧
      e.err = none ∧
      e.resources.length = (if ms.Operator then 0 else 4) ∧
      e.resources.map (fun o => o.Obj.kind) =
        (if ms.Operator then []
         else ["Secret", "Service", "StatefulSet", "PodDisruptionBudget"])) ∧
    (∃ e rnd1, ps.ExpectedResources d (Root.base r) labels rnd = some (e, rnd1) ∧
      e.err = none ∧
      e.resources.length = (if ps.Operator then 0 else 4) ∧
      e.resources.map (fun o => o.Obj.kind) =
        (if ps.Operator then []
         else ["Secret", "Service", "StatefulSet", "PodDisruptionBudget"])) := by
  constructor
  · obtain ⟨pw, rpw, q, -, -, heq⟩ := mysql_expected_eq d ms r labels rnd
    obtain ⟨ss, hss, -⟩ := mysql_sts_spec d ms r labels
    refine ⟨_, q, heq, rfl, ?_, ?_⟩
    · cases ms.Operator <;> rfl
    · cases ms.Operator
      · simp only [Bool.false_eq_true, if_false, List.map, hss]; rfl
      · rfl
  · obtain ⟨pw, rpw, q, -, -, heq⟩ := postgres_expected_eq d ps r labels rnd
    obtain ⟨ss, hss, -⟩ := postgres_sts_spec d ps r labels
    refine ⟨_, q, heq, rfl, ?_, ?_⟩
    · cases ps.Operator <;> rfl
    · cases ps.Operator
      · simp only [Bool.false_eq_true, if_false, List.map, hss]; rfl
      · rfl

/-- C17: on an AirflowBase root the SQL proxy variant returns a nil error and exactly
three objects: a Managed Service, a Managed StatefulSet and one Secret, which is
Referred, is named `<root name>-sqlproxy`, lives in the namespace of the root and
carries nothing else. -/
theorem sqlproxy_ExpectedResources (d : Decls) (s : SQLProxySpec) (r : AirflowBase)
    (labels : StrMap) (rnd : Rand) :
    ∃ svc ss,
      s.ExpectedResources d (Root.base r) labels rnd = some
        ({ resources :=
             [ { Obj := KObject.service svc
                 Lifecycle := Lifecycle.Managed
                 ObjList := some ObjListKind.ServiceList },
               { Obj := KObject.statefulSet ss
                 Lifecycle := Lifecycle.Managed
                 ObjList := some ObjListKind.StatefulSetList },
               { Obj := KObject.secret
                   { ObjectMeta :=
                       { Namespace := r.ObjectMeta.Namespace
                         Name := rsrcName r.ObjectMeta.Name "sqlproxy" "" } }
                 Lifecycle := Lifecycle.Referred
                 ObjList := none } ]
           err := none }, rnd) ∧
      rsrcName r.ObjectMeta.Name "sqlproxy" "" = r.ObjectMeta.Name ++ "-sqlproxy" :=
  ⟨_, _, rfl, by simp [rsrcName, String.append_assoc]⟩

/-! ## Volumes of the StatefulSets -/

/-- C18: the StatefulSets of MySQL, Postgres, Redis and the NFS store have, when the
volume claim template of the component is set, exactly that claim template and no pod
volume, and otherwise no claim template and exactly one pod volume, an EmptyDir named
`mysql-data`, `postgres-data`, `redis-data` and `nfs-data` respectively. -/
theorem sts_volume_or_claim (d : Decls) (ms : MySQLSpec) (ps : PostgresSpec) (rs : RedisSpec)
    (ns : NFSStoreSpec) (b : AirflowBase) (c : AirflowCluster) (labels : StrMap) :
    (∃ ss, (ms.sts d b labels).Obj = KObject.statefulSet ss ∧
      match ms.VolumeClaimTemplate with
      | some t => ss.Spec.VolumeClaimTemplates = [t] ∧ ss.Spec.Template.Spec.Volumes = []
      | none => ss.Spec.VolumeClaimTemplates = [] ∧
          ss.Spec.Template.Spec.Volumes =
            [{ Name := "mysql-data", VolumeSource := { EmptyDir := some {} } }]) ∧
    (∃ ss, (ps.sts d b labels).Obj = KObject.statefulSet ss ∧
      match ps.VolumeClaimTemplate with
      | some t => ss.Spec.VolumeClaimTemplates = [t] ∧ ss.Spec.Template.Spec.Volumes = []
      | none => ss.Spec.VolumeClaimTemplates = [] ∧
          ss.Spec.Template.Spec.Volumes =
            [{ Name := "postgres-data", VolumeSource := { EmptyDir := some {} } }]) ∧
    (∃ ss, (rs.sts d c labels).Obj = KObject.statefulSet ss ∧
      match rs.VolumeClaimTemplate with
      | some t => ss.Spec.VolumeClaimTemplates = [t] ∧ ss.Spec.Template.Spec.Volumes = []
      | none => ss.Spec.VolumeClaimTemplates = [] ∧
          ss.Spec.Template.Spec.Volumes =
            [{ Name := "redis-data", VolumeSource := { EmptyDir := some {} } }]) ∧
    (∃ ss, (ns.sts d b labels).Obj = KObject.statefulSet ss ∧
      match ns.Volume with
      | some t => ss.Spec.VolumeClaimTemplates = [t] ∧ ss.Spec.Template.Spec.Volumes = []
      | none => ss.Spec.VolumeClaimTemplates = [] ∧
          ss.Spec.Template.Spec.Volumes =
            [{ Name := "nfs-data", VolumeSource := { EmptyDir := some {} } }]) := by
  refine ⟨?_, ?_, ?_, ?_⟩
  · obtain ⟨ss, hss, -, -, hv, hp⟩ := mysql_sts_spec d ms b labels
    refine ⟨ss, by rw [hss]; rfl, ?_⟩
    cases h : ms.VolumeClaimTemplate <;> simp only [h] at hv hp ⊢ <;> exact ⟨hv, hp⟩
  · obtain ⟨ss, hss, -, -, hv, hp⟩ := postgres_sts_spec d ps b labels
    refine ⟨ss, by rw [hss]; rfl, ?_⟩
    cases h : ps.VolumeClaimTemplate <;> simp only [h] at hv hp ⊢ <;> exact ⟨hv, hp⟩
  · obtain ⟨ss, hss, -, -, hv, hp⟩ := redis_sts_spec d rs c labels
    refine ⟨ss, by rw [hss]; rfl, ?_⟩
    cases h : rs.VolumeClaimTemplate <;> simp only [h] at hv hp ⊢ <;> exact ⟨hv, hp⟩
  · obtain ⟨ss, hss, -, -, hv, hp⟩ := nfs_sts_spec d ns b labels
    refine ⟨ss, by rw [hss]; rfl, ?_⟩
    cases h : ns.Volume <;> simp only [h] at hv hp ⊢ <;> exact ⟨hv, hp⟩

/-! ## Pod disruption budgets -/

/-- The budget built by `podDisruption` from the text `100%`. -/
theorem podDisruption_spec (d : Decls) (rsrc : Root) (component : String) (labels : StrMap)
    (pdb : PodDisruptionBudget)
    (hp : (podDisruption d rsrc component "" "100%" labels).Obj =
      KObject.podDisruptionBudget pdb) :
    pdb.Spec.MinAvailable = some (IntOrString.str "100%") ∧
      pdb.Spec.Selector = some { MatchLabels := labels } := by
  have h100 : intstrParse "100%" = IntOrString.str "100%" := by decide
  simp only [podDisruption, KObject.podDisruptionBudget.injEq, h100] at hp
  subst hp
  exact ⟨rfl, rfl⟩

/-- C19: every PodDisruptionBudget in the object set that a variant returns (MySQL,
Postgres, NFS store and Redis return one) has MinAvailable equal to the percentage
`100%` and selects by exactly the label map passed to `ExpectedResources`. -/
theorem podDisruptionBudget_minAvailable (d : Decls) (c : ComponentSpec) (rsrc : Root)
    (labels : StrMap) (rnd rnd1 : Rand) (e : Expected) (o : Object)
    (pdb : PodDisruptionBudget)
    (h : c.ExpectedResources d rsrc labels rnd = some (e, rnd1)) (ho : o ∈ e.resources)
    (hp : o.Obj = KObject.podDisruptionBudget pdb) :
    pdb.Spec.MinAvailable = some (IntOrString.str "100%") ∧
      pdb.Spec.Selector = some { MatchLabels := labels } := by
  have hk : o.Obj.kind = "PodDisruptionBudget" := by rw [hp]; rfl
  have nsec : "Secret" ≠ "PodDisruptionBudget" := by decide
  have nsvc : "Service" ≠ "PodDisruptionBudget" := by decide
  have nsts : "StatefulSet" ≠ "PodDisruptionBudget" := by decide
  have nsa : "ServiceAccount" ≠ "PodDisruptionBudget" := by decide
  have nrb : "RoleBinding" ≠ "PodDisruptionBudget" := by decide
  cases c with
  | MySQL s =>
    cases rsrc with
    | cluster r => exact absurd h (by simp [ComponentSpec.ExpectedResources,
        MySQLSpec.ExpectedResources, Root.asBase])
    | base r =>
      obtain ⟨pw, rpw, q, -, -, heq⟩ := mysql_expected_eq d s r labels rnd
      obtain ⟨ss, hss, -⟩ := mysql_sts_spec d s r labels
      have he : e = _ := ((Prod.mk.injEq _ _ _ _).mp (Option.some.inj (heq.symm.trans h))).1.symm
      subst he
      cases hop : s.Operator
      · simp only [hop, Bool.false_eq_true, if_false, List.mem_cons, List.not_mem_nil,
          or_false] at ho
        rcases ho with rfl | rfl | rfl | rfl
        · exact absurd hk nsec
        · exact absurd hk nsvc
        · rw [hss] at hk; exact absurd hk nsts
        · exact podDisruption_spec d (Root.base r) _ labels pdb hp
      · simp [hop] at ho
  | Postgres s =>
    cases rsrc with
    | cluster r => exact absurd h (by simp [ComponentSpec.ExpectedResources,
        PostgresSpec.ExpectedResources, Root.asBase])
    | base r =>
      obtain ⟨pw, rpw, q, -, -, heq⟩ := postgres_expected_eq d s r labels rnd
      obtain ⟨ss, hss, -⟩ := postgres_sts_spec d s r labels
      have he : e = _ := ((Prod.mk.injEq _ _ _ _).mp (Option.some.inj (heq.symm.trans h))).1.symm
      subst he
      cases hop : s.Operator
      · simp only [hop, Bool.false_eq_true, if_false, List.mem_cons, List.not_mem_nil,
          or_false] at ho
        rcases ho with rfl | rfl | rfl | rfl
        · exact absurd hk nsec
        · exact absurd hk nsvc
        · rw [hss] at hk; exact absurd hk nsts
        · exact podDisruption_spec d (Root.base r) _ labels pdb hp
      · simp [hop] at ho
  | SQLProxy s =>
    cases rsrc with
    | cluster r => exact absurd h (by simp [ComponentSpec.ExpectedResources,
        SQLProxySpec.ExpectedResources, Root.asBase])
    | base r =>
      have he : e = _ := ((Prod.mk.injEq _ _ _ _).mp (Option.some.inj
        ((rfl : ComponentSpec.ExpectedResources d (ComponentSpec.SQLProxy s) (Root.base r)
          labels rnd = some (_, rnd)).symm.trans h))).1.symm
      subst he
      simp only [List.nil_append, List.mem_cons, List.not_mem_nil, or_false] at ho
      rcases ho with rfl | rfl | rfl
      · exact absurd hk nsvc
      · exact absurd hk nsts
      · exact absurd hk nsec
  | NFSStore s =>
    cases rsrc with
    | cluster r => exact absurd h (by simp [ComponentSpec.ExpectedResources,
        NFSStoreSpec.ExpectedResources, Root.asBase])
    | base r =>
      obtain ⟨ss, hss, -⟩ := nfs_sts_spec d s r labels
      have he : e = _ := ((Prod.mk.injEq _ _ _ _).mp (Option.some.inj
        ((rfl : ComponentSpec.ExpectedResources d (ComponentSpec.NFSStore s) (Root.base r)
          labels rnd = some (_, rnd)).symm.trans h))).1.symm
      subst he
      simp only [List.nil_append, List.mem_cons, List.not_mem_nil, or_false] at ho
      rcases ho with rfl | rfl | rfl
      · rw [hss] at hk; exact absurd hk nsts
      · exact absurd hk nsvc
      · exact podDisruption_spec d (Root.base r) _ labels pdb hp
  | UI s =>
    cases rsrc with
    | base r => exact absurd h (by simp [ComponentSpec.ExpectedResources,
        AirflowUISpec.ExpectedResources, Root.asCluster])
    | cluster r =>
      obtain ⟨sso, pw, hs, -, he⟩ := ui_expected_eq d s r labels rnd rnd1 e h
      obtain ⟨ss, hss, -⟩ := ui_sts_spec d s r labels sso hs
      subst he
      simp only [List.mem_cons, List.not_mem_nil, or_false] at ho
      rcases ho with rfl | rfl
      · rw [hss] at hk; exact absurd hk nsts
      · exact absurd hk nsec
  | Redis s =>
    cases rsrc with
    | base r => exact absurd h (by simp [ComponentSpec.ExpectedResources,
        RedisSpec.ExpectedResources, Root.asCluster])
    | cluster r =>
      obtain ⟨pw, q, -, heq⟩ := redis_expected_eq d s r labels rnd
      obtain ⟨ss, hss, -⟩ := redis_sts_spec d s r labels
      have he : e = _ := ((Prod.mk.injEq _ _ _ _).mp (Option.some.inj (heq.symm.trans h))).1.symm
      subst he
      simp only [List.mem_cons, List.not_mem_nil, or_false] at ho
      rcases ho with rfl | rfl | rfl | rfl
      · exact absurd hk nsec
      · exact absurd hk nsvc
      · rw [hss] at hk; exact absurd hk nsts
      · exact podDisruption_spec d (Root.cluster r) _ labels pdb hp
  | Scheduler s =>
    cases rsrc with
    | base r => exact absurd h (by simp [ComponentSpec.ExpectedResources,
        SchedulerSpec.ExpectedResources, Root.asCluster])
    | cluster r =>
      obtain ⟨sso, rest, hs, he, hrest⟩ := scheduler_expected_eq d s r labels rnd rnd1 e h
      obtain ⟨ss, hss, -⟩ := scheduler_sts_spec d s r labels sso hs
      subst he
      simp only [List.cons_append, List.nil_append, List.mem_cons] at ho
      rcases ho with rfl | rfl | rfl | ho
      · exact absurd hk nsa
      · exact absurd hk nrb
      · rw [hss] at hk; exact absurd hk nsts
      · obtain ⟨name, rfl⟩ := hrest o ho
        exact absurd hk nsec
  | Worker s =>
    cases rsrc with
    | base r => exact absurd h (by simp [ComponentSpec.ExpectedResources,
        WorkerSpec.ExpectedResources, Root.asCluster])
    | cluster r =>
      obtain ⟨sso, hs, he⟩ := worker_expected_eq d s r labels rnd rnd1 e h
      obtain ⟨ss, hss, -⟩ := worker_sts_spec d s r labels sso hs
      subst he
      simp only [List.mem_cons, List.not_mem_nil, or_false] at ho
      subst ho
      rw [hss] at hk; exact absurd hk nsts
  | Flower s =>
    cases rsrc with
    | base r => exact absurd h (by simp [ComponentSpec.ExpectedResources,
        FlowerSpec.ExpectedResources, Root.asCluster])
    | cluster r =>
      obtain ⟨sso, hs, he⟩ := flower_expected_eq d s r labels rnd rnd1 e h
      obtain ⟨ss, hss, -⟩ := flower_sts_spec d s r labels sso hs
      subst he
      simp only [List.mem_cons, List.not_mem_nil, or_false] at ho
      subst ho
      rw [hss] at hk; exact absurd hk nsts

/-- The budget of the NFS store on the base resource `base`. -/
theorem podDisruptionBudget_minAvailable_witness :
    ∃ pdb, (sampleNFS.podDisruption sampleDecls sampleBase sampleLabels).Obj =
        KObject.podDisruptionBudget pdb ∧
      pdb.Spec.MinAvailable = some (IntOrString.str "100%") ∧
      pdb.Spec.Selector = some { MatchLabels := sampleLabels } :=
  ⟨{ ObjectMeta := sampleBase.getMeta sampleDecls (rsrcName "base" "nfs" "") sampleLabels
     Spec := { MinAvailable := some (intstrParse "100%")
               Selector := some { MatchLabels := sampleLabels } } },
   rfl,
   podDisruptionBudget_minAvailable sampleDecls (ComponentSpec.NFSStore sampleNFS)
    (Root.base sampleBase) sampleLabels sampleRand sampleRand
    { resources :=
        [ sampleNFS.sts sampleDecls sampleBase sampleLabels,
          sampleNFS.service sampleDecls sampleBase sampleLabels,
          sampleNFS.podDisruption sampleDecls sampleBase sampleLabels ]
      err := none }
    (sampleNFS.podDisruption sampleDecls sampleBase sampleLabels) _ rfl
    (List.mem_cons_of_mem _ (List.mem_cons_of_mem _ (List.mem_cons_self _ _))) rfl⟩

/-! ## The scheduler's service account -/

theorem scheduler_sts_isSome (d : Decls) (s : SchedulerSpec) (r : AirflowCluster)
    (labels : StrMap) (ref : LocalObjectReference) (sched : SchedulerSpec) (w : WorkerSpec)
    (hB : r.Spec.AirflowBaseRef = some ref) (hS : r.Spec.Scheduler = some sched)
    (hW : r.Spec.Executor = d.ExecutorK8s → r.Spec.Worker = some w) :
    ∃ o, s.sts d r labels = some o := by
  simp only [SchedulerSpec.sts, getAirflowEnv_eq d r _ ref sched w hB hS hW,
    AirflowCluster.getAirflowPrometheusEnv, hB, hS]
  exact ⟨_, rfl⟩

/-- C20: whatever the executor, the object set of the scheduler holds the
ServiceAccount and the RoleBinding named `<cluster>-scheduler`; `ExpectedResources`
adds them before it looks at anything else, and never tests the executor. -/
theorem scheduler_serviceaccount_any_executor (d : Decls) (s : SchedulerSpec)
    (r : AirflowCluster) (labels : StrMap) (rnd : Rand) (ref : LocalObjectReference)
    (sched : SchedulerSpec) (w : WorkerSpec)
    (hB : r.Spec.AirflowBaseRef = some ref) (hS : r.Spec.Scheduler = some sched)
    (hW : r.Spec.Executor = d.ExecutorK8s → r.Spec.Worker = some w) :
    ∃ e rnd1, s.ExpectedResources d (Root.cluster r) labels rnd = some (e, rnd1) ∧
      s.serviceaccount d r labels ∈ e.resources ∧ s.rb d r labels ∈ e.resources ∧
      (s.serviceaccount d r labels).Obj.kind = "ServiceAccount" ∧
      (s.rb d r labels).Obj.kind = "RoleBinding" ∧
      (s.serviceaccount d r labels).Obj.meta.Name = rsrcName r.ObjectMeta.Name "scheduler" "" ∧
      (s.rb d r labels).Obj.meta.Name = rsrcName r.ObjectMeta.Name "scheduler" "" := by
  obtain ⟨sso, hs⟩ := scheduler_sts_isSome d s r labels ref sched w hB hS hW
  have hret : ∃ e rnd1, s.ExpectedResources d (Root.cluster r) labels rnd = some (e, rnd1) := by
    simp only [SchedulerSpec.ExpectedResources, Root.asCluster, hs]
    exact ⟨_, _, rfl⟩
  obtain ⟨e, rnd1, he⟩ := hret
  obtain ⟨sso1, rest, -, heq, -⟩ := scheduler_expected_eq d s r labels rnd rnd1 e he
  refine ⟨e, rnd1, he, ?_, ?_, rfl, rfl, rfl, rfl⟩ <;> simp [heq]

/-- The scheduler of the sample cluster under the Celery executor. -/
theorem scheduler_serviceaccount_any_executor_witness :
    (sampleCluster "Celery").Spec.Executor ≠ sampleDecls.ExecutorK8s ∧
    ∃ e rnd1, sampleScheduler.ExpectedResources sampleDecls (Root.cluster (sampleCluster "Celery"))
        sampleLabels sampleRand = some (e, rnd1) ∧
      sampleScheduler.serviceaccount sampleDecls (sampleCluster "Celery") sampleLabels ∈
        e.resources ∧
      sampleScheduler.rb sampleDecls (sampleCluster "Celery") sampleLabels ∈ e.resources ∧
      (sampleScheduler.serviceaccount sampleDecls (sampleCluster "Celery") sampleLabels).Obj.kind =
        "ServiceAccount" ∧
      (sampleScheduler.rb sampleDecls (sampleCluster "Celery") sampleLabels).Obj.kind =
        "RoleBinding" ∧
      (sampleScheduler.serviceaccount sampleDecls (sampleCluster "Celery")
        sampleLabels).Obj.meta.Name = rsrcName "cl" "scheduler" "" ∧
      (sampleScheduler.rb sampleDecls (sampleCluster "Celery") sampleLabels).Obj.meta.Name =
        rsrcName "cl" "scheduler" "" :=
  ⟨by decide,
   scheduler_serviceaccount_any_executor sampleDecls sampleScheduler (sampleCluster "Celery")
    sampleLabels sampleRand { Name := "base" } sampleScheduler
    { Image := "airflow", Version := "1.10", Replicas := 2, Resources := {} } rfl rfl
    (fun h => absurd h (by decide))⟩

/-! ## Keys of the objects of the base components -/

theorem rsrcName_ne_empty (name component suffix : String) :
    rsrcName name component suffix ≠ "" := by
  intro h
  have hd := congrArg String.data h
  rw [rsrcName_data] at hd
  simp at hd

/-- The Service of a SQL backend is named after the component `sql`. -/
theorem sql_service_key (d : Decls) (rsrc : Root) (component : String) (labels : StrMap)
    (ports : List ServicePort) :
    (service d rsrc component (rsrcName rsrc.getName "sql" "") labels ports).key =
      ("Service", rsrcName rsrc.getName "sql" "") := by
  simp only [service, if_neg (rsrcName_ne_empty _ _ _)]
  cases rsrc <;> rfl

theorem mysql_service_key (d : Decls) (s : MySQLSpec) (r : AirflowBase) (labels : StrMap) :
    (s.service d r labels).key = ("Service", rsrcName r.ObjectMeta.Name "sql" "") :=
  sql_service_key d (Root.base r) _ labels _

theorem postgres_service_key (d : Decls) (s : PostgresSpec) (r : AirflowBase)
    (labels : StrMap) :
    (s.service d r labels).key = ("Service", rsrcName r.ObjectMeta.Name "sql" "") :=
  sql_service_key d (Root.base r) _ labels _

theorem sqlproxy_service_key (d : Decls) (s : SQLProxySpec) (r : AirflowBase)
    (labels : StrMap) :
    (s.service d r labels).key = ("Service", rsrcName r.ObjectMeta.Name "sql" "") :=
  sql_service_key d (Root.base r) _ labels _

/-- Every object a variant returns for a base root has a key of the table: the
kind listed there, and the name built from the root name and the listed component. -/
theorem base_object_keys (d : Decls) (c : ComponentSpec) (r : AirflowBase) (labels : StrMap)
    (rnd rnd1 : Rand) (e : Expected) (o : Object)
    (h : c.ExpectedResources d (Root.base r) labels rnd = some (e, rnd1))
    (ho : o ∈ e.resources) :
    ∃ k x, o.key = (k, rsrcName r.ObjectMeta.Name x "") ∧
      (c.variantName, k, x) ∈ baseObjectTable := by
  cases c with
  | MySQL s =>
    obtain ⟨pw, rpw, q, -, -, heq⟩ := mysql_expected_eq d s r labels rnd
    obtain ⟨ss, hss, hmeta, -⟩ := mysql_sts_spec d s r labels
    have he : e = _ := ((Prod.mk.injEq _ _ _ _).mp (Option.some.inj (heq.symm.trans h))).1.symm
    subst he
    cases hop : s.Operator
    · simp only [hop, Bool.false_eq_true, if_false, List.mem_cons, List.not_mem_nil,
        or_false] at ho
      rcases ho with rfl | rfl | rfl | rfl
      · exact ⟨"Secret", "sql", rfl, (by decide : ("MySQL", "Secret", "sql") ∈ baseObjectTable)⟩
      · exact ⟨"Service", "sql", mysql_service_key d s r labels, (by decide : ("MySQL", "Service", "sql") ∈ baseObjectTable)⟩
      · exact ⟨"StatefulSet", "mysql", by rw [hss]; simp only [Object.key, stsObject,
          KObject.kind, KObject.meta, hmeta]; rfl, (by decide : ("MySQL", "StatefulSet", "mysql") ∈ baseObjectTable)⟩
      · exact ⟨"PodDisruptionBudget", "mysql", rfl, (by decide : ("MySQL", "PodDisruptionBudget", "mysql") ∈ baseObjectTable)⟩
    · simp [hop] at ho
  | Postgres s =>
    obtain ⟨pw, rpw, q, -, -, heq⟩ := postgres_expected_eq d s r labels rnd
    obtain ⟨ss, hss, hmeta, -⟩ := postgres_sts_spec d s r labels
    have he : e = _ := ((Prod.mk.injEq _ _ _ _).mp (Option.some.inj (heq.symm.trans h))).1.symm
    subst he
    cases hop : s.Operator
    · simp only [hop, Bool.false_eq_true, if_false, List.mem_cons, List.not_mem_nil,
        or_false] at ho
      rcases ho with rfl | rfl | rfl | rfl
      · exact ⟨"Secret", "sql", rfl, (by decide : ("Postgres", "Secret", "sql") ∈ baseObjectTable)⟩
      · exact ⟨"Service", "sql", postgres_service_key d s r labels, (by decide : ("Postgres", "Service", "sql") ∈ baseObjectTable)⟩
      · exact ⟨"StatefulSet", "postgres", by rw [hss]; simp only [Object.key, stsObject,
          KObject.kind, KObject.meta, hmeta]; rfl, (by decide : ("Postgres", "StatefulSet", "postgres") ∈ baseObjectTable)⟩
      · exact ⟨"PodDisruptionBudget", "postgres", rfl, (by decide : ("Postgres", "PodDisruptionBudget", "postgres") ∈ baseObjectTable)⟩
    · simp [hop] at ho
  | SQLProxy s =>
    obtain ⟨ss, hss, hmeta, -⟩ := sqlproxy_sts_spec d s r labels
    have he : e = _ := ((Prod.mk.injEq _ _ _ _).mp (Option.some.inj
      ((rfl : ComponentSpec.ExpectedResources d (ComponentSpec.SQLProxy s) (Root.base r)
        labels rnd = some (_, rnd)).symm.trans h))).1.symm
    subst he
    simp only [List.nil_append, List.mem_cons, List.not_mem_nil, or_false] at ho
    rcases ho with rfl | rfl | rfl
    · exact ⟨"Service", "sql", sqlproxy_service_key d s r labels, (by decide : ("SQLProxy", "Service", "sql") ∈ baseObjectTable)⟩
    · exact ⟨"StatefulSet", "sqlproxy", rfl, (by decide : ("SQLProxy", "StatefulSet", "sqlproxy") ∈ baseObjectTable)⟩
    · exact ⟨"Secret", "sqlproxy", rfl, (by decide : ("SQLProxy", "Secret", "sqlproxy") ∈ baseObjectTable)⟩
  | NFSStore s =>
    obtain ⟨ss, hss, hmeta, -⟩ := nfs_sts_spec d s r labels
    have he : e = _ := ((Prod.mk.injEq _ _ _ _).mp (Option.some.inj
      ((rfl : ComponentSpec.ExpectedResources d (ComponentSpec.NFSStore s) (Root.base r)
        labels rnd = some (_, rnd)).symm.trans h))).1.symm
    subst he
    simp only [List.nil_append, List.mem_cons, List.not_mem_nil, or_false] at ho
    rcases ho with rfl | rfl | rfl
    · exact ⟨"StatefulSet", "nfs", by rw [hss]; simp only [Object.key, stsObject,
        KObject.kind, KObject.meta, hmeta]; rfl, (by decide : ("NFSStore", "StatefulSet", "nfs") ∈ baseObjectTable)⟩
    · exact ⟨"Service", "nfs", rfl, (by decide : ("NFSStore", "Service", "nfs") ∈ baseObjectTable)⟩
    · exact ⟨"PodDisruptionBudget", "nfs", rfl, (by decide : ("NFSStore", "PodDisruptionBudget", "nfs") ∈ baseObjectTable)⟩
  | UI s => exact absurd h (by simp [ComponentSpec.ExpectedResources,
      AirflowUISpec.ExpectedResources, Root.asCluster])
  | Redis s => exact absurd h (by simp [ComponentSpec.ExpectedResources,
      RedisSpec.ExpectedResources, Root.asCluster])
  | Scheduler s => exact absurd h (by simp [ComponentSpec.ExpectedResources,
      SchedulerSpec.ExpectedResources, Root.asCluster])
  | Worker s => exact absurd h (by simp [ComponentSpec.ExpectedResources,
      WorkerSpec.ExpectedResources, Root.asCluster])
  | Flower s => exact absurd h (by simp [ComponentSpec.ExpectedResources,
      FlowerSpec.ExpectedResources, Root.asCluster])

/-- Two rows of the table under different variants with the same kind and component
are rows of the shared SQL Service or of the SQL Secret of MySQL and Postgres. -/
theorem baseObjectTable_collisions :
    ∀ t1 ∈ baseObjectTable, ∀ t2 ∈ baseObjectTable, t1.1 ≠ t2.1 → t1.2 = t2.2 →
      t1.2.2 = "sql" ∧ t1.1 ≠ "NFSStore" ∧ t2.1 ≠ "NFSStore" ∧
      (t1.2.1 = "Service" ∨ (t1.2.1 = "Secret" ∧ t1.1 ≠ "SQLProxy" ∧ t2.1 ≠ "SQLProxy")) := by
  decide

/-- C15, as amended: for an AirflowBase root and two different base components, an
object of one and an object of the other have the same kind and name only when both
are named `<root>-sql` and are either the Service (shared by MySQL, Postgres and the
SQL proxy) or the Secret (shared by MySQL and Postgres); the NFS store shares no
object with another component. -/
theorem base_components_share_only_sql (d : Decls) (c1 c2 : ComponentSpec) (r : AirflowBase)
    (labels : StrMap) (rndA rndB qA qB : Rand) (eA eB : Expected) (oA oB : Object)
    (hne : c1.variantName ≠ c2.variantName)
    (hA : c1.ExpectedResources d (Root.base r) labels rndA = some (eA, qA))
    (hB : c2.ExpectedResources d (Root.base r) labels rndB = some (eB, qB))
    (hoA : oA ∈ eA.resources) (hoB : oB ∈ eB.resources) (hk : oA.key = oB.key) :
    oA.Obj.meta.Name = rsrcName r.ObjectMeta.Name "sql" "" ∧
    c1.variantName ≠ "NFSStore" ∧ c2.variantName ≠ "NFSStore" ∧
    (oA.Obj.kind = "Service" ∨
      (oA.Obj.kind = "Secret" ∧ c1.variantName ≠ "SQLProxy" ∧ c2.variantName ≠ "SQLProxy")) := by
  obtain ⟨k1, x1, hk1, ht1⟩ := base_object_keys d c1 r labels rndA qA eA oA hA hoA
  obtain ⟨k2, x2, hk2, ht2⟩ := base_object_keys d c2 r labels rndB qB eB oB hB hoB
  rw [hk1, hk2, Prod.mk.injEq, rsrcName_component_inj] at hk
  obtain ⟨hkk, hxx⟩ := hk
  have hkind : oA.Obj.kind = k1 := congrArg Prod.fst hk1
  have hname : oA.Obj.meta.Name = rsrcName r.ObjectMeta.Name x1 "" := congrArg Prod.snd hk1
  obtain ⟨h1, h2, h3, h4⟩ := baseObjectTable_collisions _ ht1 _ ht2 hne
    (Prod.ext hkk hxx)
  simp only at h1 h4
  rw [hkind, hname, h1]
  exact ⟨rfl, h2, h3, h4⟩

/-- C15, as stated, fails: on the base resource `base` the MySQL variant and the SQL
proxy variant each return a Service named `base-sql`. -/
theorem mysql_sqlproxy_share_service :
    ∃ eA qA eB qB oA oB,
      (ComponentSpec.MySQL (sampleMySQL false)).ExpectedResources sampleDecls
        (Root.base sampleBase) sampleLabels sampleRand = some (eA, qA) ∧
      (ComponentSpec.SQLProxy sampleSQLProxy).ExpectedResources sampleDecls
        (Root.base sampleBase) sampleLabels sampleRand = some (eB, qB) ∧
      oA ∈ eA.resources ∧ oB ∈ eB.resources ∧
      oA.Obj.kind = "Service" ∧ oB.Obj.kind = "Service" ∧
      oA.Obj.meta.Name = "base-sql" ∧ oB.Obj.meta.Name = "base-sql" := by
  obtain ⟨pw, rpw, q, -, -, heq⟩ :=
    mysql_expected_eq sampleDecls (sampleMySQL false) sampleBase sampleLabels sampleRand
  refine ⟨_, q, _, sampleRand, (sampleMySQL false).service sampleDecls sampleBase sampleLabels,
    sampleSQLProxy.service sampleDecls sampleBase sampleLabels, heq, rfl, ?_, ?_, rfl, rfl,
    by decide, by decide⟩
  · exact List.mem_cons_of_mem _ (List.mem_cons_self _ _)
  · exact List.mem_cons_self _ _

/-- The MySQL and the SQL proxy variant on the base resource `base`: the one object
they share is the Service `base-sql`. -/
theorem base_components_share_only_sql_witness :
    (sampleSQLProxy.service sampleDecls sampleBase sampleLabels).Obj.meta.Name =
      rsrcName "base" "sql" "" ∧
    (ComponentSpec.SQLProxy sampleSQLProxy).variantName ≠ "NFSStore" ∧
    (ComponentSpec.MySQL (sampleMySQL false)).variantName ≠ "NFSStore" ∧
    ((sampleSQLProxy.service sampleDecls sampleBase sampleLabels).Obj.kind = "Service" ∨
      ((sampleSQLProxy.service sampleDecls sampleBase sampleLabels).Obj.kind = "Secret" ∧
        (ComponentSpec.SQLProxy sampleSQLProxy).variantName ≠ "SQLProxy" ∧
        (ComponentSpec.MySQL (sampleMySQL false)).variantName ≠ "SQLProxy")) := by
  obtain ⟨pw, rpw, q, -, -, heq⟩ :=
    mysql_expected_eq sampleDecls (sampleMySQL false) sampleBase sampleLabels sampleRand
  exact base_components_share_only_sql sampleDecls (ComponentSpec.SQLProxy sampleSQLProxy)
    (ComponentSpec.MySQL (sampleMySQL false)) sampleBase sampleLabels sampleRand sampleRand
    sampleRand q _ _ (sampleSQLProxy.service sampleDecls sampleBase sampleLabels)
    ((sampleMySQL false).service sampleDecls sampleBase sampleLabels) (by decide) rfl heq
    (List.mem_cons_self _ _) (List.mem_cons_of_mem _ (List.mem_cons_self _ _)) rfl

/-! ## DAG-sync containers -/

/-- C21: for a DAG spec with Git or GCS set, `container` returns as `init` the `Once`
flag of the source it uses and the container `git-sync` or `gcs-syncd`; and
`addAirflowContainers` makes that container the only init container and leaves the
given containers as they are when the flag is set, and otherwise appends it after
the given containers and leaves the init-container list empty. -/
theorem addAirflowContainers_sync_placement (d : Decls) (r : AirflowCluster)
    (ss : StatefulSet) (containers : List Container) (volName : String) (ds : DagSpec)
    (hD : r.Spec.DAGs = some ds) (hsrc : ds.Git ≠ none ∨ ds.GCS ≠ none) :
    (ds.container d volName).1 = ds.once ∧
    (ds.container d volName).2.Name = (if ds.Git.isSome then "git-sync" else "gcs-syncd") ∧
    (r.addAirflowContainers d ss containers volName).Spec.Template.Spec.InitContainers =
      (if ds.once then [(ds.container d volName).2] else []) ∧
    (r.addAirflowContainers d ss containers volName).Spec.Template.Spec.Containers =
      (if ds.once then containers else containers ++ [(ds.container d volName).2]) := by
  have hinit : (ds.container d volName).1 = ds.once := by
    unfold DagSpec.container DagSpec.once
    rcases hg : ds.Git with _ | git
    · rcases hc : ds.GCS with _ | gcs
      · rcases hsrc with h | h
        · exact absurd hg h
        · exact absurd hc h
      · simp only [GCSSpec.container]; cases gcs.Once <;> rfl
    · simp only [GitSpec.container]; cases git.Once <;> rfl
  have hname : (ds.container d volName).2.Name =
      (if ds.Git.isSome then "git-sync" else "gcs-syncd") := by
    unfold DagSpec.container
    rcases hg : ds.Git with _ | git
    · rcases hc : ds.GCS with _ | gcs
      · rcases hsrc with h | h
        · exact absurd hg h
        · exact absurd hc h
      · rfl
    · rfl
  refine ⟨hinit, hname, ?_, ?_⟩
  · simp only [AirflowCluster.addAirflowContainers, hD]
    rw [← hinit]
    cases h1 : (ds.container d volName).1 <;> simp [h1] <;> rfl
  · simp only [AirflowCluster.addAirflowContainers, hD]
    rw [← hinit]
    cases h1 : (ds.container d volName).1 <;> simp [h1] <;> rfl

/-- The run-once Git source of the sample cluster. -/
theorem addAirflowContainers_sync_placement_witness :
    (sampleGitDags.container sampleDecls "dags-data").1 = sampleGitDags.once ∧
    (sampleGitDags.container sampleDecls "dags-data").2.Name =
      (if sampleGitDags.Git.isSome then "git-sync" else "gcs-syncd") ∧
    (sampleGitCluster.addAirflowContainers sampleDecls {} [sampleContainer]
        "dags-data").Spec.Template.Spec.InitContainers =
      (if sampleGitDags.once then [(sampleGitDags.container sampleDecls "dags-data").2]
       else []) ∧
    (sampleGitCluster.addAirflowContainers sampleDecls {} [sampleContainer]
        "dags-data").Spec.Template.Spec.Containers =
      (if sampleGitDags.once then [sampleContainer]
       else [sampleContainer] ++ [(sampleGitDags.container sampleDecls "dags-data").2]) :=
  addAirflowContainers_sync_placement sampleDecls sampleGitCluster {} [sampleContainer]
    "dags-data" sampleGitDags rfl (Or.inl (by decide))

/-! ## Finalize -/

/-- C22: a cluster component (UI, Redis, Scheduler, Worker, Flower) accepts only an
AirflowCluster root in `ExpectedResources`, yet its `Finalize` asserts
`rsrc.(*AirflowBase)`: applied to an AirflowCluster root it does not return. Applied
to an AirflowBase root every variant returns a nil error and the root with
`finalizer.Remove` applied to its finalizer list. -/
theorem Finalize_cluster_component (fin : FinalizerLib) (d : Decls) (c : ComponentSpec)
    (b : AirflowBase) (r : AirflowCluster) (labels : StrMap) (rnd : Rand)
    (hc : c.isClusterComponent = true) :
    c.ExpectedResources d (Root.base b) labels rnd = none ∧
    c.Finalize fin (Root.cluster r) = none ∧
    c.Finalize fin (Root.base b) = some (Root.base (b.removeCleanup fin), none) := by
  cases c <;> first
    | exact absurd hc Bool.false_ne_true
    | exact ⟨rfl, rfl, rfl⟩

/-- The scheduler of the sample cluster: `Finalize` on the cluster does not return. -/
theorem Finalize_cluster_component_witness :
    (ComponentSpec.Scheduler sampleScheduler).ExpectedResources sampleDecls
        (Root.base sampleBase) sampleLabels sampleRand = none ∧
    (ComponentSpec.Scheduler sampleScheduler).Finalize sampleFinalizerLib
        (Root.cluster (sampleCluster "Celery")) = none ∧
    (ComponentSpec.Scheduler sampleScheduler).Finalize sampleFinalizerLib
        (Root.base sampleBase) =
      some (Root.base (sampleBase.removeCleanup sampleFinalizerLib), none) :=
  Finalize_cluster_component sampleFinalizerLib sampleDecls
    (ComponentSpec.Scheduler sampleScheduler) sampleBase (sampleCluster "Celery") sampleLabels
    sampleRand rfl

/-! ## The update decision on a PodDisruptionBudget -/

/-- C23: on every pair of PodDisruptionBudgets `differs` returns true, and `expected`
then carries the resource version of `observed` and is otherwise as it was. -/
theorem differs_podDisruptionBudget (expected observed : PodDisruptionBudget) :
    differs (KObject.podDisruptionBudget expected) (KObject.podDisruptionBudget observed) =
      some (true, KObject.podDisruptionBudget
        { expected with
          ObjectMeta :=
            { expected.ObjectMeta with
              ResourceVersion := observed.ObjectMeta.ResourceVersion } }) :=
  rfl

/-! ## UpdateComponentStatus on a nil spec -/

/-- C24: for every variant, `UpdateComponentStatus` on a nil spec pointer returns and
leaves the status argument as it is, whatever the reconciled list, the error and the
kind of the status argument. -/
theorem UpdateComponentStatus_nil (sd : StatusDecls) (c : ComponentPtr)
    (statusi : StatusArg sd) (reconciled : List KObject) (err : Option String)
    (hnil : c.isNil = true) :
    c.UpdateComponentStatus sd statusi reconciled err = some statusi := by
  cases c with
  | MySQL s => cases s <;> first | rfl | exact absurd hnil Bool.false_ne_true
  | Postgres s => cases s <;> first | rfl | exact absurd hnil Bool.false_ne_true
  | SQLProxy s => cases s <;> first | rfl | exact absurd hnil Bool.false_ne_true
  | NFSStore s => cases s <;> first | rfl | exact absurd hnil Bool.false_ne_true
  | UI s => cases s <;> first | rfl | exact absurd hnil Bool.false_ne_true
  | Redis s => cases s <;> first | rfl | exact absurd hnil Bool.false_ne_true
  | Scheduler s => cases s <;> first | rfl | exact absurd hnil Bool.false_ne_true
  | Worker s => cases s <;> first | rfl | exact absurd hnil Bool.false_ne_true
  | Flower s => cases s <;> first | rfl | exact absurd hnil Bool.false_ne_true

/-- A nil MySQL spec with a status of the other root kind and an error. -/
theorem UpdateComponentStatus_nil_witness :
    (ComponentPtr.MySQL none).isNil = true ∧
    (ComponentPtr.MySQL none).UpdateComponentStatus sampleStatusDecls
        (StatusArg.cluster ["Ready"]) [KObject.secret (sampleSecret "abc")]
        (some "reconcile failed") =
      some (StatusArg.cluster ["Ready"]) :=
  ⟨rfl, UpdateComponentStatus_nil sampleStatusDecls (ComponentPtr.MySQL none) _ _ _ rfl⟩

/-! ## Generated secrets -/

/-- C25: the secrets of MySQL and Postgres hold exactly the keys `password` and
`rootpassword`, those of the UI and Redis exactly the key `password`, and every value
is 16 bytes long, whatever the state of the random source. -/
theorem secret_keys_and_lengths (d : Decls) (ms : MySQLSpec) (ps : PostgresSpec)
    (us : AirflowUISpec) (rs : RedisSpec) (b : AirflowBase) (c : AirflowCluster)
    (labels : StrMap) (rnd : Rand) :
    (∃ o rnd1 sec, ms.secret d b labels rnd = some (o, rnd1) ∧ o.Obj = KObject.secret sec ∧
      sec.Data.map Prod.fst = ["password", "rootpassword"] ∧
      sec.Data.map (fun kv => kv.2.length) = [16, 16]) ∧
    (∃ o rnd1 sec, ps.secret d b labels rnd = some (o, rnd1) ∧ o.Obj = KObject.secret sec ∧
      sec.Data.map Prod.fst = ["password", "rootpassword"] ∧
      sec.Data.map (fun kv => kv.2.length) = [16, 16]) ∧
    (∃ o rnd1 sec, us.secret d c labels rnd = some (o, rnd1) ∧ o.Obj = KObject.secret sec ∧
      sec.Data.map Prod.fst = ["password"] ∧
      sec.Data.map (fun kv => kv.2.length) = [16]) ∧
    (∃ o rnd1 sec, rs.secret d c labels rnd = some (o, rnd1) ∧ o.Obj = KObject.secret sec ∧
      sec.Data.map Prod.fst = ["password"] ∧
      sec.Data.map (fun kv => kv.2.length) = [16]) := by
  obtain ⟨p1, q1, m1, hp1, hq1, hm⟩ := mysql_secret_spec d ms b labels rnd
  obtain ⟨p2, q2, m2, hp2, hq2, hp⟩ := postgres_secret_spec d ps b labels rnd
  obtain ⟨p3, m3, hp3, hu⟩ := ui_secret_spec d us c labels rnd
  obtain ⟨p4, m4, hp4, hr⟩ := redis_secret_spec d rs c labels rnd
  exact ⟨⟨_, m1, _, hm, rfl, rfl, by simp [hp1, hq1]⟩,
    ⟨_, m2, _, hp, rfl, rfl, by simp [hp2, hq2]⟩,
    ⟨_, m3, _, hu, rfl, rfl, by simp [hp3]⟩,
    ⟨_, m4, _, hr, rfl, rfl, by simp [hp4]⟩⟩

/-! ## The frame of the update decision -/

/-- C26, as amended: `differs` returns false on a Secret or ServiceAccount and true
on every other kind; what it leaves in `expected` differs from what it found at most
in the resource version and the cluster IP; an object that is neither a Service nor
a PodDisruptionBudget is left as it was, a PodDisruptionBudget takes the resource
version of `observed`, and a Service takes both the resource version and the cluster
IP of `observed`, which then is a Service too. -/
theorem differs_frame (expected observed e1 : KObject) (b : Bool)
    (h : differs expected observed = some (b, e1)) :
    b = !expected.isSecretOrServiceAccount ∧
    (e1.withoutClusterIP).SetResourceVersion "" =
      (expected.withoutClusterIP).SetResourceVersion "" ∧
    (expected.isService = false → expected.isPodDisruptionBudget = false → e1 = expected) ∧
    (expected.isPodDisruptionBudget = true →
      e1 = expected.SetResourceVersion observed.GetResourceVersion) ∧
    (expected.isService = true →
      ∃ es os, e1 = KObject.service es ∧ observed = KObject.service os ∧
        es.Spec.ClusterIP = os.Spec.ClusterIP ∧
        es.ObjectMeta.ResourceVersion = os.ObjectMeta.ResourceVersion ∧
        e1.withoutClusterIP =
          (expected.SetResourceVersion observed.GetResourceVersion).withoutClusterIP) := by
  cases expected with
  | service e =>
    cases observed with
    | service o =>
      simp only [differs, Option.some.injEq, Prod.mk.injEq] at h
      obtain ⟨rfl, rfl⟩ := h
      exact ⟨rfl, rfl, fun hs => Bool.noConfusion hs, fun hp => absurd hp Bool.false_ne_true,
        fun _ => ⟨_, o, rfl, rfl, rfl, rfl, rfl⟩⟩
    | _ => simp [differs] at h
  | podDisruptionBudget e =>
    simp only [differs, Option.some.injEq, Prod.mk.injEq] at h
    obtain ⟨rfl, rfl⟩ := h
    exact ⟨rfl, rfl, fun _ hp => Bool.noConfusion hp, fun _ => rfl,
      fun hs => absurd hs Bool.false_ne_true⟩
  | serviceAccount e =>
    simp only [differs, Option.some.injEq, Prod.mk.injEq] at h
    obtain ⟨rfl, rfl⟩ := h
    exact ⟨rfl, rfl, fun _ _ => rfl, fun hp => absurd hp Bool.false_ne_true,
      fun hs => absurd hs Bool.false_ne_true⟩
  | secret e =>
    simp only [differs, Option.some.injEq, Prod.mk.injEq] at h
    obtain ⟨rfl, rfl⟩ := h
    exact ⟨rfl, rfl, fun _ _ => rfl, fun hp => absurd hp Bool.false_ne_true,
      fun hs => absurd hs Bool.false_ne_true⟩
  | statefulSet e =>
    simp only [differs, Option.some.injEq, Prod.mk.injEq] at h
    obtain ⟨rfl, rfl⟩ := h
    exact ⟨rfl, rfl, fun _ _ => rfl, fun hp => absurd hp Bool.false_ne_true,
      fun hs => absurd hs Bool.false_ne_true⟩
  | roleBinding e =>
    simp only [differs, Option.some.injEq, Prod.mk.injEq] at h
    obtain ⟨rfl, rfl⟩ := h
    exact ⟨rfl, rfl, fun _ _ => rfl, fun hp => absurd hp Bool.false_ne_true,
      fun hs => absurd hs Bool.false_ne_true⟩
  | other k m =>
    simp only [differs, Option.some.injEq, Prod.mk.injEq] at h
    obtain ⟨rfl, rfl⟩ := h
    exact ⟨rfl, rfl, fun _ _ => rfl, fun hp => absurd hp Bool.false_ne_true,
      fun hs => absurd hs Bool.false_ne_true⟩

/-- The sample Service pair: resource version and cluster IP are taken over. -/
theorem differs_frame_witness :
    true = !(KObject.service sampleServiceExpected).isSecretOrServiceAccount ∧
    ((KObject.service
        { sampleServiceExpected with
          ObjectMeta := { sampleServiceExpected.ObjectMeta with ResourceVersion := "41" }
          Spec := { sampleServiceExpected.Spec with ClusterIP := "10.0.0.7" } }).withoutClusterIP
      ).SetResourceVersion "" =
      ((KObject.service sampleServiceExpected).withoutClusterIP).SetResourceVersion "" :=
  let h := differs_frame (KObject.service sampleServiceExpected)
    (KObject.service sampleServiceObserved)
    (KObject.service
      { sampleServiceExpected with
        ObjectMeta := { sampleServiceExpected.ObjectMeta with ResourceVersion := "41" }
        Spec := { sampleServiceExpected.Spec with ClusterIP := "10.0.0.7" } })
    true rfl
  ⟨h.1, h.2.1⟩

/-- C26, as stated, fails: on the sample Service pair `differs` also writes the
resource version of `observed` into `expected`, so `expected` changes in more than
its cluster IP; and on a Secret, which is neither a Service nor a
PodDisruptionBudget, it returns false. -/
theorem differs_service_sets_resourceVersion :
    ∃ e1, differs (KObject.service sampleServiceExpected)
        (KObject.service sampleServiceObserved) = some (true, e1) ∧
      e1.withoutClusterIP ≠ (KObject.service sampleServiceExpected).withoutClusterIP ∧
      (KObject.service sampleServiceExpected).meta.ResourceVersion = "" ∧
      e1.meta.ResourceVersion = "41" ∧
      differs (KObject.secret (sampleSecret "abc")) (KObject.secret (sampleSecret "xyz")) =
        some (false, KObject.secret (sampleSecret "abc")) :=
  ⟨_, rfl, by decide, rfl, rfl, rfl⟩

/-! ## The git-sync container -/

/-- C27: the `git-sync` container carries GIT_SYNC_REPO, GIT_SYNC_BRANCH,
GIT_SYNC_REV and GIT_SYNC_DEST = gitdags; its one GIT_SYNC_ONE_TIME entry is `true`
when the container is returned as an init container and `false` otherwise; and it
carries GIT_USER and GIT_PASSWORD (from key `password` of the referenced secret)
when `CredSecretRef` is set and neither of them when it is not. -/
theorem git_container_env (d : Decls) (git : GitSpec) (volName : String) :
    (git.container d volName).2.Name = "git-sync" ∧
    { Name := "GIT_SYNC_REPO", Value := git.Repo } ∈ (git.container d volName).2.Env ∧
    { Name := "GIT_SYNC_BRANCH", Value := git.Branch } ∈ (git.container d volName).2.Env ∧
    { Name := "GIT_SYNC_REV", Value := git.Rev } ∈ (git.container d volName).2.Env ∧
    { Name := "GIT_SYNC_DEST", Value := "gitdags" } ∈ (git.container d volName).2.Env ∧
    envLookup (git.container d volName).2.Env "GIT_SYNC_ONE_TIME" =
      [ { Name := "GIT_SYNC_ONE_TIME"
          Value := if (git.container d volName).1 then "true" else "false" } ] ∧
    envLookup (git.container d volName).2.Env "GIT_USER" =
      (match git.CredSecretRef with
       | some _ => [ { Name := "GIT_USER", Value := git.User } ]
       | none => []) ∧
    envLookup (git.container d volName).2.Env "GIT_PASSWORD" =
      (match git.CredSecretRef with
       | some cr => [ { Name := "GIT_PASSWORD", ValueFrom := envFromSecret cr.Name "password" } ]
       | none => []) := by
  cases hc : git.CredSecretRef <;> cases ho : git.Once <;>
    simp [GitSpec.container, hc, ho, envLookup, FormatBool, GitSyncDestDir, List.filter]

/-! ## Governing service names -/

/-- C29: the StatefulSets of MySQL, Postgres and the SQL proxy name as governing
service `<root>-mysql`, `<root>-postgres` and `<root>-sqlproxy`, while the Service in
the same set is named `<root>-sql`, so the two differ; for the NFS store and for
Redis the governing service name is the name of the Service. -/
theorem sts_serviceName_vs_service (d : Decls) (ms : MySQLSpec) (ps : PostgresSpec)
    (xs : SQLProxySpec) (ns : NFSStoreSpec) (rs : RedisSpec) (b : AirflowBase)
    (c : AirflowCluster) (labels : StrMap) :
    (∃ ss, (ms.sts d b labels).Obj = KObject.statefulSet ss ∧
      ss.Spec.ServiceName = rsrcName b.ObjectMeta.Name "mysql" "" ∧
      (ms.service d b labels).Obj.meta.Name = rsrcName b.ObjectMeta.Name "sql" "" ∧
      ss.Spec.ServiceName ≠ "" ∧
      ss.Spec.ServiceName ≠ (ms.service d b labels).Obj.meta.Name) ∧
    (∃ ss, (ps.sts d b labels).Obj = KObject.statefulSet ss ∧
      ss.Spec.ServiceName = rsrcName b.ObjectMeta.Name "postgres" "" ∧
      (ps.service d b labels).Obj.meta.Name = rsrcName b.ObjectMeta.Name "sql" "" ∧
      ss.Spec.ServiceName ≠ "" ∧
      ss.Spec.ServiceName ≠ (ps.service d b labels).Obj.meta.Name) ∧
    (∃ ss, (xs.sts d b labels).Obj = KObject.statefulSet ss ∧
      ss.Spec.ServiceName = rsrcName b.ObjectMeta.Name "sqlproxy" "" ∧
      (xs.service d b labels).Obj.meta.Name = rsrcName b.ObjectMeta.Name "sql" "" ∧
      ss.Spec.ServiceName ≠ "" ∧
      ss.Spec.ServiceName ≠ (xs.service d b labels).Obj.meta.Name) ∧
    (∃ ss, (ns.sts d b labels).Obj = KObject.statefulSet ss ∧
      ss.Spec.ServiceName = rsrcName b.ObjectMeta.Name "nfs" "" ∧
      ss.Spec.ServiceName = (ns.service d b labels).Obj.meta.Name) ∧
    (∃ ss, (rs.sts d c labels).Obj = KObject.statefulSet ss ∧
      ss.Spec.ServiceName = rsrcName c.ObjectMeta.Name "redis" "" ∧
      ss.Spec.ServiceName = (rs.service d c labels).Obj.meta.Name) := by
  have hne : ∀ (n x : String), x ≠ "sql" → rsrcName n x "" ≠ rsrcName n "sql" "" :=
    fun n x hx h => hx ((rsrcName_component_inj n x "sql").mp h)
  refine ⟨?_, ?_, ?_, ?_, ?_⟩
  · obtain ⟨ss, hss, -, hsn, -⟩ := mysql_sts_spec d ms b labels
    have hk := congrArg Prod.snd (mysql_service_key d ms b labels)
    simp only [Object.key] at hk
    refine ⟨ss, by rw [hss]; rfl, hsn, hk, ?_, ?_⟩
    · rw [hsn]; exact rsrcName_ne_empty _ _ _
    · rw [hsn, hk]; exact hne _ _ (by decide)
  · obtain ⟨ss, hss, -, hsn, -⟩ := postgres_sts_spec d ps b labels
    have hk := congrArg Prod.snd (postgres_service_key d ps b labels)
    simp only [Object.key] at hk
    refine ⟨ss, by rw [hss]; rfl, hsn, hk, ?_, ?_⟩
    · rw [hsn]; exact rsrcName_ne_empty _ _ _
    · rw [hsn, hk]; exact hne _ _ (by decide)
  · obtain ⟨ss, hss, -, hsn⟩ := sqlproxy_sts_spec d xs b labels
    have hk := congrArg Prod.snd (sqlproxy_service_key d xs b labels)
    simp only [Object.key] at hk
    refine ⟨ss, by rw [hss]; rfl, hsn, hk, ?_, ?_⟩
    · rw [hsn]; exact rsrcName_ne_empty _ _ _
    · rw [hsn, hk]; exact hne _ _ (by decide)
  · obtain ⟨ss, hss, -, hsn, -⟩ := nfs_sts_spec d ns b labels
    exact ⟨ss, by rw [hss]; rfl, hsn, by rw [hsn]; rfl⟩
  · obtain ⟨ss, hss, -, hsn, -⟩ := redis_sts_spec d rs c labels
    exact ⟨ss, by rw [hss]; rfl, hsn, by rw [hsn]; rfl⟩

/-! ## Containers without a name -/

theorem append_colon_ne_empty (a b : String) : a ++ ":" ++ b ≠ "" := by
  intro h
  have hd := congrArg String.data h
  simp [String.data_append] at hd

/-- The sync container of a DAG spec with Git or GCS set has a name and an image. -/
theorem dag_container_named (d : Decls) (ds : DagSpec) (volName : String)
    (hsrc : ds.Git ≠ none ∨ ds.GCS ≠ none) :
    (ds.container d volName).2.Name ≠ "" ∧ (ds.container d volName).2.Image ≠ "" := by
  unfold DagSpec.container
  rcases hg : ds.Git with _ | git
  · rcases hc : ds.GCS with _ | gcs
    · rcases hsrc with h | h
      · exact absurd hg h
      · exact absurd hc h
    · exact ⟨(by decide : "gcs-syncd" ≠ ""), append_colon_ne_empty _ _⟩
  · exact ⟨(by decide : "git-sync" ≠ ""), append_colon_ne_empty _ _⟩

/-- When the DAG spec is absent or names a source, `addAirflowContainers` leaves only
containers that have a name and an image, provided the given ones have. -/
theorem addAirflowContainers_named (d : Decls) (r : AirflowCluster) (ss : StatefulSet)
    (containers : List Container) (volName : String)
    (hcs : ∀ c ∈ containers, c.Name ≠ "" ∧ c.Image ≠ "")
    (hsrc : ∀ ds, r.Spec.DAGs = some ds → ds.Git ≠ none ∨ ds.GCS ≠ none) (c : Container)
    (hc : c ∈ (r.addAirflowContainers d ss containers volName).Spec.Template.Spec.Containers ∨
      c ∈ (r.addAirflowContainers d ss containers volName).Spec.Template.Spec.InitContainers) :
    c.Name ≠ "" ∧ c.Image ≠ "" := by
  unfold AirflowCluster.addAirflowContainers at hc
  cases hD : r.Spec.DAGs with
  | none =>
    simp only [hD] at hc
    rcases hc with hc | hc
    · exact hcs c hc
    · exact absurd hc (List.not_mem_nil c)
  | some ds =>
    have hn := dag_container_named d ds volName (hsrc ds hD)
    simp only [hD] at hc
    cases hi : (ds.container d volName).1
    · simp only [hi, Bool.false_eq_true, if_false] at hc
      rcases hc with hc | hc
      · rcases List.mem_append.mp hc with hc | hc
        · exact hcs c hc
        · rw [List.mem_singleton.mp hc]; exact hn
      · exact absurd hc (List.not_mem_nil c)
    · simp only [hi, if_true] at hc
      rcases hc with hc | hc
      · exact hcs c hc
      · rw [List.mem_singleton.mp hc]; exact hn

/-- C30: for a DAG spec that is present and has neither Git nor GCS set,
`DagSpec.container` returns the zero container and `addAirflowContainers` appends it
to the given containers: the last regular container has an empty name and an empty
image. -/
theorem addAirflowContainers_empty_container (d : Decls) (r : AirflowCluster)
    (ss : StatefulSet) (containers : List Container) (volName : String) (ds : DagSpec)
    (hD : r.Spec.DAGs = some ds) (hG : ds.Git = none) (hC : ds.GCS = none) :
    ∃ c, (r.addAirflowContainers d ss containers volName).Spec.Template.Spec.Containers =
        containers ++ [c] ∧
      c.Name = "" ∧ c.Image = "" := by
  refine ⟨{}, ?_, rfl, rfl⟩
  simp only [AirflowCluster.addAirflowContainers, hD, DagSpec.container, hG, hC]
  rfl

/-- The sample cluster with the empty DAG spec and one well-formed container. -/
theorem addAirflowContainers_empty_container_witness :
    sampleContainer.Name ≠ "" ∧ sampleContainer.Image ≠ "" ∧
    ∃ c, (sampleEmptyDagsCluster.addAirflowContainers sampleDecls {} [sampleContainer]
        "dags-data").Spec.Template.Spec.Containers = [sampleContainer] ++ [c] ∧
      c.Name = "" ∧ c.Image = "" :=
  ⟨by decide, by decide,
   addAirflowContainers_empty_container sampleDecls sampleEmptyDagsCluster {} [sampleContainer]
    "dags-data" sampleEmptyDags rfl rfl rfl⟩

/-! ## Init containers of the UI -/

/-- The init containers that `addAirflowContainers` leaves. -/
theorem addAirflowContainers_init (d : Decls) (r : AirflowCluster) (ss : StatefulSet)
    (containers : List Container) (volName : String) :
    (r.addAirflowContainers d ss containers volName).Spec.Template.Spec.InitContainers =
      (match r.Spec.DAGs with
       | some ds =>
         if (ds.container d volName).1 then [(ds.container d volName).2] else []
       | none => []) := by
  unfold AirflowCluster.addAirflowContainers
  cases r.Spec.DAGs with
  | none => rfl
  | some ds =>
    simp only
    cases (ds.container d volName).1 <;> rfl

/-- C28: on a cluster with AirflowBaseRef and Scheduler set, and Worker set when the
executor is the Kubernetes one, the UI StatefulSet is built and its init containers
are the container `mysql-dbcreate`, whose SQL_ROOT_PASSWORD comes from key
`rootpassword` of the secret `<base ref>-sql` and whose SQL_DB and SQL_USER are the
scheduler's DBName and DBUser, followed by the DAG-sync container when the DAG spec
makes it an init container, and nothing else. -/
theorem ui_init_containers (d : Decls) (us : AirflowUISpec) (r : AirflowCluster)
    (labels : StrMap) (ref : LocalObjectReference) (sched : SchedulerSpec) (w : WorkerSpec)
    (hB : r.Spec.AirflowBaseRef = some ref) (hS : r.Spec.Scheduler = some sched)
    (hW : r.Spec.Executor = d.ExecutorK8s → r.Spec.Worker = some w) :
    ∃ (o : Object) (ss : StatefulSet) (dbc : Container),
      us.sts d r labels = some o ∧ o.Obj = KObject.statefulSet ss ∧
      ss.Spec.Template.Spec.InitContainers =
        dbc ::
          (match r.Spec.DAGs with
           | some ds =>
             if (ds.container d "dags-data").1 then [(ds.container d "dags-data").2] else []
           | none => []) ∧
      dbc.Name = "mysql-dbcreate" ∧
      { Name := "SQL_ROOT_PASSWORD",
        ValueFrom := envFromSecret (rsrcName ref.Name "sql" "") "rootpassword" } ∈ dbc.Env ∧
      { Name := "SQL_DB", Value := sched.DBName } ∈ dbc.Env ∧
      { Name := "SQL_USER", Value := sched.DBUser } ∈ dbc.Env := by
  have hsts : ∃ (ss0 : StatefulSet) (dbc0 : Container), us.sts d r labels =
      some (stsObject (ss0.withInitContainers (dbc0 :: ss0.Spec.Template.Spec.InitContainers))) ∧
      ss0.Spec.Template.Spec.InitContainers =
        (match r.Spec.DAGs with
         | some ds =>
           if (ds.container d "dags-data").1 then [(ds.container d "dags-data").2] else []
         | none => []) ∧
      dbc0.Name = "mysql-dbcreate" ∧
      { Name := "SQL_ROOT_PASSWORD",
        ValueFrom := envFromSecret (rsrcName ref.Name "sql" "") "rootpassword" } ∈ dbc0.Env ∧
      { Name := "SQL_DB", Value := sched.DBName } ∈ dbc0.Env ∧
      { Name := "SQL_USER", Value := sched.DBUser } ∈ dbc0.Env := by
    simp only [AirflowUISpec.sts, getAirflowEnv_eq d r _ ref sched w hB hS hW,
      AirflowCluster.addMySQLUserDBContainer, hB, hS]
    exact ⟨_, _, rfl, addAirflowContainers_init d r _ _ _, rfl, by simp; rfl, by simp,
      by simp⟩
  obtain ⟨ss0, dbc0, hs, hinit, hn, h1, h2, h3⟩ := hsts
  exact ⟨_, _, dbc0, hs, rfl, by rw [← hinit]; rfl, hn, h1, h2, h3⟩

/-- The UI of the sample cluster with the run-once Git source. -/
theorem ui_init_containers_witness :
    ∃ (o : Object) (ss : StatefulSet) (dbc : Container),
      ({ Image := "airflow", Version := "1.10", Replicas := 1, Resources := {} } :
        AirflowUISpec).sts sampleDecls sampleGitCluster sampleLabels = some o ∧
      o.Obj = KObject.statefulSet ss ∧
      ss.Spec.Template.Spec.InitContainers =
        dbc ::
          (match sampleGitCluster.Spec.DAGs with
           | some ds =>
             if (ds.container sampleDecls "dags-data").1 then
               [(ds.container sampleDecls "dags-data").2]
             else []
           | none => []) ∧
      dbc.Name = "mysql-dbcreate" ∧
      { Name := "SQL_ROOT_PASSWORD",
        ValueFrom := envFromSecret (rsrcName "base" "sql" "") "rootpassword" } ∈ dbc.Env ∧
      { Name := "SQL_DB", Value := "airflowdb" } ∈ dbc.Env ∧
      { Name := "SQL_USER", Value := "airflow" } ∈ dbc.Env :=
  ui_init_containers sampleDecls _ sampleGitCluster sampleLabels { Name := "base" }
    { Image := "airflow", Version := "1.10", DBName := "airflowdb", DBUser := "airflow",
      Resources := {} }
    { Image := "airflow", Version := "1.10", Replicas := 2, Resources := {} } rfl rfl
    (fun _ => rfl)

/-- C28, as stated, fails: on the sample cluster under the Kubernetes executor with
no Worker spec, `AirflowUISpec.sts` calls `getAirflowEnv`, which dereferences the nil
Worker, so no StatefulSet and no init-container list is built. -/
theorem ui_sts_noWorker :
    sampleClusterNoWorker.Spec.Executor = sampleDecls.ExecutorK8s ∧
    sampleClusterNoWorker.Spec.Worker = none ∧
    sampleUI.sts sampleDecls sampleClusterNoWorker sampleLabels = none :=
  ⟨rfl, rfl, rfl⟩

/-! ## Secret references of the StatefulSets -/

theorem resolvesIn_iff (bag : List Object) (sel : SecretKeySelector) :
    resolvesIn bag sel = true ↔
      ∃ o ∈ bag, ∃ sec, o.Obj = KObject.secret sec ∧ sec.ObjectMeta.Name = sel.Name ∧
        sel.Key ∈ sec.Data.map Prod.fst := by
  simp only [resolvesIn, List.any_eq_true]
  constructor
  · rintro ⟨o, ho, h⟩
    refine ⟨o, ho, ?_⟩
    cases hobj : o.Obj <;> simp only [hobj, Bool.and_eq_true, decide_eq_true_eq] at h <;>
      first
      | exact absurd h Bool.false_ne_true
      | exact ⟨_, rfl, h⟩
  · rintro ⟨o, ho, sec, hobj, h⟩
    refine ⟨o, ho, ?_⟩
    simp only [hobj, Bool.and_eq_true, decide_eq_true_eq]
    exact h

theorem mysql_sts_secretRefs (d : Decls) (s : MySQLSpec) (r : AirflowBase) (labels : StrMap) :
    (s.sts d r labels).Obj.secretRefs =
      [ { Name := rsrcName r.getName "sql" "", Key := "password" },
        { Name := rsrcName r.getName "sql" "", Key := "rootpassword" } ] := by
  cases h : s.VolumeClaimTemplate <;> simp [MySQLSpec.sts, h] <;> rfl

theorem postgres_sts_secretRefs (d : Decls) (s : PostgresSpec) (r : AirflowBase)
    (labels : StrMap) :
    (s.sts d r labels).Obj.secretRefs =
      [ { Name := rsrcName r.getName "sql" "", Key := "rootpassword" } ] := by
  cases h : s.VolumeClaimTemplate <;> simp [PostgresSpec.sts, h] <;> rfl

theorem redis_sts_secretRefs (d : Decls) (s : RedisSpec) (r : AirflowCluster) (labels : StrMap) :
    (s.sts d r labels).Obj.secretRefs =
      [ { Name := rsrcName r.getName "redis" "", Key := "password" } ] := by
  cases h : s.VolumeClaimTemplate <;> simp [RedisSpec.sts, h] <;> rfl

theorem service_secretRefs (d : Decls) (rsrc : Root) (component name : String) (labels : StrMap)
    (ports : List ServicePort) :
    (Airflow.service d rsrc component name labels ports).Obj.secretRefs = [] := rfl

theorem podDisruption_secretRefs (d : Decls) (rsrc : Root) (component suffix m : String)
    (labels : StrMap) :
    (Airflow.podDisruption d rsrc component suffix m labels).Obj.secretRefs = [] := rfl

/-- C31: for MySQL, Postgres and Redis, `ExpectedResources` returns a set in which
every secret-key reference of the StatefulSet container environment resolves: the
referenced name is the name of the Secret of the same set and the referenced key is
one of the Data keys of that Secret. When the component is not suppressed the
references are exactly `password` and `rootpassword` of `<base>-sql` for MySQL,
`rootpassword` of `<base>-sql` for Postgres, and `password` of `<cluster>-redis`
for Redis. -/
theorem secret_refs_resolve (d : Decls) (ms : MySQLSpec) (ps : PostgresSpec) (rs : RedisSpec)
    (b : AirflowBase) (c : AirflowCluster) (labels : StrMap) (rnd : Rand) :
    (∃ e rnd1, ms.ExpectedResources d (Root.base b) labels rnd = some (e, rnd1) ∧
      (ms.Operator = false →
        e.resources.flatMap (fun o => o.Obj.secretRefs) =
          [ { Name := rsrcName b.ObjectMeta.Name "sql" "", Key := "password" },
            { Name := rsrcName b.ObjectMeta.Name "sql" "", Key := "rootpassword" } ]) ∧
      ∀ o ∈ e.resources, ∀ sel ∈ o.Obj.secretRefs, resolvesIn e.resources sel = true) ∧
    (∃ e rnd1, ps.ExpectedResources d (Root.base b) labels rnd = some (e, rnd1) ∧
      (ps.Operator = false →
        e.resources.flatMap (fun o => o.Obj.secretRefs) =
          [ { Name := rsrcName b.ObjectMeta.Name "sql" "", Key := "rootpassword" } ]) ∧
      ∀ o ∈ e.resources, ∀ sel ∈ o.Obj.secretRefs, resolvesIn e.resources sel = true) ∧
    (∃ e rnd1, rs.ExpectedResources d (Root.cluster c) labels rnd = some (e, rnd1) ∧
      e.resources.flatMap (fun o => o.Obj.secretRefs) =
        [ { Name := rsrcName c.ObjectMeta.Name "redis" "", Key := "password" } ] ∧
      ∀ o ∈ e.resources, ∀ sel ∈ o.Obj.secretRefs, resolvesIn e.resources sel = true) := by
  refine ⟨?_, ?_, ?_⟩
  · obtain ⟨pw, rpw, rnd1, -, -, h⟩ := mysql_expected_eq d ms b labels rnd
    refine ⟨_, rnd1, h, ?_, ?_⟩
    · intro hop
      simp only [hop, Bool.false_eq_true, if_false, List.flatMap_cons, List.flatMap_nil,
        mysql_sts_secretRefs, MySQLSpec.service, MySQLSpec.podDisruption, service_secretRefs,
        podDisruption_secretRefs]
      rfl
    · cases hop : ms.Operator
      · intro o ho sel hsel
        simp only [Bool.false_eq_true, if_false, List.mem_cons, List.mem_singleton,
          List.not_mem_nil, or_false] at ho
        rcases ho with rfl | rfl | rfl | rfl
        · cases hsel
        · simp [MySQLSpec.service, service_secretRefs] at hsel
        · rw [mysql_sts_secretRefs] at hsel
          refine (resolvesIn_iff _ _).mpr ⟨_, List.mem_cons_self _ _, _, rfl, ?_⟩
          simp only [List.mem_cons, List.mem_singleton, List.not_mem_nil, or_false] at hsel
          rcases hsel with rfl | rfl
          · exact ⟨rfl, by simp⟩
          · exact ⟨rfl, by simp⟩
        · simp [MySQLSpec.podDisruption, podDisruption_secretRefs] at hsel
      · intro o ho
        simp at ho
  · obtain ⟨pw, rpw, rnd1, -, -, h⟩ := postgres_expected_eq d ps b labels rnd
    refine ⟨_, rnd1, h, ?_, ?_⟩
    · intro hop
      simp only [hop, Bool.false_eq_true, if_false, List.flatMap_cons, List.flatMap_nil,
        postgres_sts_secretRefs, PostgresSpec.service, PostgresSpec.podDisruption,
        service_secretRefs, podDisruption_secretRefs]
      rfl
    · cases hop : ps.Operator
      · intro o ho sel hsel
        simp only [Bool.false_eq_true, if_false, List.mem_cons, List.mem_singleton,
          List.not_mem_nil, or_false] at ho
        rcases ho with rfl | rfl | rfl | rfl
        · cases hsel
        · simp [PostgresSpec.service, service_secretRefs] at hsel
        · rw [postgres_sts_secretRefs] at hsel
          refine (resolvesIn_iff _ _).mpr ⟨_, List.mem_cons_self _ _, _, rfl, ?_⟩
          simp only [List.mem_cons, List.mem_singleton, List.not_mem_nil, or_false] at hsel
          subst hsel
          exact ⟨rfl, by simp⟩
        · simp [PostgresSpec.podDisruption, podDisruption_secretRefs] at hsel
      · intro o ho
        simp at ho
  · obtain ⟨pw, rnd1, -, h⟩ := redis_expected_eq d rs c labels rnd
    refine ⟨_, rnd1, h, ?_, ?_⟩
    · simp only [List.flatMap_cons, List.flatMap_nil,
        redis_sts_secretRefs, RedisSpec.service, RedisSpec.podDisruption,
        service_secretRefs, podDisruption_secretRefs]
      rfl
    · intro o ho sel hsel
      simp only [List.mem_cons, List.mem_singleton, List.not_mem_nil, or_false] at ho
      rcases ho with rfl | rfl | rfl | rfl
      · cases hsel
      · simp [RedisSpec.service, service_secretRefs] at hsel
      · rw [redis_sts_secretRefs] at hsel
        refine (resolvesIn_iff _ _).mpr ⟨_, List.mem_cons_self _ _, _, rfl, ?_⟩
        simp only [List.mem_cons, List.mem_singleton, List.not_mem_nil, or_false] at hsel
        subst hsel
        exact ⟨rfl, by simp⟩
      · simp [RedisSpec.podDisruption, podDisruption_secretRefs] at hsel

/-! ## The environment against the objects it names -/

theorem ui_sts_isSome (d : Decls) (s : AirflowUISpec) (r : AirflowCluster)
    (labels : StrMap) (ref : LocalObjectReference) (sched : SchedulerSpec) (w : WorkerSpec)
    (hB : r.Spec.AirflowBaseRef = some ref) (hS : r.Spec.Scheduler = some sched)
    (hW : r.Spec.Executor = d.ExecutorK8s → r.Spec.Worker = some w) :
    ∃ o, s.sts d r labels = some o := by
  simp only [AirflowUISpec.sts, getAirflowEnv_eq d r _ ref sched w hB hS hW,
    AirflowCluster.addMySQLUserDBContainer, hB, hS]
  exact ⟨_, rfl⟩

/-- The Git entries carry none of the names outside their own six. -/
theorem gitEnvOf_lookup_nil (dags : Option DagSpec) (saName name : String)
    (h : name ∉ [ "AIRFLOW__KUBERNETES__GIT_REPO", "AIRFLOW__KUBERNETES__GIT_BRANCH",
      "AIRFLOW__KUBERNETES__GIT_SUBPATH", "AIRFLOW__KUBERNETES__WORKER_SERVICE_ACCOUNT_NAME",
      "GIT_PASSWORD", "GIT_USER" ]) :
    (gitEnvOf dags saName).filter (fun e => decide (e.Name = name)) = [] := by
  rw [List.filter_eq_nil_iff]
  intro e he
  simp only [List.mem_cons, List.mem_singleton, List.not_mem_nil, or_false, not_or] at h
  obtain ⟨h1, h2, h3, h4, h5, h6⟩ := h
  rcases gitEnvOf_names _ _ e he with hn | hn | hn | hn | hn | hn <;>
    simp only [hn, decide_eq_true_eq] <;> intro hc
  · exact h1 hc.symm
  · exact h2 hc.symm
  · exact h3 hc.symm
  · exact h4 hc.symm
  · exact h5 hc.symm
  · exact h6 hc.symm

/-- C32: for a cluster whose base reference names the base resource `b`, the value of
`SQL_HOST` in the environment is `<b>-sql`, the name of the Service that MySQL,
Postgres and SQLProxy each build for `b`; and the secret reference of `SQL_PASSWORD`
names `<cluster>-airflowui` with key `password`, which resolves in the object set
that the UI component returns for the cluster. -/
theorem sql_host_and_password_resolve (d : Decls) (r : AirflowCluster) (saName : String)
    (ref : LocalObjectReference) (sched : SchedulerSpec) (w : WorkerSpec) (b : AirflowBase)
    (ms : MySQLSpec) (ps : PostgresSpec) (xs : SQLProxySpec) (us : AirflowUISpec)
    (blabels labels : StrMap) (rnd : Rand)
    (hB : r.Spec.AirflowBaseRef = some ref) (hS : r.Spec.Scheduler = some sched)
    (hW : r.Spec.Executor = d.ExecutorK8s → r.Spec.Worker = some w)
    (hname : b.ObjectMeta.Name = ref.Name) :
    ∃ env host sel e rnd1,
      r.getAirflowEnv d saName = some env ∧
      envLookup env "SQL_HOST" = [ { Name := "SQL_HOST", Value := host } ] ∧
      host = rsrcName b.ObjectMeta.Name "sql" "" ∧
      (ms.service d b blabels).key = ("Service", host) ∧
      (ps.service d b blabels).key = ("Service", host) ∧
      (xs.service d b blabels).key = ("Service", host) ∧
      envLookup env "SQL_PASSWORD" =
        [ { Name := "SQL_PASSWORD", ValueFrom := some { SecretKeyRef := some sel } } ] ∧
      sel = { Name := rsrcName r.ObjectMeta.Name "airflowui" "", Key := "password" } ∧
      us.ExpectedResources d (Root.cluster r) labels rnd = some (e, rnd1) ∧
      resolvesIn e.resources sel = true := by
  obtain ⟨sso, hs⟩ := ui_sts_isSome d us r labels ref sched w hB hS hW
  obtain ⟨pw, rnd1, -, hsec⟩ := ui_secret_spec d us r labels rnd
  have hg1 := gitEnvOf_lookup_nil r.Spec.DAGs saName "SQL_HOST" (by decide)
  have hg2 := gitEnvOf_lookup_nil r.Spec.DAGs saName "SQL_PASSWORD" (by decide)
  refine ⟨_, rsrcName b.ObjectMeta.Name "sql" "",
    { Name := rsrcName r.ObjectMeta.Name "airflowui" "", Key := "password" },
    { resources :=
        [ sso,
          { Obj := KObject.secret
              { ObjectMeta := r.getMeta d (rsrcName r.getName "airflowui" "") labels
                Data := [("password", pw)] }
            Lifecycle := Lifecycle.Managed
            ObjList := some ObjListKind.SecretList } ]
      err := none }, rnd1,
    getAirflowEnv_eq d r saName ref sched w hB hS hW, ?_, rfl,
    mysql_service_key d ms b blabels, postgres_service_key d ps b blabels,
    sqlproxy_service_key d xs b blabels, ?_, rfl, ?_, ?_⟩
  · rw [hname]
    simp only [envLookup]
    split_ifs <;> simp only [List.filter_append, hg1, List.append_nil] <;> rfl
  · simp only [envLookup]
    split_ifs <;> simp only [List.filter_append, hg2, List.append_nil] <;> rfl
  · simp only [AirflowUISpec.ExpectedResources, Root.asCluster, hs, hsec, List.nil_append]
  · exact (resolvesIn_iff _ _).mpr
      ⟨_, List.mem_cons_of_mem _ (List.mem_cons_self _ _), _, rfl, rfl, by simp⟩

/-- The sample cluster under the Celery executor, whose base reference names the
sample base. -/
theorem sql_host_and_password_resolve_witness :
    ∃ env host sel e rnd1,
      (sampleCluster "Celery").getAirflowEnv sampleDecls "cl-scheduler" = some env ∧
      envLookup env "SQL_HOST" = [ { Name := "SQL_HOST", Value := host } ] ∧
      host = rsrcName sampleBase.ObjectMeta.Name "sql" "" ∧
      ((sampleMySQL false).service sampleDecls sampleBase sampleLabels).key =
        ("Service", host) ∧
      ((samplePostgres false).service sampleDecls sampleBase sampleLabels).key =
        ("Service", host) ∧
      (sampleSQLProxy.service sampleDecls sampleBase sampleLabels).key = ("Service", host) ∧
      envLookup env "SQL_PASSWORD" =
        [ { Name := "SQL_PASSWORD", ValueFrom := some { SecretKeyRef := some sel } } ] ∧
      sel = { Name := rsrcName (sampleCluster "Celery").ObjectMeta.Name "airflowui" "",
              Key := "password" } ∧
      ({ Image := "airflow", Version := "1.10", Replicas := 1, Resources := {} } :
        AirflowUISpec).ExpectedResources sampleDecls (Root.cluster (sampleCluster "Celery"))
          sampleLabels sampleRand = some (e, rnd1) ∧
      resolvesIn e.resources sel = true :=
  sql_host_and_password_resolve sampleDecls (sampleCluster "Celery") "cl-scheduler"
    { Name := "base" } sampleScheduler
    { Image := "airflow", Version := "1.10", Replicas := 2, Resources := {} } sampleBase
    (sampleMySQL false) (samplePostgres false) sampleSQLProxy
    { Image := "airflow", Version := "1.10", Replicas := 1, Resources := {} }
    sampleLabels sampleLabels sampleRand rfl rfl (fun _ => rfl) rfl

/-! ## The shape of the environment -/

/-- The names of the Git entries: none, the four of the repository, or those four
and the two of the credential. -/
theorem gitEnvOf_envNames (dags : Option DagSpec) (saName : String) :
    envNames (gitEnvOf dags saName) = [] ∨
    envNames (gitEnvOf dags saName) =
      [ "AIRFLOW__KUBERNETES__GIT_REPO", "AIRFLOW__KUBERNETES__GIT_BRANCH",
        "AIRFLOW__KUBERNETES__GIT_SUBPATH",
        "AIRFLOW__KUBERNETES__WORKER_SERVICE_ACCOUNT_NAME" ] ∨
    envNames (gitEnvOf dags saName) =
      [ "AIRFLOW__KUBERNETES__GIT_REPO", "AIRFLOW__KUBERNETES__GIT_BRANCH",
        "AIRFLOW__KUBERNETES__GIT_SUBPATH",
        "AIRFLOW__KUBERNETES__WORKER_SERVICE_ACCOUNT_NAME", "GIT_PASSWORD", "GIT_USER" ] := by
  rcases dags with _ | ds
  · exact Or.inl rfl
  · rcases hG : ds.Git with _ | git
    · left; simp [gitEnvOf, hG, envNames]
    · rcases hC : git.CredSecretRef with _ | cred
      · right; left; simp only [gitEnvOf, hG, hC, envNames]; rfl
      · right; right; simp only [gitEnvOf, hG, hC, envNames]; rfl

/-- Every Git entry is a literal or a secret reference with an empty value. -/
theorem gitEnvOf_shape (dags : Option DagSpec) (saName : String) :
    ∀ e ∈ gitEnvOf dags saName,
      e.ValueFrom = none ∨
      (e.Value = "" ∧ ∃ sel, e.ValueFrom = some { SecretKeyRef := some sel }) := by
  intro e he
  rcases dags with _ | ds
  · simp [gitEnvOf] at he
  · rcases hG : ds.Git with _ | git
    · simp [gitEnvOf, hG] at he
    · rcases hC : git.CredSecretRef with _ | cred
      · simp only [gitEnvOf, hG, hC, List.append_nil, List.mem_cons, List.mem_singleton,
          List.not_mem_nil, or_false] at he
        rcases he with rfl | rfl | rfl | rfl <;> exact Or.inl rfl
      · simp only [gitEnvOf, hG, hC, List.mem_append, List.mem_cons, List.mem_singleton,
          List.not_mem_nil, or_false] at he
        rcases he with (rfl | rfl | rfl | rfl) | rfl | rfl
        · exact Or.inl rfl
        · exact Or.inl rfl
        · exact Or.inl rfl
        · exact Or.inl rfl
        · exact Or.inr ⟨rfl, _, rfl⟩
        · exact Or.inl rfl

/-- C33: whatever the executor, the DAG spec and `saName`, the environment that
`getAirflowEnv` returns holds no two entries with the same variable name, and every
entry is either a literal (no reference) or a secret-key reference with an empty
value, never both. -/
theorem getAirflowEnv_names_nodup (d : Decls) (r : AirflowCluster) (saName : String)
    (ref : LocalObjectReference) (sched : SchedulerSpec) (w : WorkerSpec)
    (hB : r.Spec.AirflowBaseRef = some ref) (hS : r.Spec.Scheduler = some sched)
    (hW : r.Spec.Executor = d.ExecutorK8s → r.Spec.Worker = some w) :
    ∃ env, r.getAirflowEnv d saName = some env ∧
      (envNames env).Nodup ∧
      ∀ e ∈ env,
        (e.ValueFrom = none ∨
          (e.Value = "" ∧ ∃ sel, e.ValueFrom = some { SecretKeyRef := some sel })) ∧
        ¬ (e.Value ≠ "" ∧ e.ValueFrom ≠ none) := by
  refine ⟨_, getAirflowEnv_eq d r saName ref sched w hB hS hW, ?_, ?_⟩
  · simp only [envNames, List.map_append, List.map_cons, List.map_nil, apply_ite (List.map _)]
    have hg := gitEnvOf_envNames r.Spec.DAGs saName
    simp only [envNames] at hg
    split_ifs <;> rcases hg with hg | hg | hg <;> (try rw [hg]) <;> decide
  · have key : ∀ e : EnvVar,
        (e.ValueFrom = none ∨
          (e.Value = "" ∧ ∃ sel, e.ValueFrom = some { SecretKeyRef := some sel })) →
        (e.ValueFrom = none ∨
          (e.Value = "" ∧ ∃ sel, e.ValueFrom = some { SecretKeyRef := some sel })) ∧
        ¬ (e.Value ≠ "" ∧ e.ValueFrom ≠ none) := by
      intro e h
      refine ⟨h, ?_⟩
      rintro ⟨h1, h2⟩
      rcases h with h | ⟨h, -⟩
      · exact h2 h
      · exact h1 h
    intro e he
    apply key
    simp only [List.mem_append, List.mem_cons, List.mem_singleton, List.not_mem_nil,
      or_false] at he
    rcases he with ((rfl | rfl | rfl | rfl | rfl | rfl | rfl) | he) | he
    · exact Or.inl rfl
    · exact Or.inr ⟨rfl, _, rfl⟩
    · exact Or.inl rfl
    · exact Or.inl rfl
    · exact Or.inl rfl
    · exact Or.inl rfl
    · exact Or.inl rfl
    · split_ifs at he
      · simp only [List.mem_append, List.mem_cons, List.mem_singleton, List.not_mem_nil,
          or_false] at he
        rcases he with (rfl | rfl | rfl | rfl | rfl) | he
        · exact Or.inl rfl
        · exact Or.inl rfl
        · exact Or.inl rfl
        · exact Or.inl rfl
        · exact Or.inl rfl
        · exact gitEnvOf_shape _ _ e he
      · cases he
    · split_ifs at he
      · simp only [List.mem_cons, List.mem_singleton, List.not_mem_nil, or_false] at he
        rcases he with rfl | rfl
        · exact Or.inr ⟨rfl, _, rfl⟩
        · exact Or.inl rfl
      · cases he

/-- The sample cluster with the Git source and credential under the Kubernetes
executor: seventeen entries, all of different names. -/
theorem getAirflowEnv_names_nodup_witness :
    ∃ env, sampleGitCluster.getAirflowEnv sampleDecls "cl-scheduler" = some env ∧
      (envNames env).Nodup ∧
      ∀ e ∈ env,
        (e.ValueFrom = none ∨
          (e.Value = "" ∧ ∃ sel, e.ValueFrom = some { SecretKeyRef := some sel })) ∧
        ¬ (e.Value ≠ "" ∧ e.ValueFrom ≠ none) :=
  getAirflowEnv_names_nodup sampleDecls sampleGitCluster "cl-scheduler" { Name := "base" }
    sampleScheduler { Image := "airflow", Version := "1.10", Replicas := 2, Resources := {} }
    rfl rfl (fun _ => rfl)

/-! ## The DAG source of the environment and of the sync container -/

/-- A text is not itself followed by a slash, a directory, a slash and more. -/
theorem ne_append_dir (b dir s : String) : b ++ "/" ++ dir ++ "/" ++ s ≠ b := by
  intro h
  have hd := congrArg String.data h
  simp only [String.data_append, List.append_assoc] at hd
  have hl := congrArg List.length hd
  simp only [List.length_append, List.length_cons, List.length_nil] at hl
  omega

/-- The folders under `gitdags` and under `dags` differ. -/
theorem gitdags_ne_dags (b s t : String) :
    b ++ "/" ++ "gitdags" ++ "/" ++ s ≠ b ++ "/" ++ "dags" ++ "/" ++ t := by
  intro h
  have hd := congrArg String.data h
  simp only [String.data_append, List.append_assoc, List.append_cancel_left_eq] at hd
  simp at hd

/-- The value of the dags folder in the environment. -/
theorem dagsFolder_lookup_eq (d : Decls) (r : AirflowCluster) (saName : String)
    (ref : LocalObjectReference) (sched : SchedulerSpec) (w : WorkerSpec)
    (hB : r.Spec.AirflowBaseRef = some ref) (hS : r.Spec.Scheduler = some sched)
    (hW : r.Spec.Executor = d.ExecutorK8s → r.Spec.Worker = some w) :
    ∃ env, r.getAirflowEnv d saName = some env ∧
      envLookup env "AIRFLOW__CORE__DAGS_FOLDER" =
        [ { Name := "AIRFLOW__CORE__DAGS_FOLDER", Value := dagFolderOf r.Spec.DAGs } ] := by
  have hg := gitEnvOf_lookup_nil r.Spec.DAGs saName "AIRFLOW__CORE__DAGS_FOLDER" (by decide)
  refine ⟨_, getAirflowEnv_eq d r saName ref sched w hB hS hW, ?_⟩
  simp only [envLookup]
  split_ifs <;> simp only [List.filter_append, hg, List.append_nil] <;> rfl

/-- C34: the environment composer and the DAG-sync injector select the same DAG
source. For a cluster with DAG spec `ds`, the dags folder of the environment is the
`gitdags` subdirectory exactly when `DagSpec.container` returns the container
`git-sync`, the `dags` subdirectory exactly when it returns `gcs-syncd`, and the
bare base folder exactly when it returns the unnamed container; with Git set, GCS
set or not, both select Git. -/
theorem dag_source_agreement (d : Decls) (r : AirflowCluster) (saName volName : String)
    (ref : LocalObjectReference) (sched : SchedulerSpec) (w : WorkerSpec) (ds : DagSpec)
    (hB : r.Spec.AirflowBaseRef = some ref) (hS : r.Spec.Scheduler = some sched)
    (hW : r.Spec.Executor = d.ExecutorK8s → r.Spec.Worker = some w)
    (hD : r.Spec.DAGs = some ds) :
    ∃ env v, r.getAirflowEnv d saName = some env ∧
      envLookup env "AIRFLOW__CORE__DAGS_FOLDER" =
        [ { Name := "AIRFLOW__CORE__DAGS_FOLDER", Value := v } ] ∧
      (v = AirflowDagsBase ++ "/" ++ "gitdags" ++ "/" ++ ds.DagSubdir ↔
        (ds.container d volName).2.Name = "git-sync") ∧
      (v = AirflowDagsBase ++ "/" ++ "dags" ++ "/" ++ ds.DagSubdir ↔
        (ds.container d volName).2.Name = "gcs-syncd") ∧
      (v = AirflowDagsBase ↔ (ds.container d volName).2.Name = "") ∧
      (ds.Git ≠ none →
        v = AirflowDagsBase ++ "/" ++ "gitdags" ++ "/" ++ ds.DagSubdir ∧
        (ds.container d volName).2.Name = "git-sync") := by
  obtain ⟨env, henv, hl⟩ := dagsFolder_lookup_eq d r saName ref sched w hB hS hW
  refine ⟨env, dagFolderOf r.Spec.DAGs, henv, hl, ?_⟩
  rw [hD]
  rcases hG : ds.Git with _ | git
  · rcases hC : ds.GCS with _ | gcs
    · have hv : dagFolderOf (some ds) = AirflowDagsBase := by simp [dagFolderOf, hG, hC]
      have hn : (ds.container d volName).2.Name = "" := by
        simp only [DagSpec.container, hG, hC]
      rw [hv, hn]
      refine ⟨?_, ?_, ?_, ?_⟩
      · exact ⟨fun h => absurd h.symm (ne_append_dir _ _ _), fun h => absurd h (by decide)⟩
      · exact ⟨fun h => absurd h.symm (ne_append_dir _ _ _), fun h => absurd h (by decide)⟩
      · exact ⟨fun _ => rfl, fun _ => rfl⟩
      · intro h; exact absurd rfl h
    · have hv : dagFolderOf (some ds) =
          AirflowDagsBase ++ "/" ++ "dags" ++ "/" ++ ds.DagSubdir := by
        simp [dagFolderOf, hG, hC, GCSSyncDestDir]
      have hn : (ds.container d volName).2.Name = "gcs-syncd" := by
        simp only [DagSpec.container, hG, hC]; rfl
      rw [hv, hn]
      refine ⟨?_, ?_, ?_, ?_⟩
      · exact ⟨fun h => absurd h.symm (gitdags_ne_dags _ _ _), fun h => absurd h (by decide)⟩
      · exact ⟨fun _ => rfl, fun _ => rfl⟩
      · exact ⟨fun h => absurd h (ne_append_dir _ _ _), fun h => absurd h (by decide)⟩
      · intro h; exact absurd rfl h
  · have hv : dagFolderOf (some ds) =
        AirflowDagsBase ++ "/" ++ "gitdags" ++ "/" ++ ds.DagSubdir := by
      simp [dagFolderOf, hG, GitSyncDestDir]
    have hn : (ds.container d volName).2.Name = "git-sync" := by
      simp only [DagSpec.container, hG]; rfl
    rw [hv, hn]
    refine ⟨?_, ?_, ?_, ?_⟩
    · exact ⟨fun _ => rfl, fun _ => rfl⟩
    · exact ⟨fun h => absurd h (gitdags_ne_dags _ _ _), fun h => absurd h (by decide)⟩
    · exact ⟨fun h => absurd h (ne_append_dir _ _ _), fun h => absurd h (by decide)⟩
    · intro _; exact ⟨rfl, rfl⟩

/-- The sample cluster with the Git source: the folder is under `gitdags` and the
container is `git-sync`. -/
theorem dag_source_agreement_witness :
    ∃ env v, sampleGitCluster.getAirflowEnv sampleDecls "cl-scheduler" = some env ∧
      envLookup env "AIRFLOW__CORE__DAGS_FOLDER" =
        [ { Name := "AIRFLOW__CORE__DAGS_FOLDER", Value := v } ] ∧
      (v = AirflowDagsBase ++ "/" ++ "gitdags" ++ "/" ++ sampleGitDags.DagSubdir ↔
        (sampleGitDags.container sampleDecls "dags-data").2.Name = "git-sync") ∧
      (v = AirflowDagsBase ++ "/" ++ "dags" ++ "/" ++ sampleGitDags.DagSubdir ↔
        (sampleGitDags.container sampleDecls "dags-data").2.Name = "gcs-syncd") ∧
      (v = AirflowDagsBase ↔ (sampleGitDags.container sampleDecls "dags-data").2.Name = "") ∧
      (sampleGitDags.Git ≠ none →
        v = AirflowDagsBase ++ "/" ++ "gitdags" ++ "/" ++ sampleGitDags.DagSubdir ∧
        (sampleGitDags.container sampleDecls "dags-data").2.Name = "git-sync") :=
  dag_source_agreement sampleDecls sampleGitCluster "cl-scheduler" "dags-data"
    { Name := "base" } sampleScheduler
    { Image := "airflow", Version := "1.10", Replicas := 2, Resources := {} } sampleGitDags
    rfl rfl (fun _ => rfl) rfl

end Airflow
